import Mathlib

/-!
# PlayKit device-authorization flow: SHA-256 and PKCE helpers

Shallow embedding of `Source/PlayKitSDK/Auth/PlayKitDeviceAuthFlow.cpp` and of the
device-authorization flow and game list of `Source/PlayKitSDKEditor/PlayKitSettingsWindow.cpp`.
Machine words are natural numbers reduced explicitly: `uint32` values modulo `2 ^ 32`,
`uint64` values modulo `2 ^ 64`, bytes modulo `256`.
-/

namespace PlayKit

/-! ## SHA-256 as written in `PlayKitDeviceAuthFlow.cpp` (lines 18-75) -/

/-- Round constants, the table `K256[64]` of the source, one list for each of its eight
lines (lines 19-26). -/
def K256 : List Nat :=
  [0x428a2f98, 0x71374491, 0xb5c0fbcf, 0xe9b5dba5, 0x3956c25b, 0x59f111f1, 0x923f82a4, 0xab1c5ed5]
  ++ [0xd807aa98, 0x12835b01, 0x243185be, 0x550c7dc3, 0x72be5d74, 0x80deb1fe, 0x9bdc06a7,
      0xc19bf174]
  ++ [0xe49b69c1, 0xefbe4786, 0x0fc19dc6, 0x240ca1cc, 0x2de92c6f, 0x4a7484aa, 0x5cb0a9dc,
      0x76f988da]
  ++ [0x983e5152, 0xa831c66d, 0xb00327c8, 0xbf597fc7, 0xc6e00bf3, 0xd5a79147, 0x06ca6351,
      0x14292967]
  ++ [0x27b70a85, 0x2e1b2138, 0x4d2c6dfc, 0x53380d13, 0x650a7354, 0x766a0abb, 0x81c2c92e,
      0x92722c85]
  ++ [0xa2bfe8a1, 0xa81a664b, 0xc24b8b70, 0xc76c51a3, 0xd192e819, 0xd6990624, 0xf40e3585,
      0x106aa070]
  ++ [0x19a4c116, 0x1e376c08, 0x2748774c, 0x34b0bcb5, 0x391c0cb3, 0x4ed8aa4a, 0x5b9cca4f,
      0x682e6ff3]
  ++ [0x748f82ee, 0x78a5636f, 0x84c87814, 0x8cc70208, 0x90befffa, 0xa4506ceb, 0xbef9a3f7,
      0xc67178f2]

/-- Truncation of a value to `uint32`. -/
def u32 (x : Nat) : Nat := x % 2 ^ 32

/-- Truncation of a value to `uint64`. -/
def u64 (x : Nat) : Nat := x % 2 ^ 64

/-- Addition of two `uint32` values (`+` on `uint32` wraps). -/
def add32 (x y : Nat) : Nat := u32 (x + y)

/-- Bitwise complement of a `uint32` value (`~x`). -/
def not32 (x : Nat) : Nat := u32 (x ^^^ 0xffffffff)

/-- `RotR(x, n) = (x >> n) | (x << (32 - n))` on `uint32`. -/
def RotR (x n : Nat) : Nat := (x >>> n) ||| u32 (x <<< (32 - n))

/-- `Ch(x, y, z) = (x & y) ^ (~x & z)`. -/
def Ch (x y z : Nat) : Nat := (x &&& y) ^^^ (not32 x &&& z)

/-- `Maj(x, y, z) = (x & y) ^ (x & z) ^ (y & z)`. -/
def Maj (x y z : Nat) : Nat := (x &&& y) ^^^ (x &&& z) ^^^ (y &&& z)

/-- `Sigma0(x) = RotR(x, 2) ^ RotR(x, 13) ^ RotR(x, 22)`. -/
def Sigma0 (x : Nat) : Nat := RotR x 2 ^^^ RotR x 13 ^^^ RotR x 22

/-- `Sigma1(x) = RotR(x, 6) ^ RotR(x, 11) ^ RotR(x, 25)`. -/
def Sigma1 (x : Nat) : Nat := RotR x 6 ^^^ RotR x 11 ^^^ RotR x 25

/-- `sigma0(x) = RotR(x, 7) ^ RotR(x, 18) ^ (x >> 3)`. -/
def sigma0 (x : Nat) : Nat := RotR x 7 ^^^ RotR x 18 ^^^ (x >>> 3)

/-- `sigma1(x) = RotR(x, 17) ^ RotR(x, 19) ^ (x >> 10)`. -/
def sigma1 (x : Nat) : Nat := RotR x 17 ^^^ RotR x 19 ^^^ (x >>> 10)

/-- A counted loop `for (i = lo; i < lo + n; i++) s = body(i, s)`. -/
def forLoop {σ : Type} (body : Nat → σ → σ) : Nat → Nat → σ → σ
  | _, 0, s => s
  | lo, n + 1, s => forLoop body (lo + 1) n (body lo s)

/-- Initial hash state `H[8]` of the source. -/
def H0 : List Nat :=
  [0x6a09e667, 0xbb67ae85, 0x3c6ef372, 0xa54ff53a, 0x510e527f, 0x9b05688c, 0x1f83d9ab, 0x5be0cd19]

/-- `PaddedLen = ((DataLen + 9 + 63) / 64) * 64` in `uint64` arithmetic (line 42). -/
def PaddedLen (DataLen : Nat) : Nat := u64 (u64 (u64 (u64 (DataLen + 9) + 63) / 64) * 64)

/-- `BitLen = DataLen * 8` in `uint64` arithmetic (line 41). -/
def BitLen (DataLen : Nat) : Nat := u64 (DataLen * 8)

/-- The buffer `Padded` after lines 43-47: zero-filled to `PaddedLen`, the data copied to the
front, `0x80` written at index `DataLen`, and the eight bytes of `BitLen` written from the end. -/
def buildPadded (Data : List Nat) : List Nat :=
  let DataLen := u64 Data.length
  let zeroed := List.replicate (PaddedLen DataLen) 0
  let copied := Data.take DataLen ++ zeroed.drop DataLen
  let marked := copied.set DataLen 0x80
  forLoop (fun i P => P.set (PaddedLen DataLen - 1 - i) ((BitLen DataLen >>> (i * 8)) &&& 0xff))
    0 8 marked

/-- Lines 52-53: the first sixteen schedule words read big-endian from the block at `Offset`;
`W` is the 64-entry local array. -/
def loadBlock (Padded : List Nat) (Offset : Nat) (W : List Nat) : List Nat :=
  forLoop (fun i W => W.set i
    (u32 ((Padded.getD (Offset + i * 4) 0 <<< 24) ||| (Padded.getD (Offset + i * 4 + 1) 0 <<< 16)
      ||| (Padded.getD (Offset + i * 4 + 2) 0 <<< 8) ||| Padded.getD (Offset + i * 4 + 3) 0)))
    0 16 W

/-- Lines 54-55: schedule words 16..63. -/
def expandBlock (W : List Nat) : List Nat :=
  forLoop (fun i W => W.set i
    (add32 (add32 (add32 (sigma1 (W.getD (i - 2) 0)) (W.getD (i - 7) 0))
      (sigma0 (W.getD (i - 15) 0))) (W.getD (i - 16) 0)))
    16 48 W

/-- The eight working variables `a .. h`. -/
structure Vars where
  a : Nat
  b : Nat
  c : Nat
  d : Nat
  e : Nat
  f : Nat
  g : Nat
  h : Nat
deriving DecidableEq, Repr

/-- The working variables in the order `a, b, c, d, e, f, g, h`. -/
def Vars.toList (v : Vars) : List Nat := [v.a, v.b, v.c, v.d, v.e, v.f, v.g, v.h]

/-- Body of the round loop, lines 60-62. -/
def round (W : List Nat) (i : Nat) (v : Vars) : Vars :=
  let T1 := add32 (add32 (add32 (add32 v.h (Sigma1 v.e)) (Ch v.e v.f v.g)) (K256.getD i 0))
    (W.getD i 0)
  let T2 := add32 (Sigma0 v.a) (Maj v.a v.b v.c)
  { h := v.g, g := v.f, f := v.e, e := add32 v.d T1, d := v.c, c := v.b, b := v.a,
    a := add32 T1 T2 }

/-- One iteration of the block loop, lines 51-64. -/
def processBlock (Padded : List Nat) (Offset : Nat) (H : List Nat) : List Nat :=
  let W := expandBlock (loadBlock Padded Offset (List.replicate 64 0))
  let v0 : Vars := ⟨H.getD 0 0, H.getD 1 0, H.getD 2 0, H.getD 3 0,
    H.getD 4 0, H.getD 5 0, H.getD 6 0, H.getD 7 0⟩
  let v := forLoop (round W) 0 64 v0
  [add32 (H.getD 0 0) v.a, add32 (H.getD 1 0) v.b, add32 (H.getD 2 0) v.c, add32 (H.getD 3 0) v.d,
   add32 (H.getD 4 0) v.e, add32 (H.getD 5 0) v.f, add32 (H.getD 6 0) v.g, add32 (H.getD 7 0) v.h]

/-- Lines 67-73: the eight state words written out, most significant byte first. -/
def writeHash (H : List Nat) : List Nat :=
  forLoop (fun i Out =>
    (((Out.set (i * 4) ((H.getD i 0 >>> 24) &&& 0xff)).set (i * 4 + 1)
      ((H.getD i 0 >>> 16) &&& 0xff)).set (i * 4 + 2) ((H.getD i 0 >>> 8) &&& 0xff)).set
      (i * 4 + 3) (H.getD i 0 &&& 0xff))
    0 8 (List.replicate 32 0)

/-- `ComputeSHA256(Data, DataLen, OutHash)` with `DataLen` the length of `Data`; the result is
the content of `OutHash` on return. The block loop `for (Offset = 0; Offset < PaddedLen;
Offset += 64)` runs `(PaddedLen + 63) / 64` times, the `k`-th time with `Offset = 64 * k`
(`Offset + 64` never exceeds `PaddedLen < 2 ^ 64`, so the counter does not wrap). -/
def ComputeSHA256 (Data : List Nat) : List Nat :=
  let Padded := buildPadded Data
  let H := forLoop (fun k H => processBlock Padded (k * 64) H) 0
    ((PaddedLen (u64 Data.length) + 63) / 64) H0
  writeHash H

/-! ## PKCE helpers (`PlayKitDeviceAuthFlow.cpp`, lines 123-162) -/

/-- The UTF-8 bytes of a string, as `StringCast<UTF8CHAR>` hands them to `ComputeSHA256`. -/
def utf8Bytes (s : String) : List Nat := (s.data.flatMap String.utf8EncodeChar).map UInt8.toNat

/-- Modelled from the spec: the encoding alphabet of the engine function `FBase64::Encode`
(Unreal Engine, `Misc/Base64`), which is not part of this repository; the spec calls the
encoding standard base64 (RFC 4648 section 4). -/
def EncodingAlphabet : List Char :=
  "ABCDEFGHIJKLMNOPQRSTUVWXYZabcdefghijklmnopqrstuvwxyz0123456789+/".data

/-- Modelled from the spec: the engine function `FBase64::Encode`, which is not part of this
repository: standard base64 (RFC 4648 section 4). Three bytes at a time are joined into a
`uint32` and cut into four 6-bit indices into the alphabet; a final group of one or two bytes
is filled with zero bytes and closed with `=` padding. -/
def FBase64.Encode : List Nat → List Char
  | A :: B :: C :: rest =>
    let ByteTriplet := u32 ((A <<< 16) ||| (B <<< 8) ||| C)
    EncodingAlphabet.getD ((ByteTriplet >>> 18) &&& 0x3F) 'A' ::
    EncodingAlphabet.getD ((ByteTriplet >>> 12) &&& 0x3F) 'A' ::
    EncodingAlphabet.getD ((ByteTriplet >>> 6) &&& 0x3F) 'A' ::
    EncodingAlphabet.getD (ByteTriplet &&& 0x3F) 'A' :: FBase64.Encode rest
  | [A, B] =>
    let ByteTriplet := u32 ((A <<< 16) ||| (B <<< 8) ||| 0)
    [EncodingAlphabet.getD ((ByteTriplet >>> 18) &&& 0x3F) 'A',
     EncodingAlphabet.getD ((ByteTriplet >>> 12) &&& 0x3F) 'A',
     EncodingAlphabet.getD ((ByteTriplet >>> 6) &&& 0x3F) 'A', '=']
  | [A] =>
    let ByteTriplet := u32 ((A <<< 16) ||| (0 <<< 8) ||| 0)
    [EncodingAlphabet.getD ((ByteTriplet >>> 18) &&& 0x3F) 'A',
     EncodingAlphabet.getD ((ByteTriplet >>> 12) &&& 0x3F) 'A', '=', '=']
  | [] => []

/-- `FString::ReplaceInline` for a one-character pattern and a one-character replacement. -/
def ReplaceChar (From To : Char) (s : List Char) : List Char :=
  s.map (fun c => if c = From then To else c)

/-- `FString::ReplaceInline` for a one-character pattern and the empty replacement. -/
def RemoveChar (From : Char) (s : List Char) : List Char := s.filter (fun c => c != From)

/-- `UPlayKitDeviceAuthFlow::Base64UrlEncode` (lines 153-162). -/
def Base64UrlEncode (Data : List Nat) : String :=
  String.mk (RemoveChar '=' (ReplaceChar '/' '_' (ReplaceChar '+' '-' (FBase64.Encode Data))))

/-- `UPlayKitDeviceAuthFlow::GenerateCodeVerifier` (lines 123-134). `Rand i` is the value the
`i`-th call of `FMath::RandRange(0, 255)` returns; the cast to `uint8` keeps the low byte. -/
def GenerateCodeVerifier (Rand : Nat → Nat) : String :=
  let RandomBytes := forLoop (fun i (R : List Nat) => R.set i (Rand i % 256)) 0 32
    (List.replicate 32 0)
  Base64UrlEncode RandomBytes

/-- `UPlayKitDeviceAuthFlow::GenerateCodeChallenge` (lines 136-151). -/
def GenerateCodeChallenge (InCodeVerifier : String) : String :=
  let Utf8Data := utf8Bytes InCodeVerifier
  let HashResult := ComputeSHA256 Utf8Data
  let HashArray := ([] : List Nat) ++ HashResult.take 32
  Base64UrlEncode HashArray

/-! ## The device-authorization flow (`PlayKitDeviceAuthFlow.h`, `PlayKitDeviceAuthFlow.cpp`) -/

/-- `EDeviceAuthStatus`. -/
inductive EDeviceAuthStatus where
  | Idle
  | Pending
  | Polling
  | Success
  | Expired
  | Cancelled
  | Error
deriving DecidableEq, Repr

/-- `FDeviceAuthResult`. -/
structure FDeviceAuthResult where
  bSuccess : Bool := false
  AccessToken : String := ""
  RefreshToken : String := ""
  UserId : String := ""
  PlayerToken : String := ""
  ExpiresIn : Int := 0
  ErrorMessage : String := ""
deriving DecidableEq, Repr

/-- Truncation of a value to `int32` (two's complement). -/
def i32 (x : Int) : Int := (x + 2 ^ 31) % 2 ^ 32 - 2 ^ 31

/-- The member function bound to a request's completion delegate. -/
inductive Handler where
  | HandleDeviceCodeResponse
  | HandleTokenResponse
  | HandlePlayerTokenResponse
deriving DecidableEq, Repr

/-- An HTTP request as the flow sets it up: URL, verb, headers, the string fields of the JSON
body in the order they are set, and the bound completion handler. -/
structure FHttpRequest where
  URL : String
  Verb : String
  Headers : List (String × String)
  Body : List (String × String)
  OnProcessRequestComplete : Handler
deriving DecidableEq, Repr

/-- What the flow reads from a parsed JSON object: `GetStringField` (the empty string for a
field that is missing) and `GetIntegerField` (an `int32`). -/
structure FJsonObject where
  GetStringField : String → String
  GetIntegerField : String → Int

/-- A JSON object given by its string fields and its integer fields. -/
def FJsonObject.ofFields (Strings : List (String × String)) (Integers : List (String × Int)) :
    FJsonObject where
  GetStringField := fun k => (Strings.lookup k).getD ""
  GetIntegerField := fun k => i32 ((Integers.lookup k).getD 0)

/-- An HTTP response: status code, body text, and the object `FJsonSerializer::Deserialize`
yields for the body (`none` when deserialization fails). -/
structure FHttpResponse where
  ResponseCode : Int
  Content : String
  Json : Option FJsonObject

/-- The number of low bits that do not fit into the 24-bit significand of a `float`, for a
magnitude of at most `2 ^ 31`. -/
def lostBits (a : Nat) : Nat := ((List.range 8).filter (fun k => 2 ^ (24 + k) ≤ a)).length

/-- `static_cast<float>(x)` for an `int32` value `x`, as the number the `float` stands for:
the nearest number with a 24-bit significand, a tie going to the even significand. Values of
magnitude up to `2 ^ 24` are kept as they are. -/
def castFloat (x : Int) : Int :=
  let a := x.natAbs
  let e := lostBits a
  let q := a / 2 ^ e
  let r := a % 2 ^ e
  let q := if 2 ^ e < 2 * r ∨ (2 * r = 2 ^ e ∧ q % 2 = 1) then q + 1 else q
  if x < 0 then -((q * 2 ^ e : Nat) : Int) else ((q * 2 ^ e : Nat) : Int)

/-- The arguments of a `SetTimer` call: rate in seconds (the value of the `float` passed),
looping or one-shot, and the delay before the first fire (the rate itself when the call passes
no delay). -/
structure FTimer where
  Rate : Int
  bLoop : Bool
  FirstDelay : Int
deriving DecidableEq, Repr

/-- The two timer handles of the flow. -/
inductive TimerHandle where
  | PollingTimerHandle
  | ExpirationTimerHandle
deriving DecidableEq, Repr

/-- The member variables of `UPlayKitDeviceAuthFlow`. A timer handle holds the arguments of the
`SetTimer` call that armed it, or `none` when it is not armed; `WorldPtr` is whether the weak
world pointer is valid. -/
structure FlowState where
  Status : EDeviceAuthStatus := EDeviceAuthStatus.Idle
  GameId : String := ""
  Scope : String := ""
  BaseUrl : String := "https://api.playkit.ai"
  CodeVerifier : String := ""
  CodeChallenge : String := ""
  DeviceCode : String := ""
  UserCode : String := ""
  AuthUrl : String := ""
  PollingInterval : Int := 5
  ExpiresIn : Int := 300
  AccessToken : String := ""
  RefreshToken : String := ""
  CurrentHttpRequest : Option FHttpRequest := none
  PollingTimerHandle : Option FTimer := none
  ExpirationTimerHandle : Option FTimer := none
  WorldPtr : Bool := false
deriving DecidableEq, Repr

/-- What a member function does to the outside, in the order it does it: delegate broadcasts,
HTTP requests started or cancelled, timer-manager calls, and the browser launch. -/
inductive Effect where
  | OnStatusChanged (OldStatus NewStatus : EDeviceAuthStatus)
  | OnAuthSuccess (Result : FDeviceAuthResult)
  | OnAuthError (ErrorCode ErrorMessage : String)
  | OnAuthUrlReady (AuthUrl UserCode : String)
  | ProcessRequest (Request : FHttpRequest)
  | CancelRequest (Request : FHttpRequest)
  | SetTimer (Handle : TimerHandle) (Timer : FTimer)
  | ClearTimer (Handle : TimerHandle)
  | LaunchURL (Url : String)
deriving DecidableEq, Repr

/-- The state after a member function together with the effects it had. -/
abbrev Outcome := FlowState × List Effect

/-- Sequencing of two statements. -/
def Outcome.andThen (r : Outcome) (f : FlowState → Outcome) : Outcome :=
  ((f r.1).1, r.2 ++ (f r.1).2)

/-- `FString::operator==`, which ignores case. -/
def FStringEq (a b : String) : Bool := a.data.map Char.toLower == b.data.map Char.toLower

/-- `IsActive()` (header, line 115). -/
def IsActive (s : FlowState) : Bool :=
  s.Status == EDeviceAuthStatus.Pending || s.Status == EDeviceAuthStatus.Polling

/-- `SetStatus` (lines 464-472). -/
def SetStatus (NewStatus : EDeviceAuthStatus) (s : FlowState) : Outcome :=
  if s.Status ≠ NewStatus then
    ({ s with Status := NewStatus }, [Effect.OnStatusChanged s.Status NewStatus])
  else (s, [])

/-- `Cleanup` (lines 490-515). -/
def Cleanup (s : FlowState) : Outcome :=
  let r1 : Outcome := match s.CurrentHttpRequest with
    | some Request => ({ s with CurrentHttpRequest := none }, [Effect.CancelRequest Request])
    | none => (s, [])
  let r2 : Outcome := r1.andThen fun s =>
    if s.WorldPtr then
      ({ s with PollingTimerHandle := none, ExpirationTimerHandle := none },
        [Effect.ClearTimer TimerHandle.PollingTimerHandle,
         Effect.ClearTimer TimerHandle.ExpirationTimerHandle])
    else (s, [])
  r2.andThen fun s =>
    ({ s with DeviceCode := "", UserCode := "", AuthUrl := "", CodeVerifier := "",
              CodeChallenge := "", AccessToken := "", RefreshToken := "" }, [])

/-- `CompleteWithError` (lines 474-480). -/
def CompleteWithError (ErrorCode ErrorMessage : String) (s : FlowState) : Outcome :=
  ((Cleanup s).andThen (SetStatus EDeviceAuthStatus.Error)).andThen fun s =>
    (s, [Effect.OnAuthError ErrorCode ErrorMessage])

/-- `CompleteWithSuccess` (lines 482-488). -/
def CompleteWithSuccess (Result : FDeviceAuthResult) (s : FlowState) : Outcome :=
  ((Cleanup s).andThen (SetStatus EDeviceAuthStatus.Success)).andThen fun s =>
    (s, [Effect.OnAuthSuccess Result])

/-- `RequestDeviceCode` (lines 164-190). -/
def RequestDeviceCode (s : FlowState) : Outcome :=
  let Request : FHttpRequest :=
    { URL := s.BaseUrl ++ "/" ++ "api/auth/device/code"
      Verb := "POST"
      Headers := [("Content-Type", "application/json")]
      Body := [("client_id", s.GameId), ("scope", s.Scope), ("code_challenge", s.CodeChallenge),
               ("code_challenge_method", "S256")]
      OnProcessRequestComplete := Handler.HandleDeviceCodeResponse }
  ({ s with CurrentHttpRequest := some Request }, [Effect.ProcessRequest Request])

/-- `StartAuthFlow` (lines 81-109). `Rand` is the random source of `GenerateCodeVerifier`;
`GameViewportWorld` is `none` when `GEngine` or its `GameViewport` is null, and otherwise
whether the world that `GetWorld()` returns is valid. -/
def StartAuthFlow (InGameId InScope : String) (Rand : Nat → Nat) (GameViewportWorld : Option Bool)
    (s : FlowState) : Outcome :=
  if IsActive s then (s, [])
  else
    let s := { s with GameId := InGameId, Scope := InScope }
    let s := { s with CodeVerifier := GenerateCodeVerifier Rand }
    let s := { s with CodeChallenge := GenerateCodeChallenge s.CodeVerifier }
    let s := match GameViewportWorld with
      | some World => { s with WorldPtr := World }
      | none => s
    (SetStatus EDeviceAuthStatus.Pending s).andThen RequestDeviceCode

/-- `CancelAuthFlow` (lines 111-121). -/
def CancelAuthFlow (s : FlowState) : Outcome :=
  if !IsActive s then (s, [])
  else (Cleanup s).andThen (SetStatus EDeviceAuthStatus.Cancelled)

/-- The callback of the expiration timer (lines 263-269). -/
def OnExpirationTimer (s : FlowState) : Outcome :=
  ((Cleanup s).andThen (SetStatus EDeviceAuthStatus.Expired)).andThen fun s =>
    (s, [Effect.OnAuthError "EXPIRED" "Device code expired. Please start again."])

/-- `StartPolling` (lines 248-287). -/
def StartPolling (s : FlowState) : Outcome :=
  (SetStatus EDeviceAuthStatus.Polling s).andThen fun s =>
    if !s.WorldPtr then CompleteWithError "WORLD_ERROR" "World not available for timers" s
    else
      let Expiration : FTimer :=
        { Rate := castFloat s.ExpiresIn, bLoop := false, FirstDelay := castFloat s.ExpiresIn }
      let Polling : FTimer :=
        { Rate := castFloat s.PollingInterval, bLoop := true,
          FirstDelay := castFloat s.PollingInterval }
      ({ s with ExpirationTimerHandle := some Expiration, PollingTimerHandle := some Polling },
        [Effect.SetTimer TimerHandle.ExpirationTimerHandle Expiration,
         Effect.SetTimer TimerHandle.PollingTimerHandle Polling])

/-- `PollForToken` (lines 289-318), the callback of the polling timer. -/
def PollForToken (s : FlowState) : Outcome :=
  if s.Status ≠ EDeviceAuthStatus.Polling then (s, [])
  else
    let Request : FHttpRequest :=
      { URL := s.BaseUrl ++ "/" ++ "api/auth/device/token"
        Verb := "POST"
        Headers := [("Content-Type", "application/json")]
        Body := [("client_id", s.GameId), ("device_code", s.DeviceCode),
                 ("grant_type", "urn:ietf:params:oauth:grant-type:device_code"),
                 ("code_verifier", s.CodeVerifier)]
        OnProcessRequestComplete := Handler.HandleTokenResponse }
    ({ s with CurrentHttpRequest := some Request }, [Effect.ProcessRequest Request])

/-- `ExchangeForPlayerToken` (lines 402-424). -/
def ExchangeForPlayerToken (InAccessToken : String) (s : FlowState) : Outcome :=
  let Request : FHttpRequest :=
    { URL := s.BaseUrl ++ "/" ++ "api/external/exchange-jwt"
      Verb := "POST"
      Headers := [("Content-Type", "application/json"),
                  ("Authorization", "Bearer " ++ InAccessToken)]
      Body := [("jwt", InAccessToken)]
      OnProcessRequestComplete := Handler.HandlePlayerTokenResponse }
  ({ s with CurrentHttpRequest := some Request }, [Effect.ProcessRequest Request])

/-- `HandleDeviceCodeResponse` (lines 192-246). `Response` is `none` when the response pointer
is not valid. -/
def HandleDeviceCodeResponse (Response : Option FHttpResponse) (bWasSuccessful : Bool)
    (s : FlowState) : Outcome :=
  match bWasSuccessful, Response with
  | false, _ => CompleteWithError "NETWORK_ERROR" "Failed to request device code" s
  | true, none => CompleteWithError "NETWORK_ERROR" "Failed to request device code" s
  | true, some Response =>
    if Response.ResponseCode ≠ 200 then
      CompleteWithError "HTTP_ERROR"
        ("HTTP " ++ toString Response.ResponseCode ++ ": " ++ Response.Content) s
    else
      match Response.Json with
      | none => CompleteWithError "PARSE_ERROR" "Failed to parse device code response" s
      | some JsonObject =>
        let s := { s with DeviceCode := JsonObject.GetStringField "device_code" }
        let s := { s with UserCode := JsonObject.GetStringField "user_code" }
        let s := { s with AuthUrl := JsonObject.GetStringField "verification_uri" }
        let s := { s with PollingInterval := JsonObject.GetIntegerField "interval" }
        let s := { s with ExpiresIn := JsonObject.GetIntegerField "expires_in" }
        if s.DeviceCode = "" ∨ s.AuthUrl = "" then
          CompleteWithError "INVALID_RESPONSE" "Missing required fields in device code response" s
        else
          let FullUrl := if s.UserCode ≠ "" then s.AuthUrl ++ "?user_code=" ++ s.UserCode
            else s.AuthUrl
          let r : Outcome :=
            (s, [Effect.OnAuthUrlReady s.AuthUrl s.UserCode, Effect.LaunchURL FullUrl])
          r.andThen StartPolling

/-- `HandleTokenResponse` (lines 320-400). -/
def HandleTokenResponse (Response : Option FHttpResponse) (bWasSuccessful : Bool)
    (s : FlowState) : Outcome :=
  match bWasSuccessful, Response with
  | false, _ => (s, [])
  | true, none => (s, [])
  | true, some Response =>
    match Response.Json with
    | none => (s, [])
    | some JsonObject =>
      if Response.ResponseCode = 200 then
        let s := { s with AccessToken := JsonObject.GetStringField "access_token" }
        let s := { s with RefreshToken := JsonObject.GetStringField "refresh_token" }
        if s.AccessToken = "" then CompleteWithError "INVALID_TOKEN" "Received empty access token" s
        else ExchangeForPlayerToken s.AccessToken s
      else
        let Other : Outcome :=
          let ErrorMessage := JsonObject.GetStringField "error_description"
          let ErrorMessage := if ErrorMessage = "" then Response.Content else ErrorMessage
          CompleteWithError "TOKEN_ERROR" ErrorMessage s
        if Response.ResponseCode = 400 then
          let Error := JsonObject.GetStringField "error"
          if FStringEq Error "authorization_pending" then (s, [])
          else if FStringEq Error "slow_down" then
            ({ s with PollingInterval := i32 (s.PollingInterval + 5) }, [])
          else if FStringEq Error "expired_token" then
            ((Cleanup s).andThen (SetStatus EDeviceAuthStatus.Expired)).andThen fun s =>
              (s, [Effect.OnAuthError "EXPIRED" "Device code expired"])
          else if FStringEq Error "access_denied" then
            ((Cleanup s).andThen (SetStatus EDeviceAuthStatus.Error)).andThen fun s =>
              (s, [Effect.OnAuthError "ACCESS_DENIED" "User denied authorization"])
          else Other
        else Other

/-- `HandlePlayerTokenResponse` (lines 426-462). -/
def HandlePlayerTokenResponse (Response : Option FHttpResponse) (bWasSuccessful : Bool)
    (s : FlowState) : Outcome :=
  match bWasSuccessful, Response with
  | false, _ => CompleteWithError "NETWORK_ERROR" "Failed to exchange for player token" s
  | true, none => CompleteWithError "NETWORK_ERROR" "Failed to exchange for player token" s
  | true, some Response =>
    if Response.ResponseCode ≠ 200 then
      CompleteWithError "EXCHANGE_ERROR"
        ("HTTP " ++ toString Response.ResponseCode ++ ": " ++ Response.Content) s
    else
      match Response.Json with
      | none => CompleteWithError "PARSE_ERROR" "Failed to parse player token response" s
      | some JsonObject =>
        let Result : FDeviceAuthResult :=
          { bSuccess := true
            AccessToken := s.AccessToken
            RefreshToken := s.RefreshToken
            UserId := JsonObject.GetStringField "userId"
            PlayerToken := JsonObject.GetStringField "playerToken"
            ExpiresIn := JsonObject.GetIntegerField "expiresIn" }
        CompleteWithSuccess Result s

/-! ## Example states and responses (the scenarios of the spec) -/

/-- Scenario A: the device-code response `device_code = "dc1"`, `user_code = "ABCD-1234"`,
`verification_uri = "https://x/verify"`, `interval = 5`, `expires_in = 300`. -/
def scenarioDeviceCodeResponse : FHttpResponse where
  ResponseCode := 200
  Content := "device code"
  Json := some (FJsonObject.ofFields
    [("device_code", "dc1"), ("user_code", "ABCD-1234"), ("verification_uri", "https://x/verify")]
    [("interval", 5), ("expires_in", 300)])

/-- A flow that polls after scenario A: session stored, both timers armed. -/
def scenarioPollingState : FlowState where
  Status := EDeviceAuthStatus.Polling
  GameId := "game"
  Scope := "player:play"
  CodeVerifier := "verifier"
  CodeChallenge := "challenge"
  DeviceCode := "dc1"
  UserCode := "ABCD-1234"
  AuthUrl := "https://x/verify"
  PollingTimerHandle := some ⟨5, true, 5⟩
  ExpirationTimerHandle := some ⟨300, false, 300⟩
  WorldPtr := true

/-- A poll response with status 400 and the given `error` field. -/
def errorResponse (Error : String) : FHttpResponse where
  ResponseCode := 400
  Content := "error"
  Json := some (FJsonObject.ofFields [("error", Error)] [])

/-- A poll response with status 200 and the given `access_token`. -/
def tokenResponse (AccessToken : String) : FHttpResponse where
  ResponseCode := 200
  Content := "token"
  Json := some (FJsonObject.ofFields [("access_token", AccessToken)] [])

/-- A fresh flow object after `StartAuthFlow("game", "player:play")` with a world available. -/
def pendingState : FlowState :=
  (StartAuthFlow "game" "player:play" (fun i => i) (some true) {}).1

/-- A fresh flow object after `StartAuthFlow("game", "player:play")` when the engine has no game
viewport, so that `WorldPtr` stays invalid. -/
def noWorldPendingState : FlowState :=
  (StartAuthFlow "game" "player:play" (fun i => i) none {}).1

/-- A polling flow whose server asked for the largest `int32` interval. -/
def maxIntervalState : FlowState :=
  (HandleDeviceCodeResponse (some
    { ResponseCode := 200
      Content := "device code"
      Json := some (FJsonObject.ofFields
        [("device_code", "dc1"), ("user_code", "ABCD-1234"),
         ("verification_uri", "https://x/verify")]
        [("interval", 2147483647), ("expires_in", 300)]) }) true pendingState).1

/-! ## Reading an effect list -/

/-- The error codes of the `OnAuthError` broadcasts, in order. -/
def authErrorCodes (l : List Effect) : List String :=
  l.filterMap fun e => match e with
    | Effect.OnAuthError ErrorCode _ => some ErrorCode
    | _ => none

/-- The `OnAuthError` broadcasts with their messages, in order. -/
def authErrors (l : List Effect) : List (String × String) :=
  l.filterMap fun e => match e with
    | Effect.OnAuthError ErrorCode ErrorMessage => some (ErrorCode, ErrorMessage)
    | _ => none

/-- The `SetTimer` calls, in order. -/
def timersSet (l : List Effect) : List (TimerHandle × FTimer) :=
  l.filterMap fun e => match e with
    | Effect.SetTimer Handle Timer => some (Handle, Timer)
    | _ => none

/-- The `OnAuthUrlReady` broadcasts, in order. -/
def authUrlsReady (l : List Effect) : List (String × String) :=
  l.filterMap fun e => match e with
    | Effect.OnAuthUrlReady AuthUrl UserCode => some (AuthUrl, UserCode)
    | _ => none

/-- The requests started, in order. -/
def requestsSent (l : List Effect) : List FHttpRequest :=
  l.filterMap fun e => match e with
    | Effect.ProcessRequest Request => some Request
    | _ => none

/-- The `OnAuthSuccess` broadcasts, in order. -/
def authSuccesses (l : List Effect) : List FDeviceAuthResult :=
  l.filterMap fun e => match e with
    | Effect.OnAuthSuccess Result => some Result
    | _ => none

/-- The `OnStatusChanged` broadcasts, in order. -/
def statusChanges (l : List Effect) : List (EDeviceAuthStatus × EDeviceAuthStatus) :=
  l.filterMap fun e => match e with
    | Effect.OnStatusChanged OldStatus NewStatus => some (OldStatus, NewStatus)
    | _ => none

/-- An outcome that ends in status `Error` with exactly one `OnAuthError`, carrying the code
`ErrorCode`, and with no timer set, no `OnAuthUrlReady` broadcast and no request started. -/
def EndsInError (ErrorCode : String) (r : Outcome) : Prop :=
  r.1.Status = EDeviceAuthStatus.Error ∧ authErrorCodes r.2 = [ErrorCode] ∧
    timersSet r.2 = [] ∧ authUrlsReady r.2 = [] ∧ requestsSent r.2 = []

instance (ErrorCode : String) (r : Outcome) : Decidable (EndsInError ErrorCode r) := by
  unfold EndsInError; infer_instance

/-! ## The flow in its environment

The flow object together with the requests it has started and the effects it has had so far.
The environment drives it with the calls of the host (`StartAuthFlow`, `CancelAuthFlow`), the
fires of the two timers while they are armed, the completion of requests that were started
and have not completed yet, and the destruction of the world that the flow holds a weak
pointer to. Cancelling a request does not take it out of flight: its completion
delegate may still run, with a failure or with a response that came in late. -/

/-- The flow object, the completion handlers of the requests in flight, and the effects so
far. -/
structure System where
  Flow : FlowState := {}
  InFlight : List Handler := []
  Trace : List Effect := []

/-- What the environment can do to the flow. -/
inductive Event where
  | StartAuthFlow (InGameId InScope : String) (Rand : Nat → Nat)
      (GameViewportWorld : Option Bool)
  | CancelAuthFlow
  | PollingTimerFires
  | ExpirationTimerFires
  | ResponseArrives (To : Handler) (Response : Option FHttpResponse) (bWasSuccessful : Bool)
  | WorldDestroyed

/-- The member function a completion delegate is bound to. -/
def Handler.call : Handler → Option FHttpResponse → Bool → FlowState → Outcome
  | Handler.HandleDeviceCodeResponse => PlayKit.HandleDeviceCodeResponse
  | Handler.HandleTokenResponse => PlayKit.HandleTokenResponse
  | Handler.HandlePlayerTokenResponse => PlayKit.HandlePlayerTokenResponse

/-- The system after a member function has run with outcome `r`: the requests it started are
in flight, its effects are appended to the trace. -/
def System.after (sys : System) (r : Outcome) : System where
  Flow := r.1
  InFlight := sys.InFlight ++
    (requestsSent r.2).map (fun Request => Request.OnProcessRequestComplete)
  Trace := sys.Trace ++ r.2

/-- One event. A timer fires only while it is armed, and the one-shot expiration timer is gone
after its callback; a response arrives only for a request in flight, which it completes. When
the world that `WorldPtr` refers to is destroyed the weak pointer is no longer valid; the flow
object is not told, and its timer handles keep their value. An event that cannot happen leaves
the system as it is. -/
def System.step (sys : System) : Event → System
  | Event.StartAuthFlow InGameId InScope Rand GameViewportWorld =>
    sys.after (StartAuthFlow InGameId InScope Rand GameViewportWorld sys.Flow)
  | Event.CancelAuthFlow => sys.after (CancelAuthFlow sys.Flow)
  | Event.PollingTimerFires =>
    if sys.Flow.PollingTimerHandle.isSome then sys.after (PollForToken sys.Flow) else sys
  | Event.ExpirationTimerFires =>
    if sys.Flow.ExpirationTimerHandle.isSome then
      sys.after ({ (OnExpirationTimer sys.Flow).1 with ExpirationTimerHandle := none },
        (OnExpirationTimer sys.Flow).2)
    else sys
  | Event.ResponseArrives To Response bWasSuccessful =>
    if To ∈ sys.InFlight then
      System.after { sys with InFlight := sys.InFlight.erase To }
        (To.call Response bWasSuccessful sys.Flow)
    else sys
  | Event.WorldDestroyed => { sys with Flow := { sys.Flow with WorldPtr := false } }

/-- A sequence of events, from the left. -/
def System.run (sys : System) (Events : List Event) : System := Events.foldl System.step sys

/-- The systems that can be reached from a freshly constructed flow object. -/
inductive Reachable : System → Prop where
  | init : Reachable {}
  | step (sys : System) (e : Event) : Reachable sys → Reachable (sys.step e)

/-- A flow that is not active and whose world pointer is valid has neither timer armed. -/
def TimersConsistent (s : FlowState) : Prop :=
  IsActive s = false → s.WorldPtr = true →
    s.PollingTimerHandle = none ∧ s.ExpirationTimerHandle = none

/-- The session and PKCE fields are all empty. -/
def SessionCleared (s : FlowState) : Prop :=
  s.DeviceCode = "" ∧ s.UserCode = "" ∧ s.AuthUrl = "" ∧ s.CodeVerifier = "" ∧
    s.CodeChallenge = "" ∧ s.AccessToken = "" ∧ s.RefreshToken = ""

instance (s : FlowState) : Decidable (SessionCleared s) := by
  unfold SessionCleared; infer_instance

/-- Scenario A as a run: `StartAuthFlow` on a fresh flow object with a world available, then
the device-code response of scenario A. The flow is polling with both timers armed. -/
def scenarioPollingSystem : System :=
  System.run {}
    [Event.StartAuthFlow "game" "player:play" (fun i => i) (some true),
     Event.ResponseArrives Handler.HandleDeviceCodeResponse (some scenarioDeviceCodeResponse) true]

/-- The exchange response of scenario B: `userId = "u1"`, `playerToken = "pt1"`,
`expiresIn = 3600`. -/
def scenarioExchangeResponse : FHttpResponse where
  ResponseCode := 200
  Content := "exchange"
  Json := some (FJsonObject.ofFields [("userId", "u1"), ("playerToken", "pt1")]
    [("expiresIn", 3600)])

/-- Scenario B as a run after scenario A: four polls, answered with `authorization_pending`
twice, `slow_down`, and `200` with `access_token = "at1"`, then the exchange response. -/
def scenarioSuccessEvents : List Event :=
  [Event.PollingTimerFires,
   Event.ResponseArrives Handler.HandleTokenResponse
     (some (errorResponse "authorization_pending")) true,
   Event.PollingTimerFires,
   Event.ResponseArrives Handler.HandleTokenResponse
     (some (errorResponse "authorization_pending")) true,
   Event.PollingTimerFires,
   Event.ResponseArrives Handler.HandleTokenResponse (some (errorResponse "slow_down")) true,
   Event.PollingTimerFires,
   Event.ResponseArrives Handler.HandleTokenResponse (some (tokenResponse "at1")) true,
   Event.ResponseArrives Handler.HandlePlayerTokenResponse (some scenarioExchangeResponse) true]

/-- A polling flow in which the polling timer has fired twice before any answer, and which
the host then cancels: the second poll request replaced the first in `CurrentHttpRequest`, so
the first was never cancelled. -/
def cancelledSystem : System :=
  scenarioPollingSystem.run
    [Event.PollingTimerFires, Event.PollingTimerFires, Event.CancelAuthFlow]

/-- The request `ExchangeForPlayerToken` builds for the access token `a`. -/
def exchangeRequest (BaseUrl a : String) : FHttpRequest where
  URL := BaseUrl ++ "/" ++ "api/external/exchange-jwt"
  Verb := "POST"
  Headers := [("Content-Type", "application/json"), ("Authorization", "Bearer " ++ a)]
  Body := [("jwt", a)]
  OnProcessRequestComplete := Handler.HandlePlayerTokenResponse

/-! ## Broadcasts and terminal transitions -/

/-- The delegate broadcasts among the effects: what a listener of the flow observes. -/
def Effect.isBroadcast : Effect → Bool
  | Effect.OnStatusChanged _ _ => true
  | Effect.OnAuthSuccess _ => true
  | Effect.OnAuthError _ _ => true
  | Effect.OnAuthUrlReady _ _ => true
  | _ => false

/-- The outcome `r` of a transition from `s` to the status `n` in which `Cleanup` ran first:
the effects are those of `Cleanup`, then `OnStatusChanged(old, n)` (when the status differs),
then the broadcasts `l`, and the state is the one `Cleanup` left, with the status `n`. The
status is assigned before `OnStatusChanged` is broadcast and nothing is assigned after it, so
this state is the one a listener finds at each of the broadcasts. -/
def CleanupThenBroadcast (s : FlowState) (n : EDeviceAuthStatus) (l : List Effect)
    (r : Outcome) : Prop :=
  r.1 = { (Cleanup s).1 with Status := n } ∧
  r.2 = (Cleanup s).2 ++
    ((if s.Status = n then [] else [Effect.OnStatusChanged s.Status n]) ++ l)

/-- Every `OnStatusChanged` broadcast in `l` has two different arguments. -/
def StatusChangesDiffer (l : List Effect) : Prop :=
  ∀ p ∈ statusChanges l, p.1 ≠ p.2

/-! ## The session of a flow -/

/-- `GetAuthUrl()` (header, line 103). -/
def GetAuthUrl (s : FlowState) : String := s.AuthUrl

/-- `GetUserCode()` (header, line 109). -/
def GetUserCode (s : FlowState) : String := s.UserCode

/-- The PKCE pair is either absent or the challenge is the one `GenerateCodeChallenge` derives
from the verifier, and a flow that is not active holds neither a device-authorization session
(`DeviceCode`, `UserCode`, `AuthUrl`) nor a PKCE pair. -/
def SessionConsistent (s : FlowState) : Prop :=
  ((s.CodeVerifier = "" ∧ s.CodeChallenge = "") ∨
    s.CodeChallenge = GenerateCodeChallenge s.CodeVerifier) ∧
  (IsActive s = false →
    s.DeviceCode = "" ∧ s.UserCode = "" ∧ s.AuthUrl = "" ∧ s.CodeVerifier = "" ∧
    s.CodeChallenge = "")

/-- A second flow on the same object after `cancelledSystem`, overtaken by the answers of
requests that were never cancelled. The host calls `StartAuthFlow` again; the answer of the
first poll of the cancelled flow, a 200 with `access_token = "at1"`, arrives and starts the
exchange request, which replaces the new device-code request in `CurrentHttpRequest`; the
exchange response completes with `Success`, whose `Cleanup` cancels the exchange request only
and empties the PKCE pair; then the answer of the new device-code request arrives. -/
def restartedSystem : System :=
  cancelledSystem.run
    [Event.StartAuthFlow "game" "player:play" (fun i => i) (some true),
     Event.ResponseArrives Handler.HandleTokenResponse (some (tokenResponse "at1")) true,
     Event.ResponseArrives Handler.HandlePlayerTokenResponse (some scenarioExchangeResponse)
       true,
     Event.ResponseArrives Handler.HandleDeviceCodeResponse (some scenarioDeviceCodeResponse)
       true]

/-- A flow cancelled while its device-code request is pending, in which the answer of that
request then arrives with status 200. -/
def cancelledThenAnsweredSystem : System :=
  System.run {}
    [Event.StartAuthFlow "game" "player:play" (fun i => i) (some true),
     Event.CancelAuthFlow,
     Event.ResponseArrives Handler.HandleDeviceCodeResponse (some scenarioDeviceCodeResponse)
       true]

/-- The system `cancelledSystem` after the answer of its first poll request, a 200 with
`access_token = "at1"`, has arrived. -/
def lateTokenSystem : System :=
  cancelledSystem.run
    [Event.ResponseArrives Handler.HandleTokenResponse (some (tokenResponse "at1")) true]

/-- The polling flow of scenario A after its world has been destroyed: both timer handles are
still set and the world pointer is no longer valid. -/
def worldlessPollingSystem : System := scenarioPollingSystem.run [Event.WorldDestroyed]

/-- The polling flow of scenario A in which the first poll was answered with a 200 and
`access_token = "at1"`, so that the exchange request was started, and the polling timer, still
armed, then fired once more: the second poll request has replaced the exchange request in
`CurrentHttpRequest`, and the exchange request is still in flight. -/
def overtakenExchangeSystem : System :=
  scenarioPollingSystem.run
    [Event.PollingTimerFires,
     Event.ResponseArrives Handler.HandleTokenResponse (some (tokenResponse "at1")) true,
     Event.PollingTimerFires]

/-- The run `overtakenExchangeSystem` continued: the second poll is answered with
`400 expired_token`, and then the exchange response of scenario B arrives. -/
def expiredThenExchangedSystem : System :=
  overtakenExchangeSystem.run
    [Event.ResponseArrives Handler.HandleTokenResponse (some (errorResponse "expired_token"))
       true,
     Event.ResponseArrives Handler.HandlePlayerTokenResponse (some scenarioExchangeResponse)
       true]

/-- The device-code response of scenario A with `interval = 16777217`, a number that no
`float` holds. -/
def oddIntervalResponse : FHttpResponse where
  ResponseCode := 200
  Content := "device code"
  Json := some (FJsonObject.ofFields
    [("device_code", "dc1"), ("user_code", "ABCD-1234"), ("verification_uri", "https://x/verify")]
    [("interval", 16777217), ("expires_in", 300)])

/-! ## `ComputeSHA256` with every array access checked

The statements of `ComputeSHA256` once more, where reading or writing an element outside an
array fails: `TArray::operator[]` checks its index, and for the local arrays `W`, `K256`, `H`
and `OutHash` such an access is undefined. Index expressions of type `uint64` wrap. `TArray` is
taken to hold as many elements as `SetNumZeroed` is asked for. -/

/-- The read `A[Index]`: `none` when `Index` is outside the array. -/
def readAt (A : List Nat) (Index : Nat) : Option Nat :=
  if Index < A.length then some (A.getD Index 0) else none

/-- The write `A[Index] = Value`: `none` when `Index` is outside the array. -/
def writeAt (A : List Nat) (Index Value : Nat) : Option (List Nat) :=
  if Index < A.length then some (A.set Index Value) else none

/-- A counted loop `for (i = lo; i < lo + n; i++)` whose body can fail. -/
def forLoopM {σ : Type} (body : Nat → σ → Option σ) : Nat → Nat → σ → Option σ
  | _, 0, s => some s
  | lo, n + 1, s => (body lo s).bind (forLoopM body (lo + 1) n)

/-- Subtraction of two `uint64` values (`-` on `uint64` wraps). -/
def sub64 (x y : Nat) : Nat := u64 (x + (2 ^ 64 - u64 y))

namespace Checked

/-- Lines 43-47 with the bounds of `Memcpy` and of both index expressions checked. -/
def buildPadded (Data : List Nat) : Option (List Nat) :=
  let DataLen := u64 Data.length
  let zeroed := List.replicate (PaddedLen DataLen) 0
  if DataLen ≤ Data.length ∧ DataLen ≤ zeroed.length then
    let copied := Data.take DataLen ++ zeroed.drop DataLen
    (writeAt copied DataLen 0x80).bind fun marked =>
      forLoopM (fun i P => writeAt P (sub64 (sub64 (PaddedLen DataLen) 1) i)
        ((BitLen DataLen >>> (i * 8)) &&& 0xff)) 0 8 marked
  else none

/-- Lines 52-53 with the four reads of `Padded` and the write of `W[i]` checked. -/
def loadBlock (Padded : List Nat) (Offset : Nat) (W : List Nat) : Option (List Nat) :=
  forLoopM (fun i W =>
    (readAt Padded (u64 (Offset + i * 4))).bind fun b0 =>
    (readAt Padded (u64 (Offset + i * 4 + 1))).bind fun b1 =>
    (readAt Padded (u64 (Offset + i * 4 + 2))).bind fun b2 =>
    (readAt Padded (u64 (Offset + i * 4 + 3))).bind fun b3 =>
    writeAt W i (u32 ((b0 <<< 24) ||| (b1 <<< 16) ||| (b2 <<< 8) ||| b3)))
    0 16 W

/-- Lines 54-55 with the reads `W[i-2]`, `W[i-7]`, `W[i-15]`, `W[i-16]` and the write of
`W[i]` checked; an index below zero is outside the array. -/
def expandBlock (W : List Nat) : Option (List Nat) :=
  forLoopM (fun i W =>
    if 16 ≤ i then
      (readAt W (i - 2)).bind fun w2 =>
      (readAt W (i - 7)).bind fun w7 =>
      (readAt W (i - 15)).bind fun w15 =>
      (readAt W (i - 16)).bind fun w16 =>
      writeAt W i (add32 (add32 (add32 (sigma1 w2) w7) (sigma0 w15)) w16)
    else none)
    16 48 W

/-- Body of the round loop, lines 60-62, with the reads `K256[i]` and `W[i]` checked. -/
def round (W : List Nat) (i : Nat) (v : Vars) : Option Vars :=
  (readAt K256 i).bind fun k =>
  (readAt W i).bind fun w =>
  let T1 := add32 (add32 (add32 (add32 v.h (Sigma1 v.e)) (Ch v.e v.f v.g)) k) w
  let T2 := add32 (Sigma0 v.a) (Maj v.a v.b v.c)
  some { h := v.g, g := v.f, f := v.e, e := add32 v.d T1, d := v.c, c := v.b, b := v.a,
         a := add32 T1 T2 }

/-- One iteration of the block loop, lines 51-64, with the accesses to `H[0]`..`H[7]`
checked. -/
def processBlock (Padded : List Nat) (Offset : Nat) (H : List Nat) : Option (List Nat) :=
  (loadBlock Padded Offset (List.replicate 64 0)).bind fun W16 =>
  (expandBlock W16).bind fun W =>
  (readAt H 0).bind fun h0 => (readAt H 1).bind fun h1 =>
  (readAt H 2).bind fun h2 => (readAt H 3).bind fun h3 =>
  (readAt H 4).bind fun h4 => (readAt H 5).bind fun h5 =>
  (readAt H 6).bind fun h6 => (readAt H 7).bind fun h7 =>
  (forLoopM (round W) 0 64 ⟨h0, h1, h2, h3, h4, h5, h6, h7⟩).bind fun v =>
  some [add32 h0 v.a, add32 h1 v.b, add32 h2 v.c, add32 h3 v.d,
        add32 h4 v.e, add32 h5 v.f, add32 h6 v.g, add32 h7 v.h]

/-- Lines 67-73 with the read of `H[i]` and the four writes to `OutHash` checked. -/
def writeHash (H : List Nat) : Option (List Nat) :=
  forLoopM (fun i Out =>
    (readAt H i).bind fun hi =>
    (writeAt Out (i * 4) ((hi >>> 24) &&& 0xff)).bind fun Out =>
    (writeAt Out (i * 4 + 1) ((hi >>> 16) &&& 0xff)).bind fun Out =>
    (writeAt Out (i * 4 + 2) ((hi >>> 8) &&& 0xff)).bind fun Out =>
    writeAt Out (i * 4 + 3) (hi &&& 0xff))
    0 8 (List.replicate 32 0)

/-- `ComputeSHA256` with every array access checked: `none` when some access is outside its
array, and otherwise the content of `OutHash` on return. -/
def ComputeSHA256 (Data : List Nat) : Option (List Nat) :=
  (buildPadded Data).bind fun Padded =>
  (forLoopM (fun k H => processBlock Padded (u64 (k * 64)) H) 0
    ((PaddedLen (u64 Data.length) + 63) / 64) H0).bind fun H =>
  writeHash H

end Checked

/-! ## The settings window of the editor (`Source/PlayKitSDKEditor/PlayKitSettingsWindow.cpp`)

The editor module carries its own copy of SHA-256 (lines 27-87), derives the PKCE pair inline
in `StartDeviceAuthFlow` (lines 937-967), polls with its own response handler (lines
1094-1275), and lists the games of the developer (lines 1384-1453). -/

namespace SettingsWindow

/-- Round constants, the table `K256[64]` of the settings window, one list for each of its
eight lines (lines 31-38). -/
def K256 : List Nat :=
  [0x428a2f98, 0x71374491, 0xb5c0fbcf, 0xe9b5dba5, 0x3956c25b, 0x59f111f1, 0x923f82a4, 0xab1c5ed5]
  ++ [0xd807aa98, 0x12835b01, 0x243185be, 0x550c7dc3, 0x72be5d74, 0x80deb1fe, 0x9bdc06a7,
      0xc19bf174]
  ++ [0xe49b69c1, 0xefbe4786, 0x0fc19dc6, 0x240ca1cc, 0x2de92c6f, 0x4a7484aa, 0x5cb0a9dc,
      0x76f988da]
  ++ [0x983e5152, 0xa831c66d, 0xb00327c8, 0xbf597fc7, 0xc6e00bf3, 0xd5a79147, 0x06ca6351,
      0x14292967]
  ++ [0x27b70a85, 0x2e1b2138, 0x4d2c6dfc, 0x53380d13, 0x650a7354, 0x766a0abb, 0x81c2c92e,
      0x92722c85]
  ++ [0xa2bfe8a1, 0xa81a664b, 0xc24b8b70, 0xc76c51a3, 0xd192e819, 0xd6990624, 0xf40e3585,
      0x106aa070]
  ++ [0x19a4c116, 0x1e376c08, 0x2748774c, 0x34b0bcb5, 0x391c0cb3, 0x4ed8aa4a, 0x5b9cca4f,
      0x682e6ff3]
  ++ [0x748f82ee, 0x78a5636f, 0x84c87814, 0x8cc70208, 0x90befffa, 0xa4506ceb, 0xbef9a3f7,
      0xc67178f2]

/-- `RotR` of the settings window (line 41). -/
def RotR (x n : Nat) : Nat := (x >>> n) ||| u32 (x <<< (32 - n))

/-- `Ch` of the settings window (line 42). -/
def Ch (x y z : Nat) : Nat := (x &&& y) ^^^ (not32 x &&& z)

/-- `Maj` of the settings window (line 43). -/
def Maj (x y z : Nat) : Nat := (x &&& y) ^^^ (x &&& z) ^^^ (y &&& z)

/-- `Sigma0` of the settings window (line 44). -/
def Sigma0 (x : Nat) : Nat := RotR x 2 ^^^ RotR x 13 ^^^ RotR x 22

/-- `Sigma1` of the settings window (line 45). -/
def Sigma1 (x : Nat) : Nat := RotR x 6 ^^^ RotR x 11 ^^^ RotR x 25

/-- `sigma0` of the settings window (line 46). -/
def sigma0 (x : Nat) : Nat := RotR x 7 ^^^ RotR x 18 ^^^ (x >>> 3)

/-- `sigma1` of the settings window (line 47). -/
def sigma1 (x : Nat) : Nat := RotR x 17 ^^^ RotR x 19 ^^^ (x >>> 10)

/-- Initial hash state `H[8]` (line 51). -/
def H0 : List Nat :=
  [0x6a09e667, 0xbb67ae85, 0x3c6ef372, 0xa54ff53a, 0x510e527f, 0x9b05688c, 0x1f83d9ab, 0x5be0cd19]

/-- `PaddedLen = ((DataLen + 9 + 63) / 64) * 64` in `uint64` arithmetic (line 54). -/
def PaddedLen (DataLen : Nat) : Nat := u64 (u64 (u64 (u64 (DataLen + 9) + 63) / 64) * 64)

/-- `BitLen = DataLen * 8` in `uint64` arithmetic (line 53). -/
def BitLen (DataLen : Nat) : Nat := u64 (DataLen * 8)

/-- The buffer `Padded` after lines 55-59. -/
def buildPadded (Data : List Nat) : List Nat :=
  let DataLen := u64 Data.length
  let zeroed := List.replicate (PaddedLen DataLen) 0
  let copied := Data.take DataLen ++ zeroed.drop DataLen
  let marked := copied.set DataLen 0x80
  forLoop (fun i P => P.set (PaddedLen DataLen - 1 - i) ((BitLen DataLen >>> (i * 8)) &&& 0xff))
    0 8 marked

/-- Lines 64-65: the first sixteen schedule words. -/
def loadBlock (Padded : List Nat) (Offset : Nat) (W : List Nat) : List Nat :=
  forLoop (fun i W => W.set i
    (u32 ((Padded.getD (Offset + i * 4) 0 <<< 24) ||| (Padded.getD (Offset + i * 4 + 1) 0 <<< 16)
      ||| (Padded.getD (Offset + i * 4 + 2) 0 <<< 8) ||| Padded.getD (Offset + i * 4 + 3) 0)))
    0 16 W

/-- Lines 66-67: schedule words 16..63. -/
def expandBlock (W : List Nat) : List Nat :=
  forLoop (fun i W => W.set i
    (add32 (add32 (add32 (sigma1 (W.getD (i - 2) 0)) (W.getD (i - 7) 0))
      (sigma0 (W.getD (i - 15) 0))) (W.getD (i - 16) 0)))
    16 48 W

/-- Body of the round loop, lines 72-74. -/
def round (W : List Nat) (i : Nat) (v : Vars) : Vars :=
  let T1 := add32 (add32 (add32 (add32 v.h (Sigma1 v.e)) (Ch v.e v.f v.g)) (K256.getD i 0))
    (W.getD i 0)
  let T2 := add32 (Sigma0 v.a) (Maj v.a v.b v.c)
  { h := v.g, g := v.f, f := v.e, e := add32 v.d T1, d := v.c, c := v.b, b := v.a,
    a := add32 T1 T2 }

/-- One iteration of the block loop, lines 63-76. -/
def processBlock (Padded : List Nat) (Offset : Nat) (H : List Nat) : List Nat :=
  let W := expandBlock (loadBlock Padded Offset (List.replicate 64 0))
  let v0 : Vars := ⟨H.getD 0 0, H.getD 1 0, H.getD 2 0, H.getD 3 0,
    H.getD 4 0, H.getD 5 0, H.getD 6 0, H.getD 7 0⟩
  let v := forLoop (round W) 0 64 v0
  [add32 (H.getD 0 0) v.a, add32 (H.getD 1 0) v.b, add32 (H.getD 2 0) v.c, add32 (H.getD 3 0) v.d,
   add32 (H.getD 4 0) v.e, add32 (H.getD 5 0) v.f, add32 (H.getD 6 0) v.g, add32 (H.getD 7 0) v.h]

/-- Lines 79-85: the eight state words written out, most significant byte first. -/
def writeHash (H : List Nat) : List Nat :=
  forLoop (fun i Out =>
    (((Out.set (i * 4) ((H.getD i 0 >>> 24) &&& 0xff)).set (i * 4 + 1)
      ((H.getD i 0 >>> 16) &&& 0xff)).set (i * 4 + 2) ((H.getD i 0 >>> 8) &&& 0xff)).set
      (i * 4 + 3) (H.getD i 0 &&& 0xff))
    0 8 (List.replicate 32 0)

/-- `ComputeSHA256` of the settings window (lines 49-86), with `DataLen` the length of
`Data`; the result is the content of `OutHash` on return. -/
def ComputeSHA256 (Data : List Nat) : List Nat :=
  let Padded := buildPadded Data
  let H := forLoop (fun k H => processBlock Padded (k * 64) H) 0
    ((PaddedLen (u64 Data.length) + 63) / 64) H0
  writeHash H

/-- The members of `SPlayKitSettingsWindow` that its device-authorization flow and its game
list use, together with what they read and write in `Settings` (`GetBaseUrl()`, the developer
token, `GameId`). A timer handle holds the arguments of the `SetTimer` call that armed it; the
widgets are left out. -/
structure WindowState where
  bIsDestroyed : Bool := false
  bIsAuthenticating : Bool := false
  SessionId : String := ""
  StoredCodeVerifier : String := ""
  AuthUrl : String := ""
  PollInterval : Int := 5
  PollTimerHandle : Option FTimer := none
  PendingAuthRequest : Bool := false
  PendingPollRequest : Bool := false
  BaseUrl : String := "https://api.playkit.ai"
  DeveloperToken : String := ""
  GameId : String := ""
deriving DecidableEq, Repr

/-- What the settings window does to the outside: requests started (URL, verb, the string
fields of the JSON body), timer-manager calls for `PollTimerHandle`, and the calls of
`UpdateLoginStatus`, `LoadGames`, `SaveSettings` and `LoadModels`. -/
inductive WindowEffect where
  | ProcessRequest (URL Verb : String) (Body : List (String × String))
  | SetTimer (Timer : FTimer)
  | UpdateLoginStatus
  | LoadGames
  | SaveSettings
  | LoadModels
deriving DecidableEq, Repr

/-- `StartDeviceAuthFlow` (lines 914-985). `PathAppend` is the engine's `FString operator/`,
which joins the base URL and the path and is not part of this repository; `Rand i` is the
value the `i`-th call of `FMath::RandRange(0, 255)` returns. The three `ReplaceInline` calls on
the verifier and on the challenge are written out as they stand in the function. -/
def StartDeviceAuthFlow (PathAppend : String → String → String) (Rand : Nat → Nat)
    (w : WindowState) : WindowState × List WindowEffect :=
  let w := { w with bIsAuthenticating := true }
  let Url := PathAppend w.BaseUrl "api/device-auth/initiate"
  let w := { w with PendingAuthRequest := true }
  let RandomBytes := forLoop (fun i (R : List Nat) => R.set i (Rand i % 256)) 0 32
    (List.replicate 32 0)
  let StoredCodeVerifier := FBase64.Encode RandomBytes
  let StoredCodeVerifier := ReplaceChar '+' '-' StoredCodeVerifier
  let StoredCodeVerifier := ReplaceChar '/' '_' StoredCodeVerifier
  let StoredCodeVerifier := RemoveChar '=' StoredCodeVerifier
  let w := { w with StoredCodeVerifier := String.mk StoredCodeVerifier }
  let Utf8Verifier := utf8Bytes w.StoredCodeVerifier
  let HashResult := ComputeSHA256 Utf8Verifier
  let HashArray := ([] : List Nat) ++ HashResult.take 32
  let CodeChallenge := FBase64.Encode HashArray
  let CodeChallenge := ReplaceChar '+' '-' CodeChallenge
  let CodeChallenge := ReplaceChar '/' '_' CodeChallenge
  let CodeChallenge := RemoveChar '=' CodeChallenge
  (w, [WindowEffect.ProcessRequest Url "POST"
        [("code_challenge", String.mk CodeChallenge), ("code_challenge_method", "S256"),
         ("scope", "developer:full")]])

/-- `INDEX_NONE`. -/
def INDEX_NONE : Int := -1

/-- The greatest index at which a character satisfying `p` stands, if there is one. -/
def findLast (p : Char → Bool) : List Char → Option Nat
  | [] => none
  | c :: s =>
    match findLast p s with
    | some i => some (i + 1)
    | none => if p c then some 0 else none

/-- Modelled from the spec: the engine function `FString::Find(SubStr, ESearchCase::IgnoreCase,
ESearchDir::FromEnd)` (Unreal Engine, `Containers/UnrealString`), which is not part of this
repository, for a pattern of one character: the index of its last occurrence, compared without
regard to case, or `INDEX_NONE`. The spec calls the results the last `(` and the last `)`. -/
def FString.Find (SubStr : Char) (s : String) : Int :=
  match findLast (fun c => c.toLower == SubStr.toLower) s.data with
  | some i => i
  | none => INDEX_NONE

/-- Modelled from the spec: the engine function `FString::Mid(Start, Count)`, which is not part
of this repository: the `Count` characters from index `Start` on, with `Start` and the end
clamped to the string, and the empty string for a negative `Count`. The spec calls the result
the text between the two parentheses. -/
def FString.Mid (s : String) (Start Count : Int) : String :=
  if Count ≥ 0 then
    let Length : Int := s.data.length
    let Begin := max 0 (min Start Length)
    let End := max Begin (min (Count + Start) Length)
    String.mk ((s.data.drop Begin.toNat).take (End - Begin).toNat)
  else ""

/-- The option string that the loop of `HandleGamesResponse` adds to `GameOptions` for one
game (line 1407): `FString::Printf(TEXT("%s [%s] (%s)"), *GameName, *ChannelDisplay, *GameId)`. -/
def GameOption (GameName ChannelDisplay GameId : String) : String :=
  GameName ++ " [" ++ ChannelDisplay ++ "] (" ++ GameId ++ ")"

/-- `OnGameSelected` (lines 1435-1453). `NewValue` is `none` when the shared pointer is not
valid. -/
def OnGameSelected (NewValue : Option String) (w : WindowState) :
    WindowState × List WindowEffect :=
  match NewValue with
  | none => (w, [])
  | some Selected =>
    let OpenParen := FString.Find '(' Selected
    let CloseParen := FString.Find ')' Selected
    if OpenParen ≠ INDEX_NONE ∧ CloseParen ≠ INDEX_NONE then
      ({ w with GameId := FString.Mid Selected (OpenParen + 1) (CloseParen - OpenParen - 1) },
        [WindowEffect.SaveSettings, WindowEffect.LoadModels])
    else (w, [])

end SettingsWindow

/-! ## SHA-256 as defined by FIPS 180-4

A second definition that follows the words of the standard (sections 2.2.2, 4.1.2, 4.2.2, 5.1.1,
5.2.1, 5.3.3 and 6.2.2), for messages that are byte strings. It is compared below with
`ComputeSHA256`, the definition translated from the source. -/

namespace FIPS

/-- Trial-division primality, used to enumerate the primes the constants are derived from. -/
def isPrime (p : Nat) : Bool := decide (2 ≤ p) && (List.range' 2 (p - 2)).all (fun d => p % d != 0)

/-- The first sixty-four prime numbers, `2 .. 311`. -/
def primes64 : List Nat := (List.range 312).filter isPrime

/-- Integer `k`-th root by bisection on the bits, from bit `bits - 1` down: the largest `r`
below `2 ^ bits` above the start value with `r ^ k ≤ n`. -/
def iroot (k n : Nat) : Nat → Nat → Nat
  | 0, r => r
  | bits + 1, r => iroot k n bits (if (r + 2 ^ bits) ^ k ≤ n then r + 2 ^ bits else r)

/-- Section 4.2.2: the first thirty-two bits of the fractional part of the cube root of `p`. -/
def cbrtFrac32 (p : Nat) : Nat := iroot 3 (p * 2 ^ 96) 36 0 % 2 ^ 32

/-- Section 5.3.3: the first thirty-two bits of the fractional part of the square root of `p`. -/
def sqrtFrac32 (p : Nat) : Nat := iroot 2 (p * 2 ^ 64) 37 0 % 2 ^ 32

/-- Section 4.2.2: the sixty-four constant words `K_0 .. K_63`. -/
def K : List Nat := primes64.map cbrtFrac32

/-- Section 5.3.3: the initial hash value `H^(0)`, from the first eight primes. -/
def initialHash : List Nat := (primes64.take 8).map sqrtFrac32

/-- Section 3.2: addition of words is addition modulo `2 ^ 32`. -/
def wadd (x y : Nat) : Nat := (x + y) % 2 ^ 32

/-- Section 2.2.2: `SHR^n(x) = x >> n`. -/
def SHR (n x : Nat) : Nat := x / 2 ^ n

/-- Section 2.2.2: `ROTR^n(x) = (x >> n) ∨ (x << (w - n))` on `w = 32`-bit words; the left
shift discards the bits pushed out of the word. -/
def ROTR (n x : Nat) : Nat := (x / 2 ^ n) ||| (x * 2 ^ (32 - n) % 2 ^ 32)

/-- Section 4.1.2 (4.2): `Ch(x, y, z) = (x ∧ y) ⊕ (¬x ∧ z)`, with the complement of a 32-bit
word `x` being `2 ^ 32 - 1 - x`. -/
def Ch (x y z : Nat) : Nat := (x &&& y) ^^^ ((2 ^ 32 - 1 - x) &&& z)

/-- Section 4.1.2 (4.3): `Maj(x, y, z) = (x ∧ y) ⊕ (x ∧ z) ⊕ (y ∧ z)`. -/
def Maj (x y z : Nat) : Nat := (x &&& y) ^^^ (x &&& z) ^^^ (y &&& z)

/-- Section 4.1.2 (4.4). -/
def bigSigma0 (x : Nat) : Nat := ROTR 2 x ^^^ ROTR 13 x ^^^ ROTR 22 x

/-- Section 4.1.2 (4.5). -/
def bigSigma1 (x : Nat) : Nat := ROTR 6 x ^^^ ROTR 11 x ^^^ ROTR 25 x

/-- Section 4.1.2 (4.6). -/
def smallSigma0 (x : Nat) : Nat := ROTR 7 x ^^^ ROTR 18 x ^^^ SHR 3 x

/-- Section 4.1.2 (4.7). -/
def smallSigma1 (x : Nat) : Nat := ROTR 17 x ^^^ ROTR 19 x ^^^ SHR 10 x

/-- Section 5.1.1: the number `k` of zero bits appended after the bit `1` to a message of `l`
bits; `zeroBits_least` shows it is the smallest non-negative solution of
`l + 1 + k ≡ 448 (mod 512)`. -/
def zeroBits (l : Nat) : Nat := (447 + 512 - l % 512) % 512

/-- The 64-bit block that holds the number `l` in binary, as eight bytes, most significant
first. -/
def lengthBlock (l : Nat) : List Nat := (List.range 8).map (fun j => l / 2 ^ (8 * (7 - j)) % 256)

/-- Section 5.1.1: the padded message. For a message of whole bytes the bit `1` and the first
seven zero bits form the byte `0x80`, and the remaining `k - 7` zero bits are whole bytes. -/
def pad (M : List Nat) : List Nat :=
  M ++ [0x80] ++ List.replicate ((zeroBits (8 * M.length) - 7) / 8) 0 ++ lengthBlock (8 * M.length)

/-- A 32-bit word from four bytes, most significant first. -/
def word (b0 b1 b2 b3 : Nat) : Nat := b0 * 2 ^ 24 + b1 * 2 ^ 16 + b2 * 2 ^ 8 + b3

/-- The words of a byte string, four bytes each. -/
def toWords : List Nat → List Nat
  | b0 :: b1 :: b2 :: b3 :: rest => word b0 b1 b2 b3 :: toWords rest
  | _ => []

/-- Section 5.2.1: the padded message parsed into `N` blocks of sixteen words. -/
def parse (padded : List Nat) : List (List Nat) :=
  (List.range (padded.length / 64)).map (fun i => toWords ((padded.drop (64 * i)).take 64))

/-- Section 6.2.2 step 1, one more schedule word: for `t = W.length`,
`W_t = σ1(W_{t-2}) + W_{t-7} + σ0(W_{t-15}) + W_{t-16}`. -/
def nextWord (W : List Nat) : List Nat :=
  W ++ [wadd (wadd (wadd (smallSigma1 (W.getD (W.length - 2) 0)) (W.getD (W.length - 7) 0))
    (smallSigma0 (W.getD (W.length - 15) 0))) (W.getD (W.length - 16) 0)]

/-- Section 6.2.2 step 1: the message schedule `W_0 .. W_63` of a block `M_0 .. M_15`. -/
def schedule (M : List Nat) : List Nat := nextWord^[48] M

/-- Section 6.2.2 step 3, one round on the working variables `[a, b, c, d, e, f, g, h]` with
the constant `K_t` and schedule word `W_t`. -/
def step (v : List Nat) (kw : Nat × Nat) : List Nat :=
  match v with
  | [a, b, c, d, e, f, g, h] =>
    let T1 := wadd (wadd (wadd (wadd h (bigSigma1 e)) (Ch e f g)) kw.1) kw.2
    let T2 := wadd (bigSigma0 a) (Maj a b c)
    [wadd T1 T2, a, b, c, wadd d T1, e, f, g]
  | _ => v

/-- Section 6.2.2 steps 1-4: the hash value `H^(i)` from `H^(i-1)` and the block `M^(i)`. -/
def compress (H : List Nat) (M : List Nat) : List Nat :=
  List.zipWith wadd ((K.zip (schedule M)).foldl step H) H

/-- The four bytes of a 32-bit word, most significant first. -/
def wordBytes (w : Nat) : List Nat := [w / 2 ^ 24 % 256, w / 2 ^ 16 % 256, w / 2 ^ 8 % 256, w % 256]

/-- Section 6.2.2: the message digest `H_0^(N) ‖ H_1^(N) ‖ ... ‖ H_7^(N)`. -/
def sha256 (M : List Nat) : List Nat :=
  (((parse (pad M)).foldl compress initialHash).map wordBytes).flatten

end FIPS

/-! ## base64url as defined by RFC 4648 section 5

The decoder the claims about `Base64UrlEncode` are stated against, following the words of the
RFC: the URL- and filename-safe alphabet, four characters for each group of three bytes, and a
final group of two or three characters for one or two bytes when the padding is left out. -/

namespace RFC4648

/-- Table 2 of the RFC: the URL- and filename-safe alphabet. -/
def urlAlphabet : List Char :=
  "ABCDEFGHIJKLMNOPQRSTUVWXYZabcdefghijklmnopqrstuvwxyz0123456789-_".data

/-- The 6-bit value of a character of the alphabet, `none` for any other character. -/
def value (c : Char) : Option Nat :=
  if urlAlphabet.indexOf c < 64 then some (urlAlphabet.indexOf c) else none

/-- The bytes of a sequence of 6-bit values: every four values give three bytes, a final
group of three values gives two bytes, one of two values gives one byte, and a single left-over
value is not a valid encoding. -/
def bytes : List Nat → Option (List Nat)
  | v0 :: v1 :: v2 :: v3 :: rest =>
    (bytes rest).map fun t =>
      (v0 * 4 + v1 / 16) :: (v1 % 16 * 16 + v2 / 4) :: (v2 % 4 * 64 + v3) :: t
  | [v0, v1, v2] => some [v0 * 4 + v1 / 16, v1 % 16 * 16 + v2 / 4]
  | [v0, v1] => some [v0 * 4 + v1 / 16]
  | [_] => none
  | [] => some []

/-- Decoding of unpadded base64url text. -/
def decode (s : String) : Option (List Nat) := (s.data.mapM value).bind bytes

/-- The 6-bit values that encode a byte string: each group of three bytes is cut into four
values, and a final group of one or two bytes, filled with zero bits, into two or three. -/
def values : List Nat → List Nat
  | a :: b :: c :: rest =>
    a / 4 :: (a % 4 * 16 + b / 16) :: (b % 16 * 4 + c / 64) :: c % 64 :: values rest
  | [a, b] => [a / 4, a % 4 * 16 + b / 16, b % 16 * 4]
  | [a] => [a / 4, a % 4 * 16]
  | [] => []

end RFC4648

/-! ## Theorems -/

/-! ### Constants -/

set_option maxRecDepth 100000 in
/-- The table `K256` of the source holds the constants of section 4.2.2. -/
theorem FIPS_K_eq : FIPS.K = K256 := by decide

set_option maxRecDepth 100000 in
/-- The initial state of the source is the initial hash value of section 5.3.3. -/
theorem FIPS_initialHash_eq : FIPS.initialHash = H0 := by decide

set_option maxRecDepth 100000 in
/-- The bisection returns the integer cube root for each of the sixty-four primes, so that
`FIPS.K` holds the first thirty-two bits of the fractional parts of their cube roots. -/
theorem FIPS_cube_roots :
    FIPS.primes64.length = 64 ∧
    ∀ p ∈ FIPS.primes64,
      (FIPS.iroot 3 (p * 2 ^ 96) 36 0) ^ 3 ≤ p * 2 ^ 96 ∧
        p * 2 ^ 96 < (FIPS.iroot 3 (p * 2 ^ 96) 36 0 + 1) ^ 3 := by
  decide

set_option maxRecDepth 100000 in
/-- The bisection returns the integer square root for each of the first eight primes. -/
theorem FIPS_square_roots :
    ∀ p ∈ FIPS.primes64.take 8,
      (FIPS.iroot 2 (p * 2 ^ 64) 37 0) ^ 2 ≤ p * 2 ^ 64 ∧
        p * 2 ^ 64 < (FIPS.iroot 2 (p * 2 ^ 64) 37 0 + 1) ^ 2 := by
  decide

set_option maxRecDepth 100000 in
/-- The definition written from the standard reproduces the standard's examples: the one-block
message "abc" and the two-block message of 448 bits. -/
theorem FIPS_sha256_examples :
    FIPS.sha256 (utf8Bytes "abc") =
      [0xba, 0x78, 0x16, 0xbf, 0x8f, 0x01, 0xcf, 0xea, 0x41, 0x41, 0x40, 0xde, 0x5d, 0xae, 0x22,
       0x23, 0xb0, 0x03, 0x61, 0xa3, 0x96, 0x17, 0x7a, 0x9c, 0xb4, 0x10, 0xff, 0x61, 0xf2, 0x00,
       0x15, 0xad] ∧
    FIPS.sha256 (utf8Bytes "abcdbcdecdefdefgefghfghighijhijkijkljklmklmnlmnomnopnopq") =
      [0x24, 0x8d, 0x6a, 0x61, 0xd2, 0x06, 0x38, 0xb8, 0xe5, 0xc0, 0x26, 0x93, 0x0c, 0x3e, 0x60,
       0x39, 0xa3, 0x3c, 0xe4, 0x59, 0x64, 0xff, 0x21, 0x67, 0xf6, 0xec, 0xed, 0xd4, 0x19, 0xdb,
       0x06, 0xc1] := by
  decide

/-! ### Word operations -/

theorem add32_eq_wadd (x y : Nat) : add32 x y = FIPS.wadd x y := rfl

theorem add32_lt (x y : Nat) : add32 x y < 2 ^ 32 := Nat.mod_lt _ (by decide)

theorem RotR_eq_ROTR (x n : Nat) : RotR x n = FIPS.ROTR n x := by
  simp [RotR, FIPS.ROTR, u32, Nat.shiftRight_eq_div_pow, Nat.shiftLeft_eq]

theorem Sigma0_eq (x : Nat) : Sigma0 x = FIPS.bigSigma0 x := by
  simp [Sigma0, FIPS.bigSigma0, RotR_eq_ROTR]

theorem Sigma1_eq (x : Nat) : Sigma1 x = FIPS.bigSigma1 x := by
  simp [Sigma1, FIPS.bigSigma1, RotR_eq_ROTR]

theorem sigma0_eq (x : Nat) : sigma0 x = FIPS.smallSigma0 x := by
  simp [sigma0, FIPS.smallSigma0, FIPS.SHR, RotR_eq_ROTR, Nat.shiftRight_eq_div_pow]

theorem sigma1_eq (x : Nat) : sigma1 x = FIPS.smallSigma1 x := by
  simp [sigma1, FIPS.smallSigma1, FIPS.SHR, RotR_eq_ROTR, Nat.shiftRight_eq_div_pow]

theorem Maj_eq (x y z : Nat) : Maj x y z = FIPS.Maj x y z := rfl

theorem not32_eq (x : Nat) (hx : x < 2 ^ 32) : not32 x = 2 ^ 32 - 1 - x := by
  have h1 : x ^^^ 0xffffffff = 2 ^ 32 - (x + 1) := by
    apply Nat.eq_of_testBit_eq
    intro i
    rw [Nat.testBit_two_pow_sub_succ hx, Nat.testBit_xor]
    have h2 : (0xffffffff : Nat) = 2 ^ 32 - 1 := by decide
    rw [h2, Nat.testBit_two_pow_sub_one]
    by_cases hi : i < 32
    · simp [hi]
    · have : x.testBit i = false :=
        Nat.testBit_lt_two_pow (Nat.lt_of_lt_of_le hx (Nat.pow_le_pow_right (by decide) (by omega)))
      simp [hi, this]
  unfold not32 u32
  rw [h1, Nat.mod_eq_of_lt (by omega)]
  omega

theorem Ch_eq (x y z : Nat) (hx : x < 2 ^ 32) : Ch x y z = FIPS.Ch x y z := by
  simp only [Ch, FIPS.Ch, not32_eq x hx]

/-- Four bytes joined with shifts and `|` are the big-endian word. -/
theorem or_bytes_eq_word (b0 b1 b2 b3 : Nat) (h0 : b0 < 256) (h1 : b1 < 256) (h2 : b2 < 256)
    (h3 : b3 < 256) :
    u32 ((b0 <<< 24) ||| (b1 <<< 16) ||| (b2 <<< 8) ||| b3) = FIPS.word b0 b1 b2 b3 := by
  have e1 : (b0 <<< 24) ||| (b1 <<< 16) = 2 ^ 16 * (b0 * 256 + b1) := by
    have h := Nat.mul_add_lt_is_or (show b1 <<< 16 < 2 ^ 24 by rw [Nat.shiftLeft_eq]; omega) b0
    rw [Nat.shiftLeft_eq, Nat.mul_comm b0, ← h, Nat.shiftLeft_eq]; omega
  have e2 : 2 ^ 16 * (b0 * 256 + b1) ||| (b2 <<< 8) = 2 ^ 8 * ((b0 * 256 + b1) * 256 + b2) := by
    have h := Nat.mul_add_lt_is_or (show b2 <<< 8 < 2 ^ 16 by rw [Nat.shiftLeft_eq]; omega)
      (b0 * 256 + b1)
    rw [← h, Nat.shiftLeft_eq]; omega
  have e3 := Nat.mul_add_lt_is_or (show b3 < 2 ^ 8 by omega) ((b0 * 256 + b1) * 256 + b2)
  rw [e1, e2, ← e3]
  simp only [u32, FIPS.word]
  omega

theorem shr_and_ff (x n : Nat) : (x >>> n) &&& 0xff = x / 2 ^ n % 256 := by
  have h : (0xff : Nat) = 2 ^ 8 - 1 := by decide
  rw [h, Nat.and_pow_two_sub_one_eq_mod, Nat.shiftRight_eq_div_pow]

theorem and_ff (x : Nat) : x &&& 0xff = x % 256 := by
  have h : (0xff : Nat) = 2 ^ 8 - 1 := by decide
  rw [h, Nat.and_pow_two_sub_one_eq_mod]

/-! ### Counted loops -/

theorem forLoop_zero {σ : Type} (body : Nat → σ → σ) (lo : Nat) (s : σ) :
    forLoop body lo 0 s = s := rfl

theorem forLoop_succ {σ : Type} (body : Nat → σ → σ) (lo n : Nat) (s : σ) :
    forLoop body lo (n + 1) s = forLoop body (lo + 1) n (body lo s) := rfl

theorem forLoop_eq_foldl {σ : Type} (body : Nat → σ → σ) (n : Nat) :
    ∀ (lo : Nat) (s : σ), forLoop body lo n s = (List.range' lo n).foldl (fun s i => body i s) s := by
  induction n with
  | zero => intro lo s; rfl
  | succ n ih => intro lo s; rw [forLoop_succ, ih, List.range'_succ, List.foldl_cons]

/-! ### The message schedule -/

theorem nextWord_length (W : List Nat) : (FIPS.nextWord W).length = W.length + 1 := by
  simp [FIPS.nextWord]

theorem iterate_nextWord_length (j : Nat) (W : List Nat) :
    (FIPS.nextWord^[j] W).length = W.length + j := by
  induction j generalizing W with
  | zero => rfl
  | succ j ih => rw [Function.iterate_succ_apply, ih, nextWord_length]; omega

/-- The expansion loop, started with `lo` words in place, fills in the next `j` words exactly
as the standard's recurrence does. -/
theorem expand_loop (j : Nat) : ∀ (lo r : Nat) (S : List Nat), S.length = lo → 0 < lo →
    forLoop (fun i W => W.set i
      (add32 (add32 (add32 (sigma1 (W.getD (i - 2) 0)) (W.getD (i - 7) 0))
        (sigma0 (W.getD (i - 15) 0))) (W.getD (i - 16) 0))) lo j
      (S ++ List.replicate (j + r) 0) = FIPS.nextWord^[j] S ++ List.replicate r 0 := by
  induction j with
  | zero => intro lo r S _ _; simp [forLoop]
  | succ j ih =>
    intro lo r S hS hlo
    rw [forLoop_succ, Function.iterate_succ_apply]
    have hrep : List.replicate (j + 1 + r) 0 = 0 :: List.replicate (j + r) 0 := by
      rw [show j + 1 + r = (j + r) + 1 by omega, List.replicate_succ]
    have hstep : (S ++ List.replicate (j + 1 + r) 0).set lo
        (add32 (add32 (add32 (sigma1 ((S ++ List.replicate (j + 1 + r) 0).getD (lo - 2) 0))
          ((S ++ List.replicate (j + 1 + r) 0).getD (lo - 7) 0))
          (sigma0 ((S ++ List.replicate (j + 1 + r) 0).getD (lo - 15) 0)))
          ((S ++ List.replicate (j + 1 + r) 0).getD (lo - 16) 0))
        = FIPS.nextWord S ++ List.replicate (j + r) 0 := by
      rw [List.getD_append _ _ _ _ (by omega), List.getD_append _ _ _ _ (by omega),
        List.getD_append _ _ _ _ (by omega), List.getD_append _ _ _ _ (by omega),
        List.set_append_right _ _ (by omega), hrep, hS, Nat.sub_self, List.set_cons_zero]
      simp only [FIPS.nextWord, hS, sigma0_eq, sigma1_eq, add32_eq_wadd, List.append_assoc,
        List.singleton_append]
    rw [hstep]
    exact ih (lo + 1) r (FIPS.nextWord S) (by rw [nextWord_length, hS]) (by omega)

theorem expandBlock_eq (M : List Nat) (hM : M.length = 16) :
    expandBlock (M ++ List.replicate 48 0) = FIPS.schedule M := by
  have h := expand_loop 48 16 0 M hM (by decide)
  simpa [expandBlock, FIPS.schedule] using h

theorem schedule_length (M : List Nat) (hM : M.length = 16) : (FIPS.schedule M).length = 64 := by
  rw [FIPS.schedule, iterate_nextWord_length, hM]

/-! ### The round loop -/

theorem round_eq_step (W : List Nat) (i : Nat) (v : Vars) (he : v.e < 2 ^ 32) :
    (round W i v).toList = FIPS.step v.toList (K256.getD i 0, W.getD i 0) := by
  simp only [Vars.toList, round, FIPS.step, add32_eq_wadd, Sigma0_eq, Sigma1_eq, Maj_eq,
    Ch_eq _ _ _ he]

theorem round_e_lt (W : List Nat) (i : Nat) (v : Vars) : (round W i v).e < 2 ^ 32 :=
  add32_lt _ _

theorem K256_length : K256.length = 64 := rfl

/-- The round loop over `i = lo .. 63` is the standard's fold over the remaining pairs
`(K_t, W_t)`. -/
theorem round_loop (W : List Nat) (hW : W.length = 64) (n : Nat) :
    ∀ (lo : Nat) (v : Vars), v.e < 2 ^ 32 → lo + n = 64 →
      (forLoop (round W) lo n v).toList
        = ((K256.drop lo).zip (W.drop lo)).foldl FIPS.step v.toList := by
  induction n with
  | zero =>
    intro lo v _ hlo
    have h : K256.drop lo = [] := List.drop_eq_nil_of_le (by rw [K256_length]; omega)
    simp [forLoop, h]
  | succ n ih =>
    intro lo v he hlo
    have hk : lo < K256.length := by rw [K256_length]; omega
    have hw : lo < W.length := by omega
    rw [forLoop_succ, List.drop_eq_getElem_cons hk, List.drop_eq_getElem_cons hw,
      List.zip_cons_cons, List.foldl_cons, ih (lo + 1) _ (round_e_lt W lo v) (by omega),
      round_eq_step W lo v he, List.getD_eq_getElem _ _ hk, List.getD_eq_getElem _ _ hw]

/-! ### Loading a block -/

/-- A loop that writes `f i` at index `i` fills the array with the values of `f`. -/
theorem set_loop (f : Nat → Nat) (n : Nat) : ∀ (lo r : Nat) (S : List Nat), S.length = lo →
    forLoop (fun i W => W.set i (f i)) lo n (S ++ List.replicate (n + r) 0)
      = S ++ (List.range' lo n).map f ++ List.replicate r 0 := by
  induction n with
  | zero => intro lo r S _; simp [forLoop]
  | succ n ih =>
    intro lo r S hS
    rw [forLoop_succ, List.set_append_right _ _ (by omega),
      show n + 1 + r = (n + r) + 1 by omega, List.replicate_succ, hS, Nat.sub_self,
      List.set_cons_zero, List.range'_succ, List.map_cons]
    have h := ih (lo + 1) r (S ++ [f lo]) (by simp [hS])
    simpa [List.append_assoc] using h

/-- The load loop writes the sixteen big-endian words of the block at `Offset`. -/
theorem load_loop (P : List Nat) (Offset : Nat) (n : Nat) (lo r : Nat) (S : List Nat)
    (hS : S.length = lo) :
      forLoop (fun i W => W.set i
        (u32 ((P.getD (Offset + i * 4) 0 <<< 24) ||| (P.getD (Offset + i * 4 + 1) 0 <<< 16)
          ||| (P.getD (Offset + i * 4 + 2) 0 <<< 8) ||| P.getD (Offset + i * 4 + 3) 0)))
        lo n (S ++ List.replicate (n + r) 0)
      = S ++ (List.range' lo n).map (fun i =>
          u32 ((P.getD (Offset + i * 4) 0 <<< 24) ||| (P.getD (Offset + i * 4 + 1) 0 <<< 16)
            ||| (P.getD (Offset + i * 4 + 2) 0 <<< 8) ||| P.getD (Offset + i * 4 + 3) 0))
          ++ List.replicate r 0 :=
  set_loop _ n lo r S hS

/-- The words of a byte string of `4 * m` bytes, by index. -/
theorem toWords_eq_map (m : Nat) : ∀ (lo : Nat) (B : List Nat), B.length = 4 * m →
    FIPS.toWords B = (List.range' lo m).map (fun i =>
      FIPS.word (B.getD ((i - lo) * 4) 0) (B.getD ((i - lo) * 4 + 1) 0)
        (B.getD ((i - lo) * 4 + 2) 0) (B.getD ((i - lo) * 4 + 3) 0)) := by
  induction m with
  | zero =>
    intro lo B hB
    have : B = [] := List.length_eq_zero.mp (by omega)
    subst this; rfl
  | succ m ih =>
    intro lo B hB
    match B, hB with
    | b0 :: b1 :: b2 :: b3 :: rest, hB =>
      rw [FIPS.toWords, List.range'_succ, List.map_cons, ih (lo + 1) rest (by simp at hB; omega)]
      simp only [Nat.sub_self, Nat.zero_mul, List.getD_cons_zero, Nat.zero_add,
        List.getD_cons_succ, List.cons.injEq, true_and]
      apply List.map_congr_left
      intro i hi
      have hi2 : lo + 1 ≤ i := (List.mem_range'_1.mp hi).1
      have e : (i - lo) * 4 = (i - (lo + 1)) * 4 + 1 + 1 + 1 + 1 := by omega
      simp only [e, List.getD_cons_succ]

theorem getD_lt_of_forall (P : List Nat) (hP : ∀ b ∈ P, b < 256) (i : Nat) : P.getD i 0 < 256 := by
  by_cases h : i < P.length
  · rw [List.getD_eq_getElem _ _ h]; exact hP _ (List.getElem_mem _)
  · rw [List.getD_eq_default _ _ (by omega)]; decide

theorem getD_take_drop (P : List Nat) (off j : Nat) (hj : j < 64) :
    ((P.drop off).take 64).getD j 0 = P.getD (off + j) 0 := by
  simp [List.getD_eq_getElem?_getD, List.getElem?_take, hj]

theorem loadBlock_eq (P : List Nat) (hP : ∀ b ∈ P, b < 256) (Offset : Nat)
    (hlen : Offset + 64 ≤ P.length) :
    loadBlock P Offset (List.replicate 64 0)
      = FIPS.toWords ((P.drop Offset).take 64) ++ List.replicate 48 0 := by
  have h := load_loop P Offset 16 0 48 [] rfl
  have hB : ((P.drop Offset).take 64).length = 4 * 16 := by
    rw [List.length_take, List.length_drop]; omega
  rw [toWords_eq_map 16 0 _ hB]
  simp only [loadBlock]
  rw [List.nil_append, List.nil_append] at h
  rw [show List.replicate 64 0 = List.replicate (16 + 48) 0 from rfl, h]
  congr 1
  apply List.map_congr_left
  intro i hi
  have hi2 : i < 16 := by have := (List.mem_range'_1.mp hi).2; omega
  rw [or_bytes_eq_word _ _ _ _ (getD_lt_of_forall P hP _) (getD_lt_of_forall P hP _)
    (getD_lt_of_forall P hP _) (getD_lt_of_forall P hP _)]
  rw [getD_take_drop _ _ _ (by omega), getD_take_drop _ _ _ (by omega),
    getD_take_drop _ _ _ (by omega), getD_take_drop _ _ _ (by omega)]
  simp only [Nat.sub_zero, Nat.add_assoc]

theorem toWords_length (m : Nat) (B : List Nat) (hB : B.length = 4 * m) :
    (FIPS.toWords B).length = m := by
  rw [toWords_eq_map m 0 B hB]; simp

/-- One pass of the block loop is the standard's compression of the block at `Offset`. -/
theorem processBlock_eq (P : List Nat) (hP : ∀ b ∈ P, b < 256) (Offset : Nat)
    (hlen : Offset + 64 ≤ P.length) (h0 h1 h2 h3 h4 h5 h6 h7 : Nat) (hb : h4 < 2 ^ 32) :
    processBlock P Offset [h0, h1, h2, h3, h4, h5, h6, h7]
      = FIPS.compress [h0, h1, h2, h3, h4, h5, h6, h7]
          (FIPS.toWords ((P.drop Offset).take 64)) := by
  have hB : ((P.drop Offset).take 64).length = 4 * 16 := by
    rw [List.length_take, List.length_drop]; omega
  have hM := toWords_length 16 _ hB
  have hW := schedule_length _ hM
  have hr := round_loop (FIPS.schedule (FIPS.toWords ((P.drop Offset).take 64))) hW 64 0
    ⟨h0, h1, h2, h3, h4, h5, h6, h7⟩ hb rfl
  simp only [List.drop_zero, Vars.toList] at hr
  have hK : FIPS.K = K256 := FIPS_K_eq
  simp only [processBlock, loadBlock_eq P hP Offset hlen, expandBlock_eq _ hM, FIPS.compress,
    List.getD_cons_zero, List.getD_cons_succ, hK, ← hr, List.zipWith_cons_cons,
    List.zipWith_nil_left, add32_eq_wadd, FIPS.wadd, Nat.add_comm]

/-! ### Padding -/

/-- The closed form `zeroBits` is the smallest non-negative solution required by section 5.1.1. -/
theorem zeroBits_least (l : Nat) :
    (l + 1 + FIPS.zeroBits l) % 512 = 448 ∧
      ∀ k, (l + 1 + k) % 512 = 448 → FIPS.zeroBits l ≤ k := by
  unfold FIPS.zeroBits
  constructor
  · omega
  · intro k hk; omega

theorem PaddedLen_eq (n : Nat) (hn : n < 2 ^ 61) : PaddedLen n = (n + 72) / 64 * 64 := by
  simp only [PaddedLen, u64]
  omega

theorem BitLen_eq (n : Nat) (hn : n < 2 ^ 61) : BitLen n = 8 * n := by
  simp only [BitLen, u64]
  omega

theorem lengthBlock_eq (l : Nat) : FIPS.lengthBlock l =
    [l / 2 ^ 56 % 256, l / 2 ^ 48 % 256, l / 2 ^ 40 % 256, l / 2 ^ 32 % 256,
     l / 2 ^ 24 % 256, l / 2 ^ 16 % 256, l / 2 ^ 8 % 256, l / 2 ^ 0 % 256] := rfl

/-- The length loop overwrites the last eight bytes with `BitLen`, most significant first. -/
theorem length_loop (X : List Nat) (B : Nat) :
    forLoop (fun i P => P.set (X.length + 8 - 1 - i) ((B >>> (i * 8)) &&& 0xff)) 0 8
      (X ++ [0, 0, 0, 0, 0, 0, 0, 0]) = X ++ FIPS.lengthBlock B := by
  have e0 : X.length + 8 - 1 - 0 = X.length + 7 := by omega
  have e1 : X.length + 8 - 1 - (0 + 1) = X.length + 6 := by omega
  have e2 : X.length + 8 - 1 - (0 + 1 + 1) = X.length + 5 := by omega
  have e3 : X.length + 8 - 1 - (0 + 1 + 1 + 1) = X.length + 4 := by omega
  have e4 : X.length + 8 - 1 - (0 + 1 + 1 + 1 + 1) = X.length + 3 := by omega
  have e5 : X.length + 8 - 1 - (0 + 1 + 1 + 1 + 1 + 1) = X.length + 2 := by omega
  have e6 : X.length + 8 - 1 - (0 + 1 + 1 + 1 + 1 + 1 + 1) = X.length + 1 := by omega
  have e7 : X.length + 8 - 1 - (0 + 1 + 1 + 1 + 1 + 1 + 1 + 1) = X.length + 0 := by omega
  have hset : ∀ (j v : Nat) (L : List Nat), (X ++ L).set (X.length + j) v = X ++ L.set j v := by
    intro j v L
    rw [List.set_append_right _ _ (by omega), Nat.add_sub_cancel_left]
  simp only [forLoop, e0, e1, e2, e3, e4, e5, e6, e7, hset, shr_and_ff, lengthBlock_eq]
  rfl

theorem buildPadded_eq (Data : List Nat) (hlen : Data.length < 2 ^ 61) :
    buildPadded Data = FIPS.pad Data := by
  have hu : u64 Data.length = Data.length := Nat.mod_eq_of_lt (by omega)
  have hP := PaddedLen_eq Data.length hlen
  have hB := BitLen_eq Data.length hlen
  have hz : (FIPS.zeroBits (8 * Data.length) - 7) / 8 = PaddedLen Data.length - Data.length - 9 := by
    rw [hP]; unfold FIPS.zeroBits; omega
  have hsplit : PaddedLen Data.length - Data.length
      = 1 + ((PaddedLen Data.length - Data.length - 9) + 8) := by
    rw [hP]; omega
  have hX : PaddedLen Data.length
      = (Data ++ [0x80] ++ List.replicate (PaddedLen Data.length - Data.length - 9) 0).length
        + 8 := by
    simp only [List.length_append, List.length_replicate, List.length_singleton]
    rw [hP]; omega
  simp only [buildPadded, hu, List.take_length, List.drop_replicate]
  rw [List.set_append_right _ _ (Nat.le_refl _), Nat.sub_self, hsplit, Nat.add_comm 1,
    List.replicate_succ, List.set_cons_zero, List.replicate_add]
  rw [FIPS.pad, hz, ← hB]
  have hloop := length_loop
    (Data ++ [0x80] ++ List.replicate (PaddedLen Data.length - Data.length - 9) 0)
    (BitLen Data.length)
  rw [← hX] at hloop
  rw [← hloop]
  congr 1
  simp [List.replicate]

theorem pad_length (Data : List Nat) :
    (FIPS.pad Data).length = (Data.length + 72) / 64 * 64 := by
  simp only [FIPS.pad, FIPS.lengthBlock, FIPS.zeroBits, List.length_append, List.length_replicate,
    List.length_singleton, List.length_map, List.length_range]
  omega

theorem pad_bytes (Data : List Nat) (hb : ∀ b ∈ Data, b < 256) : ∀ b ∈ FIPS.pad Data, b < 256 := by
  intro b hmem
  simp only [FIPS.pad, FIPS.lengthBlock, List.mem_append, List.mem_singleton, List.mem_replicate,
    List.mem_map] at hmem
  rcases hmem with ((h | h) | h) | h
  · exact hb b h
  · omega
  · omega
  · obtain ⟨j, _, rfl⟩ := h
    exact Nat.mod_lt _ (by decide)

/-! ### The block loop and the output -/

theorem foldl_congr_inv {σ : Type} (Inv : σ → Prop) (f g : σ → Nat → σ) (l : List Nat) :
    ∀ s, Inv s → (∀ i ∈ l, ∀ t, Inv t → f t i = g t i ∧ Inv (f t i)) →
      l.foldl f s = l.foldl g s := by
  induction l with
  | nil => intro s _ _; rfl
  | cons i l ih =>
    intro s hs h
    have hi := h i (List.mem_cons_self _ _) s hs
    rw [List.foldl_cons, List.foldl_cons, ← hi.1]
    exact ih _ hi.2 (fun j hj t ht => h j (List.mem_cons_of_mem _ hj) t ht)

/-- The block loop of the source is the standard's iteration over the parsed blocks. -/
theorem block_loop (P : List Nat) (hP : ∀ b ∈ P, b < 256) (N : Nat) (hN : N * 64 = P.length) :
    forLoop (fun k H => processBlock P (k * 64) H) 0 N H0
      = (FIPS.parse P).foldl FIPS.compress FIPS.initialHash := by
  have hN2 : P.length / 64 = N := by omega
  rw [forLoop_eq_foldl, FIPS.parse, List.foldl_map, hN2, FIPS_initialHash_eq,
    List.range_eq_range']
  apply foldl_congr_inv
    (fun H => ∃ h0 h1 h2 h3 h4 h5 h6 h7, H = [h0, h1, h2, h3, h4, h5, h6, h7] ∧ h4 < 2 ^ 32)
  · exact ⟨_, _, _, _, _, _, _, _, rfl, by decide⟩
  · intro k hk H hH
    obtain ⟨h0, h1, h2, h3, h4, h5, h6, h7, rfl, hb⟩ := hH
    have hk2 : k < N := by have := (List.mem_range'_1.mp hk).2; omega
    have e := processBlock_eq P hP (k * 64) (by omega) h0 h1 h2 h3 h4 h5 h6 h7 hb
    rw [Nat.mul_comm 64 k]
    refine ⟨e, ?_⟩
    exact ⟨_, _, _, _, _, _, _, _, rfl, add32_lt _ _⟩

theorem block_loop_length (P : List Nat) (N : Nat) :
    ∀ (lo : Nat) (H : List Nat), H.length = 8 →
      (forLoop (fun k H => processBlock P (k * 64) H) lo N H).length = 8 := by
  induction N with
  | zero => intro lo H hH; exact hH
  | succ N ih => intro lo H _; rw [forLoop_succ]; exact ih _ _ rfl

theorem writeHash_eq (h0 h1 h2 h3 h4 h5 h6 h7 : Nat) :
    writeHash [h0, h1, h2, h3, h4, h5, h6, h7]
      = ([h0, h1, h2, h3, h4, h5, h6, h7].map FIPS.wordBytes).flatten := by
  simp [writeHash, forLoop, FIPS.wordBytes, List.replicate, Nat.shiftRight_eq_div_pow, and_ff]

theorem writeHash_length (H : List Nat) : (writeHash H).length = 32 := by
  simp [writeHash, forLoop]

theorem ComputeSHA256_eq_sha256 (Data : List Nat) (hb : ∀ b ∈ Data, b < 256)
    (hlen : Data.length < 2 ^ 61) : ComputeSHA256 Data = FIPS.sha256 Data := by
  have hu : u64 Data.length = Data.length := Nat.mod_eq_of_lt (by omega)
  have hN : (PaddedLen Data.length + 63) / 64 * 64 = (FIPS.pad Data).length := by
    rw [pad_length, PaddedLen_eq _ hlen]; omega
  have hl := block_loop_length (FIPS.pad Data) ((PaddedLen Data.length + 63) / 64) 0 H0 rfl
  simp only [ComputeSHA256, FIPS.sha256, buildPadded_eq Data hlen, hu]
  rw [← block_loop (FIPS.pad Data) (pad_bytes Data hb) _ hN]
  generalize forLoop (fun k H => processBlock (FIPS.pad Data) (k * 64) H) 0
      ((PaddedLen Data.length + 63) / 64) H0 = H at hl
  match H, hl with
  | [h0, h1, h2, h3, h4, h5, h6, h7], _ => exact writeHash_eq _ _ _ _ _ _ _ _

/-! ### base64url -/

theorem triplet_eq (a b c : Nat) (ha : a < 256) (hb : b < 256) (hc : c < 256) :
    u32 ((a <<< 16) ||| (b <<< 8) ||| c) = a * 65536 + b * 256 + c := by
  have e1 : (a <<< 16) ||| (b <<< 8) = 2 ^ 8 * (a * 256 + b) := by
    have h := Nat.mul_add_lt_is_or (show b <<< 8 < 2 ^ 16 by rw [Nat.shiftLeft_eq]; omega) a
    rw [Nat.shiftLeft_eq, Nat.mul_comm a, ← h, Nat.shiftLeft_eq]; omega
  have e2 := Nat.mul_add_lt_is_or (show c < 2 ^ 8 by omega) (a * 256 + b)
  rw [e1, ← e2]
  simp only [u32]
  omega

theorem and_3F (x : Nat) : x &&& 0x3F = x % 64 := by
  have h : (0x3F : Nat) = 2 ^ 6 - 1 := by decide
  rw [h, Nat.and_pow_two_sub_one_eq_mod]

/-- On values below 64 the standard alphabet with `+` and `/` replaced is the URL alphabet,
and none of its characters is the padding character. -/
theorem url_char (v : Nat) (hv : v < 64) :
    RemoveChar '=' (ReplaceChar '/' '_' (ReplaceChar '+' '-' [EncodingAlphabet.getD v 'A']))
      = [RFC4648.urlAlphabet.getD v 'A'] := by
  interval_cases v <;> decide

theorem value_url_char (v : Nat) (hv : v < 64) :
    RFC4648.value (RFC4648.urlAlphabet.getD v 'A') = some v := by
  interval_cases v <;> decide

theorem url_cons (x : Char) (l : List Char) :
    RemoveChar '=' (ReplaceChar '/' '_' (ReplaceChar '+' '-' (x :: l)))
      = RemoveChar '=' (ReplaceChar '/' '_' (ReplaceChar '+' '-' [x]))
        ++ RemoveChar '=' (ReplaceChar '/' '_' (ReplaceChar '+' '-' l)) := by
  simp only [RemoveChar, ReplaceChar, List.map_cons, List.map_nil, ← List.filter_append,
    List.singleton_append]

theorem url_pad (l : List Char) :
    RemoveChar '=' (ReplaceChar '/' '_' (ReplaceChar '+' '-' ('=' :: l)))
      = RemoveChar '=' (ReplaceChar '/' '_' (ReplaceChar '+' '-' l)) := by
  rw [url_cons]; rfl

/-- The text `Base64UrlEncode` returns is the URL alphabet applied to the 6-bit values of the
data. -/
theorem Base64UrlEncode_chars : ∀ (Data : List Nat), (∀ b ∈ Data, b < 256) →
    RemoveChar '=' (ReplaceChar '/' '_' (ReplaceChar '+' '-' (FBase64.Encode Data)))
      = (RFC4648.values Data).map (fun v => RFC4648.urlAlphabet.getD v 'A')
  | [], _ => rfl
  | [a], h => by
    have ha : a < 256 := h a (by simp)
    have t : u32 ((a <<< 16) ||| (0 <<< 8) ||| 0) = a * 65536 := by
      rw [triplet_eq a 0 0 ha (by decide) (by decide)]; omega
    simp only [FBase64.Encode, t, and_3F,
      Nat.shiftRight_eq_div_pow, RFC4648.values, List.map_cons, List.map_nil]
    rw [url_cons, url_cons _ (_ :: _), url_pad, url_pad, url_char _ (Nat.mod_lt _ (by decide)),
      url_char _ (Nat.mod_lt _ (by decide))]
    have e1 : a * 65536 / 2 ^ 18 % 64 = a / 4 := by omega
    have e2 : a * 65536 / 2 ^ 12 % 64 = a % 4 * 16 := by omega
    rw [e1, e2]; rfl
  | [a, b], h => by
    have ha : a < 256 := h a (by simp)
    have hb : b < 256 := h b (by simp)
    have t : u32 ((a <<< 16) ||| (b <<< 8) ||| 0) = a * 65536 + b * 256 := by
      rw [triplet_eq a b 0 ha hb (by decide)]; omega
    simp only [FBase64.Encode, t, and_3F,
      Nat.shiftRight_eq_div_pow, RFC4648.values, List.map_cons, List.map_nil]
    rw [url_cons, url_cons _ (_ :: _), url_cons _ (_ :: _), url_pad,
      url_char _ (Nat.mod_lt _ (by decide)), url_char _ (Nat.mod_lt _ (by decide)),
      url_char _ (Nat.mod_lt _ (by decide))]
    have e1 : (a * 65536 + b * 256) / 2 ^ 18 % 64 = a / 4 := by omega
    have e2 : (a * 65536 + b * 256) / 2 ^ 12 % 64 = a % 4 * 16 + b / 16 := by omega
    have e3 : (a * 65536 + b * 256) / 2 ^ 6 % 64 = b % 16 * 4 := by omega
    rw [e1, e2, e3]; rfl
  | a :: b :: c :: rest, h => by
    have ha : a < 256 := h a (by simp)
    have hb : b < 256 := h b (by simp)
    have hc : c < 256 := h c (by simp)
    have ih := Base64UrlEncode_chars rest (fun x hx => h x (by simp [hx]))
    simp only [FBase64.Encode, triplet_eq a b c ha hb hc, and_3F,
      Nat.shiftRight_eq_div_pow, RFC4648.values, List.map_cons]
    rw [url_cons, url_cons _ (_ :: _), url_cons _ (_ :: _), url_cons _ (FBase64.Encode rest), ih,
      url_char _ (Nat.mod_lt _ (by decide)), url_char _ (Nat.mod_lt _ (by decide)),
      url_char _ (Nat.mod_lt _ (by decide)), url_char _ (Nat.mod_lt _ (by decide))]
    have e1 : (a * 65536 + b * 256 + c) / 2 ^ 18 % 64 = a / 4 := by omega
    have e2 : (a * 65536 + b * 256 + c) / 2 ^ 12 % 64 = a % 4 * 16 + b / 16 := by omega
    have e3 : (a * 65536 + b * 256 + c) / 2 ^ 6 % 64 = b % 16 * 4 + c / 64 := by omega
    have e4 : (a * 65536 + b * 256 + c) % 64 = c % 64 := by omega
    rw [e1, e2, e3, e4]; rfl

theorem values_lt : ∀ (Data : List Nat), (∀ b ∈ Data, b < 256) →
    ∀ v ∈ RFC4648.values Data, v < 64
  | [], _ => by intro v hv; simp [RFC4648.values] at hv
  | [a], h => by
    have ha : a < 256 := h a (by simp)
    intro v hv
    simp only [RFC4648.values, List.mem_cons, List.mem_nil_iff, or_false] at hv
    rcases hv with rfl | rfl <;> omega
  | [a, b], h => by
    have ha : a < 256 := h a (by simp)
    have hb : b < 256 := h b (by simp)
    intro v hv
    simp only [RFC4648.values, List.mem_cons, List.mem_nil_iff, or_false] at hv
    rcases hv with rfl | rfl | rfl <;> omega
  | a :: b :: c :: rest, h => by
    have ha : a < 256 := h a (by simp)
    have hb : b < 256 := h b (by simp)
    have hc : c < 256 := h c (by simp)
    have ih := values_lt rest (fun x hx => h x (by simp [hx]))
    intro v hv
    simp only [RFC4648.values, List.mem_cons] at hv
    rcases hv with rfl | rfl | rfl | rfl | hv
    · omega
    · omega
    · omega
    · omega
    · exact ih v hv

theorem values_length : ∀ (Data : List Nat),
    (RFC4648.values Data).length = (4 * Data.length + 2) / 3
  | [] => rfl
  | [_] => by simp [RFC4648.values]
  | [_, _] => by simp [RFC4648.values]
  | _ :: _ :: _ :: rest => by
    simp only [RFC4648.values, List.length_cons, values_length rest]; omega

theorem bytes_values : ∀ (Data : List Nat), (∀ b ∈ Data, b < 256) →
    RFC4648.bytes (RFC4648.values Data) = some Data
  | [], _ => rfl
  | [a], h => by
    have ha : a < 256 := h a (by simp)
    simp only [RFC4648.values, RFC4648.bytes, Option.some.injEq, List.cons.injEq, and_true]
    omega
  | [a, b], h => by
    have ha : a < 256 := h a (by simp)
    have hb : b < 256 := h b (by simp)
    simp only [RFC4648.values, RFC4648.bytes, Option.some.injEq, List.cons.injEq, and_true]
    omega
  | a :: b :: c :: rest, h => by
    have ha : a < 256 := h a (by simp)
    have hb : b < 256 := h b (by simp)
    have hc : c < 256 := h c (by simp)
    have ih := bytes_values rest (fun x hx => h x (by simp [hx]))
    simp only [RFC4648.values, RFC4648.bytes, ih, Option.map_some', Option.some.injEq,
      List.cons.injEq, and_true]
    omega

theorem mapM_value_url : ∀ (l : List Nat), (∀ v ∈ l, v < 64) →
    (l.map (fun v => RFC4648.urlAlphabet.getD v 'A')).mapM RFC4648.value = some l
  | [], _ => rfl
  | v :: l, h => by
    have ih := mapM_value_url l (fun x hx => h x (by simp [hx]))
    rw [List.map_cons, List.mapM_cons, value_url_char v (h v (by simp)), ih]
    rfl

theorem url_char_safe (v : Nat) :
    RFC4648.urlAlphabet.getD v 'A' ≠ '+' ∧ RFC4648.urlAlphabet.getD v 'A' ≠ '/' ∧
      RFC4648.urlAlphabet.getD v 'A' ≠ '=' := by
  by_cases hv : v < 64
  · interval_cases v <;> decide
  · rw [List.getD_eq_default _ _ (by simp only [RFC4648.urlAlphabet]; exact Nat.le_of_not_lt hv)]
    decide

/-- Round trip and shape of `Base64UrlEncode` on byte strings of any length. -/
theorem Base64UrlEncode_spec (Data : List Nat) (h : ∀ b ∈ Data, b < 256) :
    (Base64UrlEncode Data).length = (4 * Data.length + 2) / 3 ∧
      (∀ c ∈ (Base64UrlEncode Data).data, c ≠ '+' ∧ c ≠ '/' ∧ c ≠ '=') ∧
      RFC4648.decode (Base64UrlEncode Data) = some Data := by
  have hc := Base64UrlEncode_chars Data h
  refine ⟨?_, ?_, ?_⟩
  · simp only [Base64UrlEncode, String.length, hc, List.length_map, values_length]
  · intro c hmem
    simp only [Base64UrlEncode, hc, List.mem_map] at hmem
    obtain ⟨v, _, rfl⟩ := hmem
    exact url_char_safe v
  · simp only [RFC4648.decode, Base64UrlEncode, hc, mapM_value_url _ (values_lt Data h),
      Option.some_bind, bytes_values Data h]

/-! ### PKCE -/

theorem ComputeSHA256_length (Data : List Nat) : (ComputeSHA256 Data).length = 32 :=
  writeHash_length _

theorem GenerateCodeChallenge_eq (v : String) :
    GenerateCodeChallenge v = Base64UrlEncode (ComputeSHA256 (utf8Bytes v)) := by
  simp only [GenerateCodeChallenge, List.nil_append]
  rw [List.take_of_length_le (by rw [ComputeSHA256_length])]

/-- The thirty-two bytes `GenerateCodeVerifier` draws. -/
theorem RandomBytes_eq (Rand : Nat → Nat) :
    forLoop (fun i (R : List Nat) => R.set i (Rand i % 256)) 0 32 (List.replicate 32 0)
      = (List.range 32).map (fun i => Rand i % 256) := by
  have h := set_loop (fun i => Rand i % 256) 32 0 0 [] rfl
  simpa [List.range_eq_range'] using h

/-! ### The flow -/

theorem lostBits_eq_zero (a : Nat) (h : a < 2 ^ 24) : lostBits a = 0 := by
  unfold lostBits
  rw [List.length_eq_zero, List.filter_eq_nil_iff]
  intro k _
  have : 2 ^ 24 ≤ 2 ^ (24 + k) := Nat.pow_le_pow_right (by decide) (by omega)
  simp only [decide_eq_true_eq]
  omega

/-- The cast to `float` keeps every value from `0` to `2 ^ 24`. -/
theorem castFloat_eq (x : Int) (h0 : 0 ≤ x) (h : x ≤ 16777216) : castFloat x = x := by
  rcases lt_or_eq_of_le h with hlt | heq
  · have ha : x.natAbs < 2 ^ 24 := by omega
    unfold castFloat
    simp only [lostBits_eq_zero _ ha]
    have hx : ¬ x < 0 := by omega
    have hn : (x.natAbs : Int) = x := Int.natAbs_of_nonneg h0
    simp [hx, hn, Nat.mod_one]
  · subst heq
    decide

theorem IsActive_eq_false (s : FlowState)
    (hs : s.Status = EDeviceAuthStatus.Idle ∨ s.Status = EDeviceAuthStatus.Success ∨
      s.Status = EDeviceAuthStatus.Expired ∨ s.Status = EDeviceAuthStatus.Cancelled ∨
      s.Status = EDeviceAuthStatus.Error) : IsActive s = false := by
  rcases hs with h | h | h | h | h <;> simp [IsActive, h]

/-- What `CompleteWithError` does in any state: the status ends as `Error`, exactly one
`OnAuthError` is broadcast, carrying the given code and message, no timer is set, no
`OnAuthUrlReady` is broadcast and no request is started; the timers are cleared when the world
is valid and left as they were otherwise. -/
theorem CompleteWithError_spec (ErrorCode ErrorMessage : String) (s : FlowState) :
    EndsInError ErrorCode (CompleteWithError ErrorCode ErrorMessage s) ∧
    authErrors (CompleteWithError ErrorCode ErrorMessage s).2 = [(ErrorCode, ErrorMessage)] ∧
    timersSet (CompleteWithError ErrorCode ErrorMessage s).2 = [] ∧
    authUrlsReady (CompleteWithError ErrorCode ErrorMessage s).2 = [] ∧
    requestsSent (CompleteWithError ErrorCode ErrorMessage s).2 = [] ∧
    (CompleteWithError ErrorCode ErrorMessage s).1.PollingTimerHandle
      = (if s.WorldPtr then none else s.PollingTimerHandle) ∧
    (CompleteWithError ErrorCode ErrorMessage s).1.ExpirationTimerHandle
      = (if s.WorldPtr then none else s.ExpirationTimerHandle) := by
  cases hr : s.CurrentHttpRequest <;> cases hw : s.WorldPtr <;>
    by_cases hst : s.Status = EDeviceAuthStatus.Error <;>
    simp [CompleteWithError, Cleanup, SetStatus, Outcome.andThen, hr, hw, hst, authErrors,
      timersSet, authUrlsReady, requestsSent, EndsInError, authErrorCodes]

/-! ### Terminal transitions and the timers -/

theorem SetStatus_fst (n : EDeviceAuthStatus) (s : FlowState) :
    (SetStatus n s).1 = { s with Status := n } := by
  unfold SetStatus
  by_cases h : s.Status = n
  · subst h; simp
  · simp [h]

theorem SetStatus_snd (n : EDeviceAuthStatus) (s : FlowState) :
    (SetStatus n s).2 = if s.Status = n then [] else [Effect.OnStatusChanged s.Status n] := by
  unfold SetStatus
  by_cases h : s.Status = n <;> simp [h]

theorem Cleanup_fst (s : FlowState) :
    (Cleanup s).1 =
      { s with CurrentHttpRequest := none
               PollingTimerHandle := if s.WorldPtr then none else s.PollingTimerHandle
               ExpirationTimerHandle := if s.WorldPtr then none else s.ExpirationTimerHandle
               DeviceCode := "", UserCode := "", AuthUrl := "", CodeVerifier := ""
               CodeChallenge := "", AccessToken := "", RefreshToken := "" } := by
  cases hr : s.CurrentHttpRequest <;> cases hw : s.WorldPtr <;>
    simp [Cleanup, Outcome.andThen, hr, hw]

theorem Cleanup_snd (s : FlowState) :
    (Cleanup s).2 =
      (match s.CurrentHttpRequest with
        | some Request => [Effect.CancelRequest Request]
        | none => []) ++
      (if s.WorldPtr then
        [Effect.ClearTimer TimerHandle.PollingTimerHandle,
         Effect.ClearTimer TimerHandle.ExpirationTimerHandle]
       else []) := by
  cases hr : s.CurrentHttpRequest <;> cases hw : s.WorldPtr <;>
    simp [Cleanup, Outcome.andThen, hr, hw]

/-- The common shape of every terminal transition: `Cleanup`, `SetStatus`, then broadcasts. -/
theorem terminal_fst (n : EDeviceAuthStatus) (l : List Effect) (s : FlowState) :
    (((Cleanup s).andThen (SetStatus n)).andThen fun t => (t, l)).1 =
      { (Cleanup s).1 with Status := n } := by
  simp [Outcome.andThen, SetStatus_fst]

theorem terminal_snd (n : EDeviceAuthStatus) (l : List Effect) (s : FlowState) :
    (((Cleanup s).andThen (SetStatus n)).andThen fun t => (t, l)).2 =
      (Cleanup s).2 ++ (if s.Status = n then [] else [Effect.OnStatusChanged s.Status n]) ++ l := by
  simp [Outcome.andThen, SetStatus_snd, Cleanup_fst]

theorem Cleanup_timers (s : FlowState) :
    (Cleanup s).1.PollingTimerHandle = (if s.WorldPtr then none else s.PollingTimerHandle) ∧
    (Cleanup s).1.ExpirationTimerHandle
      = (if s.WorldPtr then none else s.ExpirationTimerHandle) ∧
    (Cleanup s).1.WorldPtr = s.WorldPtr := by
  rw [Cleanup_fst]
  exact ⟨rfl, rfl, rfl⟩

theorem TimersConsistent_terminal (n : EDeviceAuthStatus) (l : List Effect) (s : FlowState) :
    TimersConsistent (((Cleanup s).andThen (SetStatus n)).andThen fun t => (t, l)).1 := by
  rw [terminal_fst]
  intro _ hw
  have h := Cleanup_timers s
  have hw2 : s.WorldPtr = true := by rw [← h.2.2]; exact hw
  exact ⟨by rw [show ({ (Cleanup s).1 with Status := n } : FlowState).PollingTimerHandle
      = (Cleanup s).1.PollingTimerHandle from rfl, h.1, hw2]; rfl,
    by rw [show ({ (Cleanup s).1 with Status := n } : FlowState).ExpirationTimerHandle
      = (Cleanup s).1.ExpirationTimerHandle from rfl, h.2.1, hw2]; rfl⟩

theorem TimersConsistent_CompleteWithError (c m : String) (s : FlowState) :
    TimersConsistent (CompleteWithError c m s).1 :=
  TimersConsistent_terminal _ _ s

theorem TimersConsistent_CompleteWithSuccess (R : FDeviceAuthResult) (s : FlowState) :
    TimersConsistent (CompleteWithSuccess R s).1 :=
  TimersConsistent_terminal _ _ s

theorem TimersConsistent_StartPolling (s : FlowState) :
    TimersConsistent (StartPolling s).1 := by
  unfold StartPolling
  simp only [Outcome.andThen, SetStatus_fst]
  cases hw : s.WorldPtr
  · simp only [hw, Bool.not_false, if_true]
    exact TimersConsistent_CompleteWithError _ _ _
  · simp [hw, TimersConsistent, IsActive]

theorem TimersConsistent_StartAuthFlow (g sc : String) (Rand : Nat → Nat) (w : Option Bool)
    (s : FlowState) (h : TimersConsistent s) :
    TimersConsistent (StartAuthFlow g sc Rand w s).1 := by
  unfold StartAuthFlow
  cases ha : IsActive s
  · cases w <;>
      simp [Outcome.andThen, SetStatus_fst, RequestDeviceCode, TimersConsistent, IsActive]
  · simpa using h

theorem TimersConsistent_CancelAuthFlow (s : FlowState) (h : TimersConsistent s) :
    TimersConsistent (CancelAuthFlow s).1 := by
  unfold CancelAuthFlow
  cases ha : IsActive s
  · simpa using h
  · simp only [Bool.not_true, Bool.false_eq_true, if_false]
    have := TimersConsistent_terminal EDeviceAuthStatus.Cancelled [] s
    simpa [Outcome.andThen] using this

theorem TimersConsistent_PollForToken (s : FlowState) (h : TimersConsistent s) :
    TimersConsistent (PollForToken s).1 := by
  unfold PollForToken
  by_cases hs : s.Status = EDeviceAuthStatus.Polling
  · simp [hs, TimersConsistent, IsActive]
  · simpa [hs] using h

theorem TimersConsistent_OnExpirationTimer (s : FlowState) :
    TimersConsistent { (OnExpirationTimer s).1 with ExpirationTimerHandle := none } := by
  have := TimersConsistent_terminal EDeviceAuthStatus.Expired
    [Effect.OnAuthError "EXPIRED" "Device code expired. Please start again."] s
  intro ha hw
  have h2 := this (by simpa [OnExpirationTimer] using ha) (by simpa [OnExpirationTimer] using hw)
  exact ⟨by simpa [OnExpirationTimer] using h2.1, rfl⟩

theorem TimersConsistent_HandleDeviceCodeResponse (R : Option FHttpResponse) (ok : Bool)
    (s : FlowState) : TimersConsistent (HandleDeviceCodeResponse R ok s).1 := by
  unfold HandleDeviceCodeResponse
  split
  · exact TimersConsistent_CompleteWithError _ _ s
  · exact TimersConsistent_CompleteWithError _ _ s
  · split
    · exact TimersConsistent_CompleteWithError _ _ s
    · split
      · exact TimersConsistent_CompleteWithError _ _ s
      · dsimp only
        split
        · exact TimersConsistent_CompleteWithError _ _ _
        · simp only [Outcome.andThen]
          exact TimersConsistent_StartPolling _

theorem TimersConsistent_ExchangeForPlayerToken (a : String) (s : FlowState)
    (h : TimersConsistent s) : TimersConsistent (ExchangeForPlayerToken a s).1 := by
  simpa [ExchangeForPlayerToken, TimersConsistent, IsActive] using h

theorem TimersConsistent_HandleTokenResponse (R : Option FHttpResponse) (ok : Bool)
    (s : FlowState) (h : TimersConsistent s) :
    TimersConsistent (HandleTokenResponse R ok s).1 := by
  unfold HandleTokenResponse
  split
  · exact h
  · exact h
  · split
    · exact h
    · split
      · dsimp only
        split
        · exact TimersConsistent_CompleteWithError _ _ _
        · apply TimersConsistent_ExchangeForPlayerToken
          simpa [TimersConsistent, IsActive] using h
      · dsimp only
        split
        · split
          · exact h
          · split
            · simpa [TimersConsistent, IsActive] using h
            · split
              · exact TimersConsistent_terminal _ _ s
              · split
                · exact TimersConsistent_terminal _ _ s
                · exact TimersConsistent_CompleteWithError _ _ s
        · exact TimersConsistent_CompleteWithError _ _ s

theorem TimersConsistent_HandlePlayerTokenResponse (R : Option FHttpResponse) (ok : Bool)
    (s : FlowState) : TimersConsistent (HandlePlayerTokenResponse R ok s).1 := by
  unfold HandlePlayerTokenResponse
  split
  · exact TimersConsistent_CompleteWithError _ _ s
  · exact TimersConsistent_CompleteWithError _ _ s
  · split
    · exact TimersConsistent_CompleteWithError _ _ s
    · split
      · exact TimersConsistent_CompleteWithError _ _ s
      · exact TimersConsistent_CompleteWithSuccess _ s

/-- In every reachable system a flow that is not active and whose world pointer is valid has
neither timer armed. -/
theorem Reachable_TimersConsistent (sys : System) (h : Reachable sys) :
    TimersConsistent sys.Flow := by
  induction h with
  | init => intro _ _; exact ⟨rfl, rfl⟩
  | step sys e _ ih =>
    cases e with
    | StartAuthFlow g sc Rand w => exact TimersConsistent_StartAuthFlow g sc Rand w _ ih
    | CancelAuthFlow => exact TimersConsistent_CancelAuthFlow _ ih
    | PollingTimerFires =>
      simp only [System.step]
      split
      · exact TimersConsistent_PollForToken _ ih
      · exact ih
    | ExpirationTimerFires =>
      simp only [System.step]
      split
      · exact TimersConsistent_OnExpirationTimer _
      · exact ih
    | ResponseArrives To R ok =>
      simp only [System.step]
      split
      · cases To
        · exact TimersConsistent_HandleDeviceCodeResponse R ok _
        · exact TimersConsistent_HandleTokenResponse R ok _ ih
        · exact TimersConsistent_HandlePlayerTokenResponse R ok _
      · exact ih
    | WorldDestroyed =>
      intro _ hw
      simp [System.step] at hw

/-- What every terminal transition `Cleanup(); SetStatus(n); broadcasts` leaves behind. -/
theorem terminal_spec (n : EDeviceAuthStatus) (l : List Effect) (s : FlowState) :
    (((Cleanup s).andThen (SetStatus n)).andThen fun t => (t, l)).1.Status = n ∧
    SessionCleared (((Cleanup s).andThen (SetStatus n)).andThen fun t => (t, l)).1 ∧
    (((Cleanup s).andThen (SetStatus n)).andThen fun t => (t, l)).1.CurrentHttpRequest = none ∧
    authErrors (((Cleanup s).andThen (SetStatus n)).andThen fun t => (t, l)).2 = authErrors l ∧
    authErrorCodes (((Cleanup s).andThen (SetStatus n)).andThen fun t => (t, l)).2
      = authErrorCodes l ∧
    authSuccesses (((Cleanup s).andThen (SetStatus n)).andThen fun t => (t, l)).2
      = authSuccesses l ∧
    timersSet (((Cleanup s).andThen (SetStatus n)).andThen fun t => (t, l)).2 = timersSet l ∧
    requestsSent (((Cleanup s).andThen (SetStatus n)).andThen fun t => (t, l)).2
      = requestsSent l ∧
    authUrlsReady (((Cleanup s).andThen (SetStatus n)).andThen fun t => (t, l)).2
      = authUrlsReady l ∧
    statusChanges (((Cleanup s).andThen (SetStatus n)).andThen fun t => (t, l)).2
      = (if s.Status = n then [] else [(s.Status, n)]) ++ statusChanges l := by
  rw [terminal_fst, terminal_snd, Cleanup_fst, Cleanup_snd]
  cases hr : s.CurrentHttpRequest <;> cases hw : s.WorldPtr <;>
    by_cases hst : s.Status = n <;>
    simp [hst, SessionCleared, authErrors, authErrorCodes, authSuccesses, timersSet,
      requestsSent, authUrlsReady, statusChanges, List.filterMap_append]


theorem Reachable_run (sys : System) (h : Reachable sys) (Events : List Event) :
    Reachable (sys.run Events) := by
  induction Events generalizing sys with
  | nil => exact h
  | cons e es ih => exact ih _ (Reachable.step sys e h)

theorem Reachable_scenarioPollingSystem : Reachable scenarioPollingSystem :=
  Reachable_run _ Reachable.init _

theorem CompleteWithSuccess_spec (Result : FDeviceAuthResult) (s : FlowState) :
    (CompleteWithSuccess Result s).1.Status = EDeviceAuthStatus.Success ∧
    authSuccesses (CompleteWithSuccess Result s).2 = [Result] ∧
    authErrors (CompleteWithSuccess Result s).2 = [] :=
  ⟨(terminal_spec _ _ s).1, (terminal_spec _ _ s).2.2.2.2.2.1, (terminal_spec _ _ s).2.2.2.1⟩

set_option maxRecDepth 100000 in
/-- The run of scenario B ends in `Success` with the result `(at1, u1, pt1, 3600)`. -/
theorem scenarioSuccess_run :
    (scenarioPollingSystem.run scenarioSuccessEvents).Flow.Status = EDeviceAuthStatus.Success ∧
    authSuccesses (scenarioPollingSystem.run scenarioSuccessEvents).Trace =
      [{ bSuccess := true, AccessToken := "at1", RefreshToken := "", UserId := "u1",
         PlayerToken := "pt1", ExpiresIn := 3600 }] := by
  decide

/-! ### Cleanup and the broadcasts -/

theorem Cleanup_no_broadcast (s : FlowState) : ∀ e ∈ (Cleanup s).2, e.isBroadcast = false := by
  rw [Cleanup_snd]
  cases hr : s.CurrentHttpRequest <;> cases hw : s.WorldPtr <;>
    simp [Effect.isBroadcast]

theorem CleanupThenBroadcast_terminal (n : EDeviceAuthStatus) (l : List Effect) (s : FlowState) :
    CleanupThenBroadcast s n l (((Cleanup s).andThen (SetStatus n)).andThen fun t => (t, l)) := by
  refine ⟨terminal_fst n l s, ?_⟩
  rw [terminal_snd, List.append_assoc]

theorem Cleanup_idem (s : FlowState) : (Cleanup (Cleanup s).1).1 = (Cleanup s).1 := by
  rw [Cleanup_fst (Cleanup s).1, Cleanup_fst s]
  cases hw : s.WorldPtr <;> simp

theorem Cleanup_cleared (s : FlowState) :
    (Cleanup s).1.CurrentHttpRequest = none ∧ SessionCleared (Cleanup s).1 := by
  rw [Cleanup_fst]
  simp [SessionCleared]

theorem StatusChangesDiffer_nil : StatusChangesDiffer [] := by
  intro p hp; simp [statusChanges] at hp

theorem StatusChangesDiffer_append (a b : List Effect) (ha : StatusChangesDiffer a)
    (hb : StatusChangesDiffer b) : StatusChangesDiffer (a ++ b) := by
  intro p hp
  simp only [statusChanges, List.filterMap_append, List.mem_append] at hp
  rcases hp with h | h
  · exact ha p h
  · exact hb p h

theorem StatusChangesDiffer_andThen (r : Outcome) (f : FlowState → Outcome)
    (hr : StatusChangesDiffer r.2) (hf : ∀ t, StatusChangesDiffer (f t).2) :
    StatusChangesDiffer (r.andThen f).2 :=
  StatusChangesDiffer_append _ _ hr (hf _)

theorem StatusChangesDiffer_SetStatus (n : EDeviceAuthStatus) (s : FlowState) :
    StatusChangesDiffer (SetStatus n s).2 := by
  rw [SetStatus_snd]
  by_cases h : s.Status = n
  · simp [h, StatusChangesDiffer_nil]
  · intro p hp
    simp [h, statusChanges] at hp
    subst hp
    exact h

theorem StatusChangesDiffer_Cleanup (s : FlowState) : StatusChangesDiffer (Cleanup s).2 := by
  rw [Cleanup_snd]
  intro p hp
  cases hr : s.CurrentHttpRequest <;> cases hw : s.WorldPtr <;>
    simp [hr, hw, statusChanges] at hp

theorem StatusChangesDiffer_terminal (n : EDeviceAuthStatus) (l : List Effect) (s : FlowState)
    (hl : StatusChangesDiffer l) :
    StatusChangesDiffer (((Cleanup s).andThen (SetStatus n)).andThen fun t => (t, l)).2 :=
  StatusChangesDiffer_andThen _ _
    (StatusChangesDiffer_andThen _ _ (StatusChangesDiffer_Cleanup s)
      (fun t => StatusChangesDiffer_SetStatus n t))
    (fun _ => hl)

theorem StatusChangesDiffer_CompleteWithError (c m : String) (s : FlowState) :
    StatusChangesDiffer (CompleteWithError c m s).2 :=
  StatusChangesDiffer_terminal _ _ s (by intro p hp; simp [statusChanges] at hp)

theorem StatusChangesDiffer_CompleteWithSuccess (R : FDeviceAuthResult) (s : FlowState) :
    StatusChangesDiffer (CompleteWithSuccess R s).2 :=
  StatusChangesDiffer_terminal _ _ s (by intro p hp; simp [statusChanges] at hp)

theorem StatusChangesDiffer_StartPolling (s : FlowState) :
    StatusChangesDiffer (StartPolling s).2 := by
  unfold StartPolling
  apply StatusChangesDiffer_andThen _ _ (StatusChangesDiffer_SetStatus _ _)
  intro t
  split
  · exact StatusChangesDiffer_CompleteWithError _ _ _
  · intro p hp; simp [statusChanges] at hp

theorem StatusChangesDiffer_StartAuthFlow (g sc : String) (Rand : Nat → Nat) (w : Option Bool)
    (s : FlowState) : StatusChangesDiffer (StartAuthFlow g sc Rand w s).2 := by
  unfold StartAuthFlow
  split
  · exact StatusChangesDiffer_nil
  · dsimp only
    apply StatusChangesDiffer_andThen _ _ (StatusChangesDiffer_SetStatus _ _)
    intro t p hp
    simp [RequestDeviceCode, statusChanges] at hp

theorem StatusChangesDiffer_CancelAuthFlow (s : FlowState) :
    StatusChangesDiffer (CancelAuthFlow s).2 := by
  unfold CancelAuthFlow
  split
  · exact StatusChangesDiffer_nil
  · exact StatusChangesDiffer_andThen _ _ (StatusChangesDiffer_Cleanup s)
      (fun t => StatusChangesDiffer_SetStatus _ t)

theorem StatusChangesDiffer_PollForToken (s : FlowState) :
    StatusChangesDiffer (PollForToken s).2 := by
  unfold PollForToken
  split
  · exact StatusChangesDiffer_nil
  · intro p hp; simp [statusChanges] at hp

theorem StatusChangesDiffer_OnExpirationTimer (s : FlowState) :
    StatusChangesDiffer (OnExpirationTimer s).2 :=
  StatusChangesDiffer_terminal _ _ s (by intro p hp; simp [statusChanges] at hp)

theorem StatusChangesDiffer_HandleDeviceCodeResponse (R : Option FHttpResponse) (ok : Bool)
    (s : FlowState) : StatusChangesDiffer (HandleDeviceCodeResponse R ok s).2 := by
  unfold HandleDeviceCodeResponse
  split
  · exact StatusChangesDiffer_CompleteWithError _ _ _
  · exact StatusChangesDiffer_CompleteWithError _ _ _
  · split
    · exact StatusChangesDiffer_CompleteWithError _ _ _
    · split
      · exact StatusChangesDiffer_CompleteWithError _ _ _
      · dsimp only
        split
        · exact StatusChangesDiffer_CompleteWithError _ _ _
        · apply StatusChangesDiffer_andThen
          · intro p hp; simp [statusChanges] at hp
          · exact fun t => StatusChangesDiffer_StartPolling t

theorem StatusChangesDiffer_HandleTokenResponse (R : Option FHttpResponse) (ok : Bool)
    (s : FlowState) : StatusChangesDiffer (HandleTokenResponse R ok s).2 := by
  unfold HandleTokenResponse
  split
  · exact StatusChangesDiffer_nil
  · exact StatusChangesDiffer_nil
  · split
    · exact StatusChangesDiffer_nil
    · split
      · dsimp only
        split
        · exact StatusChangesDiffer_CompleteWithError _ _ _
        · intro p hp; simp [ExchangeForPlayerToken, statusChanges] at hp
      · dsimp only
        split
        · split
          · exact StatusChangesDiffer_nil
          · split
            · exact StatusChangesDiffer_nil
            · split
              · exact StatusChangesDiffer_terminal _ _ s
                  (by intro p hp; simp [statusChanges] at hp)
              · split
                · exact StatusChangesDiffer_terminal _ _ s
                    (by intro p hp; simp [statusChanges] at hp)
                · exact StatusChangesDiffer_CompleteWithError _ _ _
        · exact StatusChangesDiffer_CompleteWithError _ _ _

theorem StatusChangesDiffer_HandlePlayerTokenResponse (R : Option FHttpResponse) (ok : Bool)
    (s : FlowState) : StatusChangesDiffer (HandlePlayerTokenResponse R ok s).2 := by
  unfold HandlePlayerTokenResponse
  split
  · exact StatusChangesDiffer_CompleteWithError _ _ _
  · exact StatusChangesDiffer_CompleteWithError _ _ _
  · split
    · exact StatusChangesDiffer_CompleteWithError _ _ _
    · split
      · exact StatusChangesDiffer_CompleteWithError _ _ _
      · exact StatusChangesDiffer_CompleteWithSuccess _ _

/-- In every reachable system each `OnStatusChanged` broadcast so far has two different
arguments. -/
theorem Reachable_StatusChangesDiffer (sys : System) (h : Reachable sys) :
    StatusChangesDiffer sys.Trace := by
  induction h with
  | init => exact StatusChangesDiffer_nil
  | step sys e _ ih =>
    cases e with
    | StartAuthFlow g sc Rand w =>
      exact StatusChangesDiffer_append _ _ ih (StatusChangesDiffer_StartAuthFlow g sc Rand w _)
    | CancelAuthFlow =>
      exact StatusChangesDiffer_append _ _ ih (StatusChangesDiffer_CancelAuthFlow _)
    | PollingTimerFires =>
      simp only [System.step]
      split
      · exact StatusChangesDiffer_append _ _ ih (StatusChangesDiffer_PollForToken _)
      · exact ih
    | ExpirationTimerFires =>
      simp only [System.step]
      split
      · exact StatusChangesDiffer_append _ _ ih (StatusChangesDiffer_OnExpirationTimer _)
      · exact ih
    | ResponseArrives To R ok =>
      simp only [System.step]
      split
      · cases To
        · exact StatusChangesDiffer_append _ _ ih
            (StatusChangesDiffer_HandleDeviceCodeResponse R ok _)
        · exact StatusChangesDiffer_append _ _ ih (StatusChangesDiffer_HandleTokenResponse R ok _)
        · exact StatusChangesDiffer_append _ _ ih
            (StatusChangesDiffer_HandlePlayerTokenResponse R ok _)
      · exact ih
    | WorldDestroyed => exact ih

/-! ### The session of a flow -/

theorem SessionConsistent_of_cleared (t : FlowState) (h : SessionCleared t) :
    SessionConsistent t :=
  ⟨Or.inl ⟨h.2.2.2.1, h.2.2.2.2.1⟩, fun _ => ⟨h.1, h.2.1, h.2.2.1, h.2.2.2.1, h.2.2.2.2.1⟩⟩

theorem SessionConsistent_terminal (n : EDeviceAuthStatus) (l : List Effect) (s : FlowState) :
    SessionConsistent (((Cleanup s).andThen (SetStatus n)).andThen fun t => (t, l)).1 :=
  SessionConsistent_of_cleared _ (terminal_spec n l s).2.1

theorem SessionConsistent_CompleteWithError (c m : String) (s : FlowState) :
    SessionConsistent (CompleteWithError c m s).1 :=
  SessionConsistent_terminal _ _ s

theorem SessionConsistent_StartPolling (s : FlowState)
    (h : (s.CodeVerifier = "" ∧ s.CodeChallenge = "") ∨
      s.CodeChallenge = GenerateCodeChallenge s.CodeVerifier) :
    SessionConsistent (StartPolling s).1 := by
  unfold StartPolling
  simp only [Outcome.andThen, SetStatus_fst]
  cases hw : s.WorldPtr
  · simp only [hw, Bool.not_false, if_true]
    exact SessionConsistent_CompleteWithError _ _ _
  · simpa [hw, SessionConsistent, IsActive] using h

theorem SessionConsistent_StartAuthFlow (g sc : String) (Rand : Nat → Nat) (w : Option Bool)
    (s : FlowState) (h : SessionConsistent s) :
    SessionConsistent (StartAuthFlow g sc Rand w s).1 := by
  unfold StartAuthFlow
  cases ha : IsActive s
  · cases w <;>
      simp [Outcome.andThen, SetStatus_fst, RequestDeviceCode, SessionConsistent, IsActive]
  · simpa using h

theorem SessionConsistent_CancelAuthFlow (s : FlowState) (h : SessionConsistent s) :
    SessionConsistent (CancelAuthFlow s).1 := by
  unfold CancelAuthFlow
  cases ha : IsActive s
  · simpa using h
  · simp only [Bool.not_true, Bool.false_eq_true, if_false]
    have := SessionConsistent_terminal EDeviceAuthStatus.Cancelled [] s
    simpa [Outcome.andThen] using this

theorem SessionConsistent_PollForToken (s : FlowState) (h : SessionConsistent s) :
    SessionConsistent (PollForToken s).1 := by
  unfold PollForToken
  by_cases hs : s.Status = EDeviceAuthStatus.Polling
  · simpa [hs, SessionConsistent, IsActive] using h
  · simpa [hs] using h

theorem SessionConsistent_OnExpirationTimer (s : FlowState) :
    SessionConsistent { (OnExpirationTimer s).1 with ExpirationTimerHandle := none } := by
  have h := (terminal_spec EDeviceAuthStatus.Expired
    [Effect.OnAuthError "EXPIRED" "Device code expired. Please start again."] s).2.1
  apply SessionConsistent_of_cleared
  simpa [OnExpirationTimer, SessionCleared] using h

theorem SessionConsistent_HandleDeviceCodeResponse (R : Option FHttpResponse) (ok : Bool)
    (s : FlowState) (h : SessionConsistent s) :
    SessionConsistent (HandleDeviceCodeResponse R ok s).1 := by
  unfold HandleDeviceCodeResponse
  split
  · exact SessionConsistent_CompleteWithError _ _ s
  · exact SessionConsistent_CompleteWithError _ _ s
  · split
    · exact SessionConsistent_CompleteWithError _ _ s
    · split
      · exact SessionConsistent_CompleteWithError _ _ s
      · dsimp only
        split
        · exact SessionConsistent_CompleteWithError _ _ _
        · simp only [Outcome.andThen]
          apply SessionConsistent_StartPolling
          exact h.1

theorem SessionConsistent_HandleTokenResponse (R : Option FHttpResponse) (ok : Bool)
    (s : FlowState) (h : SessionConsistent s) :
    SessionConsistent (HandleTokenResponse R ok s).1 := by
  unfold HandleTokenResponse
  split
  · exact h
  · exact h
  · split
    · exact h
    · split
      · dsimp only
        split
        · exact SessionConsistent_CompleteWithError _ _ _
        · simpa [ExchangeForPlayerToken, SessionConsistent, IsActive] using h
      · dsimp only
        split
        · split
          · exact h
          · split
            · simpa [SessionConsistent, IsActive] using h
            · split
              · exact SessionConsistent_terminal _ _ s
              · split
                · exact SessionConsistent_terminal _ _ s
                · exact SessionConsistent_CompleteWithError _ _ s
        · exact SessionConsistent_CompleteWithError _ _ s

theorem SessionConsistent_HandlePlayerTokenResponse (R : Option FHttpResponse) (ok : Bool)
    (s : FlowState) : SessionConsistent (HandlePlayerTokenResponse R ok s).1 := by
  unfold HandlePlayerTokenResponse
  split
  · exact SessionConsistent_CompleteWithError _ _ s
  · exact SessionConsistent_CompleteWithError _ _ s
  · split
    · exact SessionConsistent_CompleteWithError _ _ s
    · split
      · exact SessionConsistent_CompleteWithError _ _ s
      · exact SessionConsistent_terminal _ _ s

/-- In every reachable system the PKCE pair is absent or consistent, and a flow that is not
active holds neither a device-authorization session nor a PKCE pair. -/
theorem Reachable_SessionConsistent (sys : System) (h : Reachable sys) :
    SessionConsistent sys.Flow := by
  induction h with
  | init => exact ⟨Or.inl ⟨rfl, rfl⟩, fun _ => ⟨rfl, rfl, rfl, rfl, rfl⟩⟩
  | step sys e _ ih =>
    cases e with
    | StartAuthFlow g sc Rand w => exact SessionConsistent_StartAuthFlow g sc Rand w _ ih
    | CancelAuthFlow => exact SessionConsistent_CancelAuthFlow _ ih
    | PollingTimerFires =>
      simp only [System.step]
      split
      · exact SessionConsistent_PollForToken _ ih
      · exact ih
    | ExpirationTimerFires =>
      simp only [System.step]
      split
      · exact SessionConsistent_OnExpirationTimer _
      · exact ih
    | ResponseArrives To R ok =>
      simp only [System.step]
      split
      · cases To
        · exact SessionConsistent_HandleDeviceCodeResponse R ok _ ih
        · exact SessionConsistent_HandleTokenResponse R ok _ ih
        · exact SessionConsistent_HandlePlayerTokenResponse R ok _
      · exact ih
    | WorldDestroyed => exact ih

/-! ### Array accesses of `ComputeSHA256` -/

theorem forLoopM_eq_some {σ : Type} (Inv : σ → Prop) (bodyM : Nat → σ → Option σ)
    (body : Nat → σ → σ) (lo0 hi : Nat)
    (h : ∀ i s, lo0 ≤ i → i < hi → Inv s → bodyM i s = some (body i s) ∧ Inv (body i s)) :
    ∀ (n lo : Nat) (s : σ), lo0 ≤ lo → lo + n ≤ hi → Inv s →
      forLoopM bodyM lo n s = some (forLoop body lo n s) ∧ Inv (forLoop body lo n s) := by
  intro n
  induction n with
  | zero => intro lo s _ _ hs; exact ⟨rfl, hs⟩
  | succ n ih =>
    intro lo s hlo0 hlo hs
    have hb := h lo s hlo0 (by omega) hs
    have := ih (lo + 1) (body lo s) (by omega) (by omega) hb.2
    simp only [forLoopM, forLoop, hb.1, Option.some_bind]
    exact this

theorem readAt_eq (A : List Nat) (i : Nat) (h : i < A.length) :
    readAt A i = some (A.getD i 0) := by
  simp [readAt, h]

theorem writeAt_eq (A : List Nat) (i v : Nat) (h : i < A.length) :
    writeAt A i v = some (A.set i v) := by
  simp [writeAt, h]

theorem u64_eq (x : Nat) (h : x < 2 ^ 64) : u64 x = x := Nat.mod_eq_of_lt h

theorem Checked_expandBlock_eq (W : List Nat) (hW : W.length = 64) :
    Checked.expandBlock W = some (expandBlock W) ∧ (expandBlock W).length = 64 := by
  unfold Checked.expandBlock expandBlock
  apply forLoopM_eq_some (fun W : List Nat => W.length = 64) _ _ 16 64 _ 48 16 W
    (by omega) (by omega) hW
  intro i S h16 hi hS
  rw [if_pos h16, readAt_eq S (i - 2) (by omega), readAt_eq S (i - 7) (by omega),
    readAt_eq S (i - 15) (by omega), readAt_eq S (i - 16) (by omega)]
  simp only [Option.some_bind]
  exact ⟨writeAt_eq S i _ (by omega), by simp [hS]⟩

theorem Checked_loadBlock_eq (Padded : List Nat) (Offset : Nat) (W : List Nat)
    (hW : W.length = 64) (hO : Offset + 64 ≤ Padded.length) (hP : Padded.length < 2 ^ 64) :
    Checked.loadBlock Padded Offset W = some (loadBlock Padded Offset W) ∧
      (loadBlock Padded Offset W).length = 64 := by
  unfold Checked.loadBlock loadBlock
  apply forLoopM_eq_some (fun W : List Nat => W.length = 64) _ _ 0 16 _ 16 0 W
    (by omega) (by omega) hW
  intro i S _ hi hS
  rw [u64_eq (Offset + i * 4) (by omega), u64_eq (Offset + i * 4 + 1) (by omega),
    u64_eq (Offset + i * 4 + 2) (by omega), u64_eq (Offset + i * 4 + 3) (by omega),
    readAt_eq Padded _ (by omega), readAt_eq Padded (Offset + i * 4 + 1) (by omega),
    readAt_eq Padded (Offset + i * 4 + 2) (by omega),
    readAt_eq Padded (Offset + i * 4 + 3) (by omega)]
  simp only [Option.some_bind]
  exact ⟨writeAt_eq S i _ (by omega), by simp [hS]⟩

theorem Checked_round_loop (W : List Nat) (hW : W.length = 64) (v : Vars) :
    forLoopM (Checked.round W) 0 64 v = some (forLoop (round W) 0 64 v) := by
  refine (forLoopM_eq_some (fun _ : Vars => True) _ _ 0 64 ?_ 64 0 v (by omega) (by omega)
    trivial).1
  intro i s _ hi _
  refine ⟨?_, trivial⟩
  unfold Checked.round round
  rw [readAt_eq K256 i (by rw [K256_length]; exact hi), readAt_eq W i (by omega)]
  rfl

theorem bind_readAt {β : Type} (A : List Nat) (i : Nat) (h : i < A.length)
    (f : Nat → Option β) : (readAt A i).bind f = f (A.getD i 0) := by
  rw [readAt_eq A i h]; rfl

theorem bind_writeAt {β : Type} (A : List Nat) (i v : Nat) (h : i < A.length)
    (f : List Nat → Option β) : (writeAt A i v).bind f = f (A.set i v) := by
  rw [writeAt_eq A i v h]; rfl

theorem Checked_processBlock_eq (Padded : List Nat) (Offset : Nat) (H : List Nat)
    (hH : H.length = 8) (hO : Offset + 64 ≤ Padded.length) (hP : Padded.length < 2 ^ 64) :
    Checked.processBlock Padded Offset H = some (processBlock Padded Offset H) ∧
      (processBlock Padded Offset H).length = 8 := by
  have hl := Checked_loadBlock_eq Padded Offset (List.replicate 64 0) (by simp) hO hP
  have he := Checked_expandBlock_eq _ hl.2
  refine ⟨?_, rfl⟩
  unfold Checked.processBlock processBlock
  rw [hl.1, Option.some_bind, he.1, Option.some_bind, bind_readAt H 0 (by omega),
    bind_readAt H 1 (by omega), bind_readAt H 2 (by omega), bind_readAt H 3 (by omega),
    bind_readAt H 4 (by omega), bind_readAt H 5 (by omega), bind_readAt H 6 (by omega),
    bind_readAt H 7 (by omega), Checked_round_loop _ he.2, Option.some_bind]

theorem Checked_writeHash_eq (H : List Nat) (hH : H.length = 8) :
    Checked.writeHash H = some (writeHash H) := by
  unfold Checked.writeHash writeHash
  refine (forLoopM_eq_some (fun Out : List Nat => Out.length = 32) _ _ 0 8 ?_ 8 0 _
    (by omega) (by omega) (by simp)).1
  intro i Out _ hi hOut
  dsimp only
  rw [bind_readAt H i (by omega), bind_writeAt Out (i * 4) _ (by omega),
    bind_writeAt _ (i * 4 + 1) _ (by simp; omega),
    bind_writeAt _ (i * 4 + 2) _ (by simp; omega),
    writeAt_eq _ (i * 4 + 3) _ (by simp; omega)]
  exact ⟨rfl, by simp [hOut]⟩

theorem PaddedLen_bounds (n : Nat) (hn : n < 2 ^ 61) :
    n + 9 ≤ PaddedLen n ∧ PaddedLen n < n + 73 ∧ PaddedLen n % 64 = 0 ∧ 64 ≤ PaddedLen n := by
  rw [PaddedLen_eq n hn]
  omega

theorem sub64_eq (x y : Nat) (hx : x < 2 ^ 64) (hy : y ≤ x) : sub64 x y = x - y := by
  unfold sub64
  rw [u64_eq y (by omega)]
  unfold u64
  have : x + (2 ^ 64 - y) = (x - y) + 2 ^ 64 := by omega
  rw [this, Nat.add_mod_right]
  exact Nat.mod_eq_of_lt (by omega)

theorem Checked_buildPadded_eq (Data : List Nat) (hn : Data.length < 2 ^ 61) :
    Checked.buildPadded Data = some (buildPadded Data) ∧
      (buildPadded Data).length = PaddedLen Data.length := by
  have hu : u64 Data.length = Data.length := u64_eq _ (by omega)
  have hb := PaddedLen_bounds Data.length hn
  unfold Checked.buildPadded buildPadded
  simp only [hu, List.length_replicate]
  rw [if_pos ⟨le_refl _, by omega⟩]
  have hlen : (List.take Data.length Data ++
      List.drop Data.length (List.replicate (PaddedLen Data.length) 0)).length
      = PaddedLen Data.length := by
    simp; omega
  rw [writeAt_eq _ _ _ (by rw [hlen]; omega), Option.some_bind]
  apply forLoopM_eq_some (fun P : List Nat => P.length = PaddedLen Data.length) _ _ 0 8 _ 8 0 _
    (by omega) (by omega) (by simp; omega)
  intro i P _ hi hP
  have hs : sub64 (sub64 (PaddedLen Data.length) 1) i = PaddedLen Data.length - 1 - i := by
    rw [sub64_eq _ 1 (by omega) (by omega), sub64_eq _ i (by omega) (by omega)]
  rw [hs]
  exact ⟨writeAt_eq P _ _ (by omega), by simp [hP]⟩

theorem Checked_ComputeSHA256_eq (Data : List Nat) (hn : Data.length < 2 ^ 61) :
    Checked.ComputeSHA256 Data = some (ComputeSHA256 Data) := by
  have hu : u64 Data.length = Data.length := u64_eq _ (by omega)
  have hb := PaddedLen_bounds Data.length hn
  have hp := Checked_buildPadded_eq Data hn
  unfold Checked.ComputeSHA256 ComputeSHA256
  rw [hp.1, Option.some_bind, hu]
  have hloop := forLoopM_eq_some (fun H : List Nat => H.length = 8)
    (fun k H => Checked.processBlock (buildPadded Data) (u64 (k * 64)) H)
    (fun k H => processBlock (buildPadded Data) (k * 64) H) 0
    ((PaddedLen Data.length + 63) / 64) (by
      intro k H _ hk hH
      have hk2 : k * 64 + 64 ≤ PaddedLen Data.length := by omega
      dsimp only
      rw [u64_eq (k * 64) (by omega)]
      exact Checked_processBlock_eq _ _ H hH (by rw [hp.2]; exact hk2) (by rw [hp.2]; omega))
    ((PaddedLen Data.length + 63) / 64) 0 H0 (by omega) (by omega) rfl
  rw [hloop.1, Option.some_bind]
  exact Checked_writeHash_eq _ hloop.2

theorem forLoop_length_set (f : Nat → List Nat → Nat) (n lo : Nat) (S : List Nat) :
    (forLoop (fun i W => W.set i (f i W)) lo n S).length = S.length := by
  induction n generalizing lo S with
  | zero => rfl
  | succ n ih => rw [forLoop_succ, ih]; simp

/-! ### The settings window -/

theorem SettingsWindow_K256_eq : SettingsWindow.K256 = K256 := rfl

theorem SettingsWindow_RotR_eq : SettingsWindow.RotR = RotR := rfl

theorem SettingsWindow_round_eq : SettingsWindow.round = round := rfl

theorem SettingsWindow_buildPadded_eq : SettingsWindow.buildPadded = buildPadded := rfl

theorem SettingsWindow_processBlock_eq : SettingsWindow.processBlock = processBlock := rfl

theorem SettingsWindow_writeHash_eq : SettingsWindow.writeHash = writeHash := rfl

theorem SettingsWindow_ComputeSHA256_eq (Data : List Nat) :
    SettingsWindow.ComputeSHA256 Data = ComputeSHA256 Data := rfl

theorem toNat_ofNat_small (n : Nat) (h : n < 55296) : (Char.ofNat n).toNat = n := by
  have hv : n.isValidChar := Or.inl h
  unfold Char.ofNat
  rw [dif_pos hv]
  rfl

theorem toLower_eq_iff_of_small (c x : Char) (hx : x.toNat < 65) : c.toLower = x ↔ c = x := by
  unfold Char.toLower
  dsimp only
  split
  · rename_i h
    constructor
    · intro e
      exfalso
      have : (Char.ofNat (c.toNat + 32)).toNat = x.toNat := by rw [e]
      rw [toNat_ofNat_small _ (by omega)] at this
      omega
    · intro e
      exfalso
      subst e
      omega
  · rfl

theorem findLast_eq_none (p : Char → Bool) :
    ∀ s : List Char, (∀ c ∈ s, p c = false) → SettingsWindow.findLast p s = none
  | [], _ => rfl
  | c :: s, h => by
    have ih := findLast_eq_none p s (fun d hd => h d (List.mem_cons_of_mem _ hd))
    simp [SettingsWindow.findLast, ih, h c (List.mem_cons_self _ _)]

theorem findLast_append_some (p : Char → Bool) (b : List Char) (i : Nat)
    (hb : SettingsWindow.findLast p b = some i) :
    ∀ a : List Char, SettingsWindow.findLast p (a ++ b) = some (a.length + i)
  | [] => by simpa using hb
  | c :: a => by
    have ih := findLast_append_some p b i hb a
    rw [List.cons_append, SettingsWindow.findLast, ih]
    exact congrArg some (by simp only [List.length_cons]; omega)

/-- The characters of an option string. -/
theorem GameOption_data (n c g : String) :
    (SettingsWindow.GameOption n c g).data
      = (n.data ++ [' ', '['] ++ c.data ++ [']', ' ']) ++ ('(' :: (g.data ++ [')'])) := by
  simp [SettingsWindow.GameOption, String.data_append]

theorem Find_open (n c g : String) (hg : '(' ∉ g.data) :
    SettingsWindow.FString.Find '(' (SettingsWindow.GameOption n c g)
      = ((n.data ++ [' ', '['] ++ c.data ++ [']', ' ']).length : Int) := by
  have hp : ∀ x : Char, (x.toLower == '('.toLower) = (x == '(') := by
    intro x
    have := toLower_eq_iff_of_small x '(' (by decide)
    have h0 : '('.toLower = '(' := by decide
    rw [h0]
    by_cases hx : x = '('
    · simp [hx, h0]
    · simp [hx, this]
  have hnone : SettingsWindow.findLast (fun x => x.toLower == '('.toLower) (g.data ++ [')'])
      = none := by
    apply findLast_eq_none
    intro x hx
    rw [hp]
    rcases List.mem_append.mp hx with h | h
    · have : x ≠ '(' := fun e => hg (e ▸ h)
      simpa using this
    · simp at h
      subst h
      decide
  have hsome : SettingsWindow.findLast (fun x => x.toLower == '('.toLower)
      ('(' :: (g.data ++ [')'])) = some 0 := by
    simp only [SettingsWindow.findLast, hnone]
    decide
  unfold SettingsWindow.FString.Find
  rw [GameOption_data, findLast_append_some _ _ 0 hsome]
  simp

theorem Find_close (n c g : String) :
    SettingsWindow.FString.Find ')' (SettingsWindow.GameOption n c g)
      = ((n.data ++ [' ', '['] ++ c.data ++ [']', ' ']).length + 1 + g.data.length : Int) := by
  have hsome : SettingsWindow.findLast (fun x => x.toLower == ')'.toLower) [')'] = some 0 := by
    decide
  have e : (n.data ++ [' ', '['] ++ c.data ++ [']', ' ']) ++ ('(' :: (g.data ++ [')']))
      = ((n.data ++ [' ', '['] ++ c.data ++ [']', ' ']) ++ ('(' :: g.data)) ++ [')'] := by
    simp
  unfold SettingsWindow.FString.Find
  rw [GameOption_data, e, findLast_append_some _ _ 0 hsome]
  simp
  omega

theorem Mid_GameOption (n c g : String) :
    SettingsWindow.FString.Mid (SettingsWindow.GameOption n c g)
      ((n.data ++ [' ', '['] ++ c.data ++ [']', ' ']).length + 1) g.data.length = g := by
  unfold SettingsWindow.FString.Mid
  rw [if_pos (by omega), GameOption_data]
  generalize hA : n.data ++ [' ', '['] ++ c.data ++ [']', ' '] = A
  have hlen : (A ++ '(' :: (g.data ++ [')'])).length = A.length + 1 + g.data.length + 1 := by
    simp; omega
  simp only [hlen]
  have h1 : max (0 : Int) (min ((A.length : Int) + 1)
      ((A.length + 1 + g.data.length + 1 : Nat) : Int)) = ((A.length + 1 : Nat) : Int) := by
    push_cast; omega
  rw [h1]
  have h2 : max (((A.length + 1 : Nat) : Int)) (min ((g.data.length : Int) + ((A.length : Int) + 1))
      ((A.length + 1 + g.data.length + 1 : Nat) : Int))
      = ((A.length + 1 + g.data.length : Nat) : Int) := by
    push_cast; omega
  rw [h2]
  have h3 : (((A.length + 1 + g.data.length : Nat) : Int) - ((A.length + 1 : Nat) : Int)).toNat
      = g.data.length := by
    push_cast; omega
  rw [h3, Int.toNat_ofNat]
  have h4 : List.drop (A.length + 1) (A ++ '(' :: (g.data ++ [')'])) = g.data ++ [')'] := by
    rw [show A ++ '(' :: (g.data ++ [')']) = (A ++ ['(']) ++ (g.data ++ [')']) by simp]
    rw [List.drop_append_of_le_length (by simp)]
    simp
  rw [h4, List.take_left']
  rfl

/-! ## The claims -/

/-- C1: for every byte sequence within the domain of FIPS 180-4 (bytes below 256 and fewer than
`2 ^ 61` of them, that is a bit length below `2 ^ 64`), the empty one included, `ComputeSHA256`
returns exactly the digest the standard defines (`FIPS.sha256`: standard padding, initial hash
value, constants `K`, schedule, 64 rounds and big-endian output), and the digest has 32
bytes. -/
theorem C1_ComputeSHA256_is_FIPS_180_4 (Data : List Nat) (hb : ∀ b ∈ Data, b < 256)
    (hlen : Data.length < 2 ^ 61) :
    ComputeSHA256 Data = FIPS.sha256 Data ∧ (ComputeSHA256 Data).length = 32 :=
  ⟨ComputeSHA256_eq_sha256 Data hb hlen, ComputeSHA256_length Data⟩

/-- Witness for C1 at the empty input. -/
theorem C1_witness :
    (∀ b ∈ ([] : List Nat), b < 256) ∧ ([] : List Nat).length < 2 ^ 61 ∧
      ComputeSHA256 [] = FIPS.sha256 [] ∧ (ComputeSHA256 []).length = 32 :=
  ⟨by decide, by decide, C1_ComputeSHA256_is_FIPS_180_4 [] (by decide) (by decide)⟩

set_option maxRecDepth 100000 in
/-- C2: `ComputeSHA256` of the empty input and of the ASCII bytes of "abc" are the two FIPS
test vectors `e3b0c442...7852b855` and `ba7816bf...f20015ad`. -/
theorem C2_sha256_test_vectors :
    ComputeSHA256 (utf8Bytes "") =
      [0xe3, 0xb0, 0xc4, 0x42, 0x98, 0xfc, 0x1c, 0x14, 0x9a, 0xfb, 0xf4, 0xc8, 0x99, 0x6f, 0xb9,
       0x24, 0x27, 0xae, 0x41, 0xe4, 0x64, 0x9b, 0x93, 0x4c, 0xa4, 0x95, 0x99, 0x1b, 0x78, 0x52,
       0xb8, 0x55] ∧
    ComputeSHA256 (utf8Bytes "abc") =
      [0xba, 0x78, 0x16, 0xbf, 0x8f, 0x01, 0xcf, 0xea, 0x41, 0x41, 0x40, 0xde, 0x5d, 0xae, 0x22,
       0x23, 0xb0, 0x03, 0x61, 0xa3, 0x96, 0x17, 0x7a, 0x9c, 0xb4, 0x10, 0xff, 0x61, 0xf2, 0x00,
       0x15, 0xad] := by
  decide

/-- C3: for every verifier string `v`, `GenerateCodeChallenge v` is
`Base64UrlEncode (ComputeSHA256 (utf8 v))`; and right after a `StartAuthFlow` call that is
accepted (the flow was not active), the stored `CodeChallenge` is
`Base64UrlEncode (ComputeSHA256 (utf8 CodeVerifier))` of the stored `CodeVerifier`. -/
theorem C3_challenge_is_hash_of_verifier (v InGameId InScope : String) (Rand : Nat → Nat)
    (GameViewportWorld : Option Bool) (s : FlowState) (hs : IsActive s = false) :
    GenerateCodeChallenge v = Base64UrlEncode (ComputeSHA256 (utf8Bytes v)) ∧
    (StartAuthFlow InGameId InScope Rand GameViewportWorld s).1.CodeChallenge =
      Base64UrlEncode (ComputeSHA256 (utf8Bytes
        (StartAuthFlow InGameId InScope Rand GameViewportWorld s).1.CodeVerifier)) := by
  refine ⟨GenerateCodeChallenge_eq v, ?_⟩
  rw [← GenerateCodeChallenge_eq]
  cases GameViewportWorld <;>
    simp [StartAuthFlow, hs, Outcome.andThen, SetStatus, RequestDeviceCode] <;>
    split <;> rfl

/-- Witness for C3: a first `StartAuthFlow` on a fresh flow object. -/
theorem C3_witness :
    IsActive {} = false ∧
    GenerateCodeChallenge "abc" = Base64UrlEncode (ComputeSHA256 (utf8Bytes "abc")) ∧
    (StartAuthFlow "game" "player:play" (fun i => i) (some true) {}).1.CodeChallenge =
      Base64UrlEncode (ComputeSHA256 (utf8Bytes
        (StartAuthFlow "game" "player:play" (fun i => i) (some true) {}).1.CodeVerifier)) :=
  ⟨by decide, C3_challenge_is_hash_of_verifier "abc" "game" "player:play" (fun i => i)
    (some true) {} (by decide)⟩

/-- C4: for every array of exactly 32 bytes, `Base64UrlEncode` returns 43 characters, none of
them `+`, `/` or `=`, and base64url decoding (RFC 4648 section 5) of the result gives the
32 bytes back; so the verifier `GenerateCodeVerifier` returns has this shape, and decodes to
the 32 bytes drawn, for every outcome `Rand` of the random draw. -/
theorem C4_verifier_shape (Data : List Nat) (hlen : Data.length = 32)
    (hb : ∀ b ∈ Data, b < 256) (Rand : Nat → Nat) :
    ((Base64UrlEncode Data).length = 43 ∧
      (∀ c ∈ (Base64UrlEncode Data).data, c ≠ '+' ∧ c ≠ '/' ∧ c ≠ '=') ∧
      RFC4648.decode (Base64UrlEncode Data) = some Data) ∧
    ((GenerateCodeVerifier Rand).length = 43 ∧
      (∀ c ∈ (GenerateCodeVerifier Rand).data, c ≠ '+' ∧ c ≠ '/' ∧ c ≠ '=') ∧
      RFC4648.decode (GenerateCodeVerifier Rand) = some ((List.range 32).map (fun i => Rand i % 256)) ∧
      ((List.range 32).map (fun i => Rand i % 256)).length = 32) := by
  have h1 := Base64UrlEncode_spec Data hb
  have hR : ∀ b ∈ (List.range 32).map (fun i => Rand i % 256), b < 256 := by
    intro b hmem
    obtain ⟨i, _, rfl⟩ := List.mem_map.mp hmem
    exact Nat.mod_lt _ (by decide)
  have h2 := Base64UrlEncode_spec _ hR
  rw [hlen] at h1
  simp only [List.length_map, List.length_range] at h2
  simp only [GenerateCodeVerifier, RandomBytes_eq]
  exact ⟨h1, h2.1, h2.2.1, h2.2.2, by simp⟩

/-- Witness for C4: the 32 bytes `0, 1, ..., 31`. -/
theorem C4_witness :
    (List.range 32).length = 32 ∧ (∀ b ∈ List.range 32, b < 256) ∧
    (((Base64UrlEncode (List.range 32)).length = 43 ∧
      (∀ c ∈ (Base64UrlEncode (List.range 32)).data, c ≠ '+' ∧ c ≠ '/' ∧ c ≠ '=') ∧
      RFC4648.decode (Base64UrlEncode (List.range 32)) = some (List.range 32)) ∧
    ((GenerateCodeVerifier (fun i => 255 - i)).length = 43 ∧
      (∀ c ∈ (GenerateCodeVerifier (fun i => 255 - i)).data, c ≠ '+' ∧ c ≠ '/' ∧ c ≠ '=') ∧
      RFC4648.decode (GenerateCodeVerifier (fun i => 255 - i))
        = some ((List.range 32).map (fun i => (255 - i) % 256)) ∧
      ((List.range 32).map (fun i => (255 - i) % 256)).length = 32)) :=
  ⟨by decide, by decide, C4_verifier_shape (List.range 32) (by decide) (by decide)
    (fun i => 255 - i)⟩

/-- C5: for every flow state whose status is `Pending` or `Polling` and every `GameId` and
`Scope` argument, `StartAuthFlow` returns the state unchanged in every field and has no effect:
no event, no request, no timer call. -/
theorem C5_StartAuthFlow_while_active_is_noop (InGameId InScope : String) (Rand : Nat → Nat)
    (GameViewportWorld : Option Bool) (s : FlowState)
    (hs : s.Status = EDeviceAuthStatus.Pending ∨ s.Status = EDeviceAuthStatus.Polling) :
    StartAuthFlow InGameId InScope Rand GameViewportWorld s = (s, []) := by
  have h : IsActive s = true := by
    rcases hs with h | h <;> simp [IsActive, h]
  simp [StartAuthFlow, h]

/-- Witness for C5: a polling flow with a session stored and both timers armed. -/
theorem C5_witness :
    (scenarioPollingState.Status = EDeviceAuthStatus.Pending ∨
      scenarioPollingState.Status = EDeviceAuthStatus.Polling) ∧
    StartAuthFlow "other" "player:play" (fun _ => 0) (some true) scenarioPollingState
      = (scenarioPollingState, []) :=
  ⟨Or.inr rfl, C5_StartAuthFlow_while_active_is_noop "other" "player:play" (fun _ => 0)
    (some true) scenarioPollingState (Or.inr rfl)⟩

set_option maxRecDepth 100000 in
/-- C6 (code bug): in every reachable system whose status is `Idle`, `Success`, `Expired`,
`Cancelled` or `Error`, `StartAuthFlow` stores a freshly generated
`CodeVerifier`/`CodeChallenge` pair, sets the status to `Pending` with
`OnStatusChanged(old, Pending)` broadcast, starts exactly one request, the device-code request,
whose body carries `client_id`, `scope`, the new `code_challenge` and
`code_challenge_method = "S256"`, and `DeviceCode`, `UserCode` and `AuthUrl` are empty
afterwards. It assigns neither `AccessToken` nor `RefreshToken`, and these need not be empty:
in `lateTokenSystem` the answer of a poll request that was never cancelled has stored
`access_token = "at1"` in the `Cancelled` flow, and after `StartAuthFlow` the new `Pending`
flow still holds it. -/
theorem C6_StartAuthFlow_when_inactive (InGameId InScope : String) (Rand : Nat → Nat)
    (GameViewportWorld : Option Bool) (sys : System) (hr : Reachable sys)
    (hs : sys.Flow.Status = EDeviceAuthStatus.Idle ∨
      sys.Flow.Status = EDeviceAuthStatus.Success ∨
      sys.Flow.Status = EDeviceAuthStatus.Expired ∨
      sys.Flow.Status = EDeviceAuthStatus.Cancelled ∨
      sys.Flow.Status = EDeviceAuthStatus.Error) :
    ((StartAuthFlow InGameId InScope Rand GameViewportWorld sys.Flow).1.DeviceCode = "" ∧
      (StartAuthFlow InGameId InScope Rand GameViewportWorld sys.Flow).1.UserCode = "" ∧
      (StartAuthFlow InGameId InScope Rand GameViewportWorld sys.Flow).1.AuthUrl = "") ∧
    ((StartAuthFlow InGameId InScope Rand GameViewportWorld sys.Flow).1.AccessToken
        = sys.Flow.AccessToken ∧
      (StartAuthFlow InGameId InScope Rand GameViewportWorld sys.Flow).1.RefreshToken
        = sys.Flow.RefreshToken) ∧
    ((StartAuthFlow InGameId InScope Rand GameViewportWorld sys.Flow).1.CodeVerifier
        = GenerateCodeVerifier Rand ∧
      (StartAuthFlow InGameId InScope Rand GameViewportWorld sys.Flow).1.CodeChallenge
        = GenerateCodeChallenge (GenerateCodeVerifier Rand)) ∧
    (StartAuthFlow InGameId InScope Rand GameViewportWorld sys.Flow).1.Status
      = EDeviceAuthStatus.Pending ∧
    (StartAuthFlow InGameId InScope Rand GameViewportWorld sys.Flow).2 =
      [Effect.OnStatusChanged sys.Flow.Status EDeviceAuthStatus.Pending,
       Effect.ProcessRequest
        { URL := sys.Flow.BaseUrl ++ "/" ++ "api/auth/device/code"
          Verb := "POST"
          Headers := [("Content-Type", "application/json")]
          Body := [("client_id", InGameId), ("scope", InScope),
            ("code_challenge", GenerateCodeChallenge (GenerateCodeVerifier Rand)),
            ("code_challenge_method", "S256")]
          OnProcessRequestComplete := Handler.HandleDeviceCodeResponse }] ∧
    (Reachable lateTokenSystem ∧
      lateTokenSystem.Flow.Status = EDeviceAuthStatus.Cancelled ∧
      (StartAuthFlow "game" "player:play" (fun i => i) (some true) lateTokenSystem.Flow).1.Status
        = EDeviceAuthStatus.Pending ∧
      (StartAuthFlow "game" "player:play" (fun i => i) (some true)
        lateTokenSystem.Flow).1.AccessToken = "at1") := by
  have ha := IsActive_eq_false sys.Flow hs
  have hp : sys.Flow.Status ≠ EDeviceAuthStatus.Pending := by
    rcases hs with h | h | h | h | h <;> simp [h]
  have hsc := (Reachable_SessionConsistent sys hr).2 ha
  refine ⟨?_, ?_, ?_, ?_, ?_,
    ⟨Reachable_run _ (Reachable_run _ Reachable_scenarioPollingSystem _) _,
      by decide, by decide, by decide⟩⟩ <;>
    cases GameViewportWorld <;>
    simp [StartAuthFlow, ha, hp, Outcome.andThen, SetStatus, RequestDeviceCode, hsc.1, hsc.2.1,
      hsc.2.2.1]

set_option maxRecDepth 100000 in
/-- Witness for C6: a restart from `cancelledSystem`, the cancelled flow of scenario D. -/
theorem C6_witness :
    Reachable cancelledSystem ∧
    cancelledSystem.Flow.Status = EDeviceAuthStatus.Cancelled ∧
    (StartAuthFlow "game" "player:play" (fun i => i) (some true) cancelledSystem.Flow).1.Status
      = EDeviceAuthStatus.Pending ∧
    (StartAuthFlow "game" "player:play" (fun i => i) (some true)
      cancelledSystem.Flow).1.DeviceCode = "" ∧
    (StartAuthFlow "game" "player:play" (fun i => i) (some true)
      cancelledSystem.Flow).1.AccessToken = "" :=
  ⟨Reachable_run _ Reachable_scenarioPollingSystem _, by decide,
   (C6_StartAuthFlow_when_inactive "game" "player:play" (fun i => i) (some true) cancelledSystem
      (Reachable_run _ Reachable_scenarioPollingSystem _)
      (Or.inr (Or.inr (Or.inr (Or.inl (by decide)))))).2.2.2.1,
   (C6_StartAuthFlow_when_inactive "game" "player:play" (fun i => i) (some true) cancelledSystem
      (Reachable_run _ Reachable_scenarioPollingSystem _)
      (Or.inr (Or.inr (Or.inr (Or.inl (by decide)))))).1.1,
   by decide⟩

set_option maxRecDepth 100000 in
/-- Counterexample to C7 as stated. The scenario A response (HTTP 200, `device_code = "dc1"`,
`verification_uri = "https://x/verify"`, `interval = 5`, `expires_in = 300`) handled in a
`Pending` flow whose world pointer is not valid ends in status `Error`, not `Polling`, with
neither timer armed. And the same response with `interval = 16777217`, handled in a `Pending`
flow with a world, sets the poll timer to `16777216` seconds, the `float` that
`static_cast<float>(PollingInterval)` gives, not to `interval` seconds. -/
theorem C7_counterexample :
    (noWorldPendingState.Status = EDeviceAuthStatus.Pending ∧
      (HandleDeviceCodeResponse (some scenarioDeviceCodeResponse) true
        noWorldPendingState).1.Status = EDeviceAuthStatus.Error ∧
      (HandleDeviceCodeResponse (some scenarioDeviceCodeResponse) true
        noWorldPendingState).1.PollingTimerHandle = none ∧
      (HandleDeviceCodeResponse (some scenarioDeviceCodeResponse) true
        noWorldPendingState).1.ExpirationTimerHandle = none) ∧
    (pendingState.Status = EDeviceAuthStatus.Pending ∧ pendingState.WorldPtr = true ∧
      (HandleDeviceCodeResponse (some oddIntervalResponse) true pendingState).1.PollingInterval
        = 16777217 ∧
      (HandleDeviceCodeResponse (some oddIntervalResponse) true pendingState).1.PollingTimerHandle
        = some ⟨16777216, true, 16777216⟩) := by
  decide

/-- C7 as amended: for every device-code response with HTTP 200 and a parsed body whose
`device_code` and `verification_uri` are both non-empty and whose `interval` and `expires_in`
lie between 1 and 16777216 (positive, and kept by the cast to `float`), handled while the flow
is `Pending` and the world (the timer facility) is available, `HandleDeviceCodeResponse`
broadcasts `OnAuthUrlReady(verification_uri, user_code)` first, opens the browser, changes the
status to `Polling`, arms the expiry timer one-shot at `expires_in` seconds and the poll timer
repeating at `interval` seconds with its first fire delayed by `interval` seconds; it starts no
request, so no poll precedes `OnAuthUrlReady`. -/
theorem C7_device_code_response_starts_polling (s : FlowState) (Response : FHttpResponse)
    (JsonObject : FJsonObject) (hs : s.Status = EDeviceAuthStatus.Pending)
    (hw : s.WorldPtr = true) (hc : Response.ResponseCode = 200)
    (hj : Response.Json = some JsonObject)
    (hd : JsonObject.GetStringField "device_code" ≠ "")
    (hu : JsonObject.GetStringField "verification_uri" ≠ "")
    (hi : 0 < JsonObject.GetIntegerField "interval")
    (hi2 : JsonObject.GetIntegerField "interval" ≤ 16777216)
    (he : 0 < JsonObject.GetIntegerField "expires_in")
    (he2 : JsonObject.GetIntegerField "expires_in" ≤ 16777216) :
    (HandleDeviceCodeResponse (some Response) true s).2 =
      [Effect.OnAuthUrlReady (JsonObject.GetStringField "verification_uri")
         (JsonObject.GetStringField "user_code"),
       Effect.LaunchURL (if JsonObject.GetStringField "user_code" ≠ "" then
         JsonObject.GetStringField "verification_uri" ++ "?user_code=" ++
           JsonObject.GetStringField "user_code"
         else JsonObject.GetStringField "verification_uri"),
       Effect.OnStatusChanged EDeviceAuthStatus.Pending EDeviceAuthStatus.Polling,
       Effect.SetTimer TimerHandle.ExpirationTimerHandle
         ⟨JsonObject.GetIntegerField "expires_in", false, JsonObject.GetIntegerField "expires_in"⟩,
       Effect.SetTimer TimerHandle.PollingTimerHandle
         ⟨JsonObject.GetIntegerField "interval", true, JsonObject.GetIntegerField "interval"⟩] ∧
    requestsSent (HandleDeviceCodeResponse (some Response) true s).2 = [] ∧
    (HandleDeviceCodeResponse (some Response) true s).1.Status = EDeviceAuthStatus.Polling ∧
    (HandleDeviceCodeResponse (some Response) true s).1.ExpirationTimerHandle
      = some ⟨JsonObject.GetIntegerField "expires_in", false,
          JsonObject.GetIntegerField "expires_in"⟩ ∧
    (HandleDeviceCodeResponse (some Response) true s).1.PollingTimerHandle
      = some ⟨JsonObject.GetIntegerField "interval", true,
          JsonObject.GetIntegerField "interval"⟩ := by
  have ci := castFloat_eq _ (le_of_lt hi) hi2
  have ce := castFloat_eq _ (le_of_lt he) he2
  simp [HandleDeviceCodeResponse, hc, hj, hd, hu, StartPolling, SetStatus, hs, hw,
    Outcome.andThen, requestsSent, ci, ce]

set_option maxRecDepth 100000 in
/-- Witness for C7: scenario A of the spec, with a world available. -/
theorem C7_witness :
    pendingState.Status = EDeviceAuthStatus.Pending ∧ pendingState.WorldPtr = true ∧
    scenarioDeviceCodeResponse.ResponseCode = 200 ∧
    (HandleDeviceCodeResponse (some scenarioDeviceCodeResponse) true pendingState).2 =
      [Effect.OnAuthUrlReady "https://x/verify" "ABCD-1234",
       Effect.LaunchURL "https://x/verify?user_code=ABCD-1234",
       Effect.OnStatusChanged EDeviceAuthStatus.Pending EDeviceAuthStatus.Polling,
       Effect.SetTimer TimerHandle.ExpirationTimerHandle ⟨300, false, 300⟩,
       Effect.SetTimer TimerHandle.PollingTimerHandle ⟨5, true, 5⟩] ∧
    (HandleDeviceCodeResponse (some scenarioDeviceCodeResponse) true pendingState).1.Status
      = EDeviceAuthStatus.Polling :=
  ⟨by decide, by decide, rfl,
   (C7_device_code_response_starts_polling pendingState scenarioDeviceCodeResponse
      (FJsonObject.ofFields
        [("device_code", "dc1"), ("user_code", "ABCD-1234"),
         ("verification_uri", "https://x/verify")]
        [("interval", 5), ("expires_in", 300)])
      (by decide) (by decide) rfl rfl (by decide) (by decide) (by decide) (by decide)
      (by decide) (by decide)).1,
   (C7_device_code_response_starts_polling pendingState scenarioDeviceCodeResponse
      (FJsonObject.ofFields
        [("device_code", "dc1"), ("user_code", "ABCD-1234"),
         ("verification_uri", "https://x/verify")]
        [("interval", 5), ("expires_in", 300)])
      (by decide) (by decide) rfl rfl (by decide) (by decide) (by decide) (by decide)
      (by decide) (by decide)).2.2.1⟩

/-- Counterexample to C8 as stated: an HTTP 200 device-code response whose body cannot be
parsed has neither a `device_code` nor a `verification_uri`, and the one `OnAuthError` that
`HandleDeviceCodeResponse` broadcasts for it carries the code `PARSE_ERROR`, not
`INVALID_RESPONSE`. -/
theorem C8_counterexample :
    authErrors (HandleDeviceCodeResponse
      (some { ResponseCode := 200, Content := "<html>", Json := none }) true pendingState).2
      = [("PARSE_ERROR", "Failed to parse device code response")] ∧
    authErrorCodes (HandleDeviceCodeResponse
      (some { ResponseCode := 200, Content := "<html>", Json := none }) true pendingState).2
      ≠ ["INVALID_RESPONSE"] := by
  decide

/-- C8 as amended: for every device-code response and every state, `HandleDeviceCodeResponse`
ends in status `Error` with exactly one `OnAuthError`, sets no timer, broadcasts no
`OnAuthUrlReady` and starts no request in each of these cases: transport failure (the request
did not succeed or the response is not valid; code `NETWORK_ERROR`), HTTP status other than
200 (code `HTTP_ERROR`), HTTP 200 with a parsed body whose `device_code` or
`verification_uri` is missing or empty (code `INVALID_RESPONSE`), and HTTP 200 with a body
that cannot be parsed (code `PARSE_ERROR`). -/
theorem C8_device_code_failures (s : FlowState) (Response : FHttpResponse)
    (AnyResponse : Option FHttpResponse) (bWasSuccessful : Bool) :
    EndsInError "NETWORK_ERROR" (HandleDeviceCodeResponse AnyResponse false s) ∧
    EndsInError "NETWORK_ERROR" (HandleDeviceCodeResponse none bWasSuccessful s) ∧
    (Response.ResponseCode ≠ 200 →
      EndsInError "HTTP_ERROR" (HandleDeviceCodeResponse (some Response) true s)) ∧
    (∀ JsonObject : FJsonObject, Response.ResponseCode = 200 → Response.Json = some JsonObject →
      (JsonObject.GetStringField "device_code" = "" ∨
        JsonObject.GetStringField "verification_uri" = "") →
      EndsInError "INVALID_RESPONSE" (HandleDeviceCodeResponse (some Response) true s)) ∧
    (Response.ResponseCode = 200 → Response.Json = none →
      EndsInError "PARSE_ERROR" (HandleDeviceCodeResponse (some Response) true s)) := by
  refine ⟨?_, ?_, ?_, ?_, ?_⟩
  · simp only [HandleDeviceCodeResponse]
    exact (CompleteWithError_spec _ _ _).1
  · cases bWasSuccessful <;> simp only [HandleDeviceCodeResponse] <;>
      exact (CompleteWithError_spec _ _ _).1
  · intro hc
    simp only [HandleDeviceCodeResponse, hc, ne_eq, not_false_eq_true, if_true]
    exact (CompleteWithError_spec _ _ _).1
  · intro JsonObject hc hj hmissing
    simp only [HandleDeviceCodeResponse, hc, hj, ne_eq, not_true_eq_false, if_false, hmissing,
      if_true]
    exact (CompleteWithError_spec _ _ _).1
  · intro hc hj
    simp only [HandleDeviceCodeResponse, hc, hj, ne_eq, not_true_eq_false, if_false]
    exact (CompleteWithError_spec _ _ _).1

/-- Witness for C8: in the `Pending` state after `StartAuthFlow`, a response with HTTP 500, an
HTTP 200 response whose `verification_uri` is missing, and an HTTP 200 response whose body is
not JSON. -/
theorem C8_witness :
    (500 : Int) ≠ 200 ∧
    EndsInError "HTTP_ERROR" (HandleDeviceCodeResponse
      (some { ResponseCode := 500, Content := "down", Json := none }) true pendingState) ∧
    EndsInError "INVALID_RESPONSE" (HandleDeviceCodeResponse
      (some { ResponseCode := 200, Content := "device code",
              Json := some (FJsonObject.ofFields [("device_code", "dc1")] []) })
      true pendingState) ∧
    EndsInError "PARSE_ERROR" (HandleDeviceCodeResponse
      (some { ResponseCode := 200, Content := "<html>", Json := none }) true pendingState) :=
  ⟨by decide,
   (C8_device_code_failures pendingState
      { ResponseCode := 500, Content := "down", Json := none } none true).2.2.1 (by decide),
   (C8_device_code_failures pendingState
      { ResponseCode := 200, Content := "device code",
        Json := some (FJsonObject.ofFields [("device_code", "dc1")] []) } none true).2.2.2.1
      (FJsonObject.ofFields [("device_code", "dc1")] []) rfl rfl (Or.inr (by decide)),
   (C8_device_code_failures pendingState
      { ResponseCode := 200, Content := "<html>", Json := none } none true).2.2.2.2 rfl rfl⟩

/-- C9: for every flow state in `Polling`, a poll outcome that is a transport failure (the
request did not succeed, or the response is not valid), or an HTTP 400 response whose `error`
field is `"authorization_pending"`, leaves the whole flow state unchanged and has no effect:
no event, no request, no timer call. -/
theorem C9_poll_retry_keeps_state (s : FlowState) (AnyResponse : Option FHttpResponse)
    (bWasSuccessful : Bool) (Response : FHttpResponse) (JsonObject : FJsonObject)
    (hs : s.Status = EDeviceAuthStatus.Polling) (hc : Response.ResponseCode = 400)
    (hj : Response.Json = some JsonObject)
    (he : JsonObject.GetStringField "error" = "authorization_pending") :
    s.Status = EDeviceAuthStatus.Polling ∧
    HandleTokenResponse AnyResponse false s = (s, []) ∧
    HandleTokenResponse none bWasSuccessful s = (s, []) ∧
    HandleTokenResponse (some Response) true s = (s, []) := by
  refine ⟨hs, ?_, ?_, ?_⟩
  · simp [HandleTokenResponse]
  · cases bWasSuccessful <;> simp [HandleTokenResponse]
  · have h : FStringEq "authorization_pending" "authorization_pending" = true := by decide
    simp [HandleTokenResponse, hc, hj, he, h]

/-- Witness for C9: the polling flow of scenario A and the response
`400 authorization_pending`. -/
theorem C9_witness :
    scenarioPollingState.Status = EDeviceAuthStatus.Polling ∧
    (errorResponse "authorization_pending").ResponseCode = 400 ∧
    HandleTokenResponse none false scenarioPollingState = (scenarioPollingState, []) ∧
    HandleTokenResponse (some (errorResponse "authorization_pending")) true scenarioPollingState
      = (scenarioPollingState, []) :=
  ⟨rfl, rfl,
   (C9_poll_retry_keeps_state scenarioPollingState none false
      (errorResponse "authorization_pending")
      (FJsonObject.ofFields [("error", "authorization_pending")] []) rfl rfl rfl
      (by decide)).2.1,
   (C9_poll_retry_keeps_state scenarioPollingState none false
      (errorResponse "authorization_pending")
      (FJsonObject.ofFields [("error", "authorization_pending")] []) rfl rfl rfl
      (by decide)).2.2.2⟩

/-- Counterexample to C10 as stated: `maxIntervalState` is the polling state reached when the
server asks for `interval = 2147483647`; a `slow_down` response there leaves a
`PollingInterval` of `-2147483644`, which is neither `p + 5` nor greater than `p`. -/
theorem C10_counterexample :
    maxIntervalState.Status = EDeviceAuthStatus.Polling ∧
    maxIntervalState.PollingInterval = 2147483647 ∧
    (HandleTokenResponse (some (errorResponse "slow_down")) true
      maxIntervalState).1.PollingInterval = -2147483644 ∧
    ¬ (maxIntervalState.PollingInterval <
      (HandleTokenResponse (some (errorResponse "slow_down")) true
        maxIntervalState).1.PollingInterval) := by
  decide

/-- C10 as amended: for every flow state in `Polling` whose `PollingInterval` `p` is an
`int32` with `p + 5` still an `int32` (`p ≤ 2147483642`), handling an HTTP 400 poll response
whose `error` is `"slow_down"` sets `PollingInterval` to exactly `p + 5`, which is strictly
greater than `p`, changes no other state field and has no effect. -/
theorem C10_slow_down_adds_five (s : FlowState) (Response : FHttpResponse)
    (JsonObject : FJsonObject) (hs : s.Status = EDeviceAuthStatus.Polling)
    (hlo : -2147483648 ≤ s.PollingInterval) (hhi : s.PollingInterval ≤ 2147483642)
    (hc : Response.ResponseCode = 400) (hj : Response.Json = some JsonObject)
    (he : JsonObject.GetStringField "error" = "slow_down") :
    HandleTokenResponse (some Response) true s
      = ({ s with PollingInterval := s.PollingInterval + 5 }, []) ∧
    s.PollingInterval < s.PollingInterval + 5 ∧
    (HandleTokenResponse (some Response) true s).1.Status = EDeviceAuthStatus.Polling := by
  have h1 : FStringEq "slow_down" "authorization_pending" = false := by decide
  have h2 : FStringEq "slow_down" "slow_down" = true := by decide
  have h3 : i32 (s.PollingInterval + 5) = s.PollingInterval + 5 := by
    unfold i32; omega
  simp [HandleTokenResponse, hc, hj, he, h1, h2, h3, hs]

/-- Witness for C10: the polling flow of scenario A, interval 5, becomes interval 10. -/
theorem C10_witness :
    scenarioPollingState.Status = EDeviceAuthStatus.Polling ∧
    (-2147483648 : Int) ≤ scenarioPollingState.PollingInterval ∧
    scenarioPollingState.PollingInterval ≤ 2147483642 ∧
    HandleTokenResponse (some (errorResponse "slow_down")) true scenarioPollingState
      = ({ scenarioPollingState with PollingInterval := 10 }, []) :=
  ⟨rfl, by decide, by decide,
   (C10_slow_down_adds_five scenarioPollingState (errorResponse "slow_down")
      (FJsonObject.ofFields [("error", "slow_down")] []) rfl (by decide) (by decide) rfl rfl
      (by decide)).1⟩

set_option maxRecDepth 100000 in
/-- C11 (code bug): in the polling flow of scenario A the poll timer is armed repeating at 5
seconds; the `slow_down` response raises `PollingInterval` to 10, but `HandleTokenResponse`
makes no `SetTimer` call, so the armed poll timer keeps its period of 5 seconds, and the next
fire of that timer sends the next poll request. -/
theorem C11_slow_down_leaves_timer_period :
    scenarioPollingSystem.Flow.Status = EDeviceAuthStatus.Polling ∧
    scenarioPollingSystem.Flow.PollingTimerHandle = some ⟨5, true, 5⟩ ∧
    (HandleTokenResponse (some (errorResponse "slow_down")) true
      scenarioPollingSystem.Flow).1.PollingInterval = 10 ∧
    (HandleTokenResponse (some (errorResponse "slow_down")) true
      scenarioPollingSystem.Flow).1.PollingTimerHandle = some ⟨5, true, 5⟩ ∧
    timersSet (HandleTokenResponse (some (errorResponse "slow_down")) true
      scenarioPollingSystem.Flow).2 = [] ∧
    (requestsSent (PollForToken (HandleTokenResponse (some (errorResponse "slow_down")) true
      scenarioPollingSystem.Flow).1).2).map (fun Request => Request.URL)
      = ["https://api.playkit.ai/api/auth/device/token"] := by
  decide

set_option maxRecDepth 100000 in
/-- Counterexample to C12 as stated: `worldlessPollingSystem` is the polling flow of
scenario A after its world has been destroyed. A `400 expired_token` poll response ends in
status `Expired`, and a `400 access_denied` one in status `Error`, but `Cleanup` finds the
world pointer invalid and calls no `ClearTimer`: both timer handles are still set
afterwards. -/
theorem C12_counterexample :
    Reachable worldlessPollingSystem ∧
    worldlessPollingSystem.Flow.Status = EDeviceAuthStatus.Polling ∧
    worldlessPollingSystem.Flow.WorldPtr = false ∧
    (HandleTokenResponse (some (errorResponse "expired_token")) true
      worldlessPollingSystem.Flow).1.Status = EDeviceAuthStatus.Expired ∧
    (HandleTokenResponse (some (errorResponse "expired_token")) true
      worldlessPollingSystem.Flow).1.PollingTimerHandle = some ⟨5, true, 5⟩ ∧
    (HandleTokenResponse (some (errorResponse "expired_token")) true
      worldlessPollingSystem.Flow).1.ExpirationTimerHandle = some ⟨300, false, 300⟩ ∧
    (HandleTokenResponse (some (errorResponse "access_denied")) true
      worldlessPollingSystem.Flow).1.Status = EDeviceAuthStatus.Error ∧
    (HandleTokenResponse (some (errorResponse "access_denied")) true
      worldlessPollingSystem.Flow).1.PollingTimerHandle = some ⟨5, true, 5⟩ ∧
    (HandleTokenResponse (some (errorResponse "access_denied")) true
      worldlessPollingSystem.Flow).2
      = [Effect.CancelRequest
          { URL := "https://api.playkit.ai/api/auth/device/code"
            Verb := "POST"
            Headers := [("Content-Type", "application/json")]
            Body := [("client_id", "game"), ("scope", "player:play"),
              ("code_challenge", worldlessPollingSystem.Flow.CodeChallenge),
              ("code_challenge_method", "S256")]
            OnProcessRequestComplete := Handler.HandleDeviceCodeResponse },
         Effect.OnStatusChanged EDeviceAuthStatus.Polling EDeviceAuthStatus.Error,
         Effect.OnAuthError "ACCESS_DENIED" "User denied authorization"] :=
  ⟨Reachable_run _ Reachable_scenarioPollingSystem _, by decide⟩

/-- C12 as amended: for every flow state in `Polling`, an HTTP 400 poll response with error
`"expired_token"` ends in status `Expired` with exactly one `OnAuthError`, whose code is
`"EXPIRED"`, and one with error `"access_denied"` ends in status `Error` with exactly one
`OnAuthError`, whose code is `"ACCESS_DENIED"`; in both cases the session and PKCE fields are
empty afterwards, and both timers are cleared when the world pointer is valid. -/
theorem C12_expired_token_and_access_denied (s : FlowState)
    (hs : s.Status = EDeviceAuthStatus.Polling) (Response : FHttpResponse)
    (JsonObject : FJsonObject) (hc : Response.ResponseCode = 400)
    (hj : Response.Json = some JsonObject) :
    (JsonObject.GetStringField "error" = "expired_token" →
      (HandleTokenResponse (some Response) true s).1.Status = EDeviceAuthStatus.Expired ∧
      authErrorCodes (HandleTokenResponse (some Response) true s).2 = ["EXPIRED"] ∧
      statusChanges (HandleTokenResponse (some Response) true s).2
        = [(EDeviceAuthStatus.Polling, EDeviceAuthStatus.Expired)] ∧
      SessionCleared (HandleTokenResponse (some Response) true s).1 ∧
      (s.WorldPtr = true →
        (HandleTokenResponse (some Response) true s).1.PollingTimerHandle = none ∧
        (HandleTokenResponse (some Response) true s).1.ExpirationTimerHandle = none ∧
        Effect.ClearTimer TimerHandle.PollingTimerHandle
          ∈ (HandleTokenResponse (some Response) true s).2 ∧
        Effect.ClearTimer TimerHandle.ExpirationTimerHandle
          ∈ (HandleTokenResponse (some Response) true s).2)) ∧
    (JsonObject.GetStringField "error" = "access_denied" →
      (HandleTokenResponse (some Response) true s).1.Status = EDeviceAuthStatus.Error ∧
      authErrorCodes (HandleTokenResponse (some Response) true s).2 = ["ACCESS_DENIED"] ∧
      statusChanges (HandleTokenResponse (some Response) true s).2
        = [(EDeviceAuthStatus.Polling, EDeviceAuthStatus.Error)] ∧
      SessionCleared (HandleTokenResponse (some Response) true s).1 ∧
      (s.WorldPtr = true →
        (HandleTokenResponse (some Response) true s).1.PollingTimerHandle = none ∧
        (HandleTokenResponse (some Response) true s).1.ExpirationTimerHandle = none ∧
        Effect.ClearTimer TimerHandle.PollingTimerHandle
          ∈ (HandleTokenResponse (some Response) true s).2 ∧
        Effect.ClearTimer TimerHandle.ExpirationTimerHandle
          ∈ (HandleTokenResponse (some Response) true s).2)) := by
  have h1 : FStringEq "expired_token" "authorization_pending" = false := by decide
  have h2 : FStringEq "expired_token" "slow_down" = false := by decide
  have h3 : FStringEq "expired_token" "expired_token" = true := by decide
  have h4 : FStringEq "access_denied" "authorization_pending" = false := by decide
  have h5 : FStringEq "access_denied" "slow_down" = false := by decide
  have h6 : FStringEq "access_denied" "expired_token" = false := by decide
  have h7 : FStringEq "access_denied" "access_denied" = true := by decide
  have ht := Cleanup_timers s
  constructor
  · intro he
    have e : HandleTokenResponse (some Response) true s =
        ((Cleanup s).andThen (SetStatus EDeviceAuthStatus.Expired)).andThen fun t =>
          (t, [Effect.OnAuthError "EXPIRED" "Device code expired"]) := by
      simp [HandleTokenResponse, hj, hc, he, h1, h2, h3]
    have hsp := terminal_spec EDeviceAuthStatus.Expired
      [Effect.OnAuthError "EXPIRED" "Device code expired"] s
    rw [e]
    refine ⟨hsp.1, hsp.2.2.2.2.1, ?_, hsp.2.1, ?_⟩
    · rw [hsp.2.2.2.2.2.2.2.2.2, hs]; decide
    · intro hw
      rw [terminal_fst, terminal_snd, Cleanup_snd]
      refine ⟨?_, ?_, ?_, ?_⟩
      · exact ht.1.trans (by simp [hw])
      · exact ht.2.1.trans (by simp [hw])
      · simp [hw]
      · simp [hw]
  · intro he
    have e : HandleTokenResponse (some Response) true s =
        ((Cleanup s).andThen (SetStatus EDeviceAuthStatus.Error)).andThen fun t =>
          (t, [Effect.OnAuthError "ACCESS_DENIED" "User denied authorization"]) := by
      simp [HandleTokenResponse, hj, hc, he, h4, h5, h6, h7]
    have hsp := terminal_spec EDeviceAuthStatus.Error
      [Effect.OnAuthError "ACCESS_DENIED" "User denied authorization"] s
    rw [e]
    refine ⟨hsp.1, hsp.2.2.2.2.1, ?_, hsp.2.1, ?_⟩
    · rw [hsp.2.2.2.2.2.2.2.2.2, hs]; decide
    · intro hw
      rw [terminal_fst, terminal_snd, Cleanup_snd]
      refine ⟨?_, ?_, ?_, ?_⟩
      · exact ht.1.trans (by simp [hw])
      · exact ht.2.1.trans (by simp [hw])
      · simp [hw]
      · simp [hw]

set_option maxRecDepth 100000 in
/-- Witness for C12: scenario C of the spec, `400 access_denied` in the polling flow of
scenario A, whose world pointer is valid. -/
theorem C12_witness :
    scenarioPollingSystem.Flow.Status = EDeviceAuthStatus.Polling ∧
    scenarioPollingSystem.Flow.WorldPtr = true ∧
    scenarioPollingSystem.Flow.PollingTimerHandle = some ⟨5, true, 5⟩ ∧
    (errorResponse "access_denied").ResponseCode = 400 ∧
    ((HandleTokenResponse (some (errorResponse "access_denied")) true
        scenarioPollingSystem.Flow).1.Status = EDeviceAuthStatus.Error ∧
      authErrorCodes (HandleTokenResponse (some (errorResponse "access_denied")) true
        scenarioPollingSystem.Flow).2 = ["ACCESS_DENIED"] ∧
      statusChanges (HandleTokenResponse (some (errorResponse "access_denied")) true
        scenarioPollingSystem.Flow).2 = [(EDeviceAuthStatus.Polling, EDeviceAuthStatus.Error)] ∧
      SessionCleared (HandleTokenResponse (some (errorResponse "access_denied")) true
        scenarioPollingSystem.Flow).1) ∧
    ((HandleTokenResponse (some (errorResponse "access_denied")) true
        scenarioPollingSystem.Flow).1.PollingTimerHandle = none ∧
      (HandleTokenResponse (some (errorResponse "access_denied")) true
        scenarioPollingSystem.Flow).1.ExpirationTimerHandle = none) :=
  ⟨by decide, by decide, by decide, rfl,
   ⟨((C12_expired_token_and_access_denied scenarioPollingSystem.Flow (by decide)
        (errorResponse "access_denied")
        (FJsonObject.ofFields [("error", "access_denied")] []) rfl rfl).2 (by decide)).1,
    ((C12_expired_token_and_access_denied scenarioPollingSystem.Flow (by decide)
        (errorResponse "access_denied")
        (FJsonObject.ofFields [("error", "access_denied")] []) rfl rfl).2 (by decide)).2.1,
    ((C12_expired_token_and_access_denied scenarioPollingSystem.Flow (by decide)
        (errorResponse "access_denied")
        (FJsonObject.ofFields [("error", "access_denied")] []) rfl rfl).2 (by decide)).2.2.1,
    ((C12_expired_token_and_access_denied scenarioPollingSystem.Flow (by decide)
        (errorResponse "access_denied")
        (FJsonObject.ofFields [("error", "access_denied")] []) rfl rfl).2 (by decide)).2.2.2.1⟩,
   ⟨(((C12_expired_token_and_access_denied scenarioPollingSystem.Flow (by decide)
        (errorResponse "access_denied")
        (FJsonObject.ofFields [("error", "access_denied")] []) rfl rfl).2 (by decide)).2.2.2.2
        (by decide)).1,
    (((C12_expired_token_and_access_denied scenarioPollingSystem.Flow (by decide)
        (errorResponse "access_denied")
        (FJsonObject.ofFields [("error", "access_denied")] []) rfl rfl).2 (by decide)).2.2.2.2
        (by decide)).2.1⟩⟩

/-- Counterexample to C13 as stated: a poll response that the transport delivered, with HTTP
status 500 and a body that cannot be parsed, leaves the polling flow of scenario A exactly as
it was and has no effect: the status stays `Polling` and no `OnAuthError` is broadcast. -/
theorem C13_counterexample :
    scenarioPollingSystem.Flow.Status = EDeviceAuthStatus.Polling ∧
    HandleTokenResponse (some { ResponseCode := 500, Content := "<html>", Json := none }) true
      scenarioPollingSystem.Flow = (scenarioPollingSystem.Flow, []) ∧
    authErrorCodes (HandleTokenResponse
      (some { ResponseCode := 500, Content := "<html>", Json := none }) true
      scenarioPollingSystem.Flow).2 ≠ ["TOKEN_ERROR"] := by
  refine ⟨by decide, rfl, by decide⟩

/-- C13 as amended: for every poll response that was delivered by the transport with a body
that parses and that is none of: HTTP 200, HTTP 400 with an `error` equal, ignoring case, to
`authorization_pending`, `slow_down`, `expired_token` or `access_denied` (that is: an
unexpected status or an unrecognized error value), `HandleTokenResponse` ends in status
`Error` with exactly one `OnAuthError`, of code `"TOKEN_ERROR"`, whose message is the
`error_description` field when it is non-empty and the raw response body otherwise; a
delivered response whose body cannot be parsed has no effect and changes nothing. -/
theorem C13_other_poll_responses (s : FlowState) (Response : FHttpResponse) :
    (∀ JsonObject : FJsonObject, Response.Json = some JsonObject →
      Response.ResponseCode ≠ 200 →
      (Response.ResponseCode = 400 →
        FStringEq (JsonObject.GetStringField "error") "authorization_pending" = false ∧
        FStringEq (JsonObject.GetStringField "error") "slow_down" = false ∧
        FStringEq (JsonObject.GetStringField "error") "expired_token" = false ∧
        FStringEq (JsonObject.GetStringField "error") "access_denied" = false) →
      EndsInError "TOKEN_ERROR" (HandleTokenResponse (some Response) true s) ∧
      authErrors (HandleTokenResponse (some Response) true s).2 =
        [("TOKEN_ERROR",
          if JsonObject.GetStringField "error_description" = "" then Response.Content
          else JsonObject.GetStringField "error_description")]) ∧
    (Response.Json = none → HandleTokenResponse (some Response) true s = (s, [])) := by
  constructor
  · intro JsonObject hj hc hrec
    have e : HandleTokenResponse (some Response) true s =
        CompleteWithError "TOKEN_ERROR"
          (if JsonObject.GetStringField "error_description" = "" then Response.Content
           else JsonObject.GetStringField "error_description") s := by
      by_cases h4 : Response.ResponseCode = 400
      · obtain ⟨h1, h2, h3, h5⟩ := hrec h4
        simp [HandleTokenResponse, hj, h4, h1, h2, h3, h5]
      · simp [HandleTokenResponse, hj, hc, h4]
    rw [e]
    exact ⟨(CompleteWithError_spec _ _ s).1, (CompleteWithError_spec _ _ s).2.1⟩
  · intro hj
    simp [HandleTokenResponse, hj]

/-- Witness for C13: in the polling flow of scenario A, a 400 response with the unrecognized
error `"invalid_grant"` (the body is the message), and a 500 response with a parsed body. -/
theorem C13_witness :
    (errorResponse "invalid_grant").ResponseCode ≠ 200 ∧
    EndsInError "TOKEN_ERROR" (HandleTokenResponse (some (errorResponse "invalid_grant")) true
      scenarioPollingSystem.Flow) ∧
    authErrors (HandleTokenResponse (some (errorResponse "invalid_grant")) true
      scenarioPollingSystem.Flow).2 = [("TOKEN_ERROR", "error")] :=
  ⟨by decide,
   ((C13_other_poll_responses scenarioPollingSystem.Flow (errorResponse "invalid_grant")).1
      (FJsonObject.ofFields [("error", "invalid_grant")] []) rfl (by decide)
      (fun _ => by decide)).1,
   ((C13_other_poll_responses scenarioPollingSystem.Flow (errorResponse "invalid_grant")).1
      (FJsonObject.ofFields [("error", "invalid_grant")] []) rfl (by decide)
      (fun _ => by decide)).2⟩

/-- C14: for every HTTP 200 poll response with a parsed body whose `access_token` is missing
or empty, in every state, `HandleTokenResponse` ends in status `Error` with exactly one
`OnAuthError`, of code `"INVALID_TOKEN"`, and starts no request, so no player-token
exchange. -/
theorem C14_empty_access_token (s : FlowState) (Response : FHttpResponse)
    (JsonObject : FJsonObject) (hc : Response.ResponseCode = 200)
    (hj : Response.Json = some JsonObject)
    (ha : JsonObject.GetStringField "access_token" = "") :
    (HandleTokenResponse (some Response) true s).1.Status = EDeviceAuthStatus.Error ∧
    authErrors (HandleTokenResponse (some Response) true s).2
      = [("INVALID_TOKEN", "Received empty access token")] ∧
    requestsSent (HandleTokenResponse (some Response) true s).2 = [] ∧
    authSuccesses (HandleTokenResponse (some Response) true s).2 = [] := by
  have e : HandleTokenResponse (some Response) true s =
      CompleteWithError "INVALID_TOKEN" "Received empty access token"
        { s with AccessToken := JsonObject.GetStringField "access_token"
                 RefreshToken := JsonObject.GetStringField "refresh_token" } := by
    simp [HandleTokenResponse, hj, hc, ha]
  rw [e]
  have h := CompleteWithError_spec "INVALID_TOKEN" "Received empty access token"
    { s with AccessToken := JsonObject.GetStringField "access_token"
             RefreshToken := JsonObject.GetStringField "refresh_token" }
  exact ⟨h.1.1, h.2.1, h.1.2.2.2.2, (terminal_spec _ _ _).2.2.2.2.2.1⟩

/-- Witness for C14: a 200 poll response whose `access_token` is empty, in the polling flow of
scenario A. -/
theorem C14_witness :
    (tokenResponse "").ResponseCode = 200 ∧
    (HandleTokenResponse (some (tokenResponse "")) true scenarioPollingSystem.Flow).1.Status
      = EDeviceAuthStatus.Error ∧
    authErrors (HandleTokenResponse (some (tokenResponse "")) true scenarioPollingSystem.Flow).2
      = [("INVALID_TOKEN", "Received empty access token")] ∧
    requestsSent (HandleTokenResponse (some (tokenResponse "")) true
      scenarioPollingSystem.Flow).2 = [] ∧
    authSuccesses (HandleTokenResponse (some (tokenResponse "")) true
      scenarioPollingSystem.Flow).2 = [] :=
  ⟨rfl, C14_empty_access_token scenarioPollingSystem.Flow (tokenResponse "")
    (FJsonObject.ofFields [("access_token", "")] []) rfl rfl (by decide)⟩

set_option maxRecDepth 100000 in
/-- C15 (code bug): in the polling flow of scenario A, after the first poll is answered with
HTTP 200 and `access_token = "at1"`, the exchange request is started with
`Authorization: Bearer at1` and body `jwt = "at1"`, as the claim says; but the status is still
`Polling` and the poll timer is still armed, so the next fire of the poll timer, before the
exchange response has arrived, starts another `device/token` request, which also replaces the
exchange request in `CurrentHttpRequest`. -/
theorem C15_poll_timer_stays_armed :
    requestsSent (HandleTokenResponse (some (tokenResponse "at1")) true
      (scenarioPollingSystem.run [Event.PollingTimerFires]).Flow).2
      = [exchangeRequest "https://api.playkit.ai" "at1"] ∧
    (scenarioPollingSystem.run
      [Event.PollingTimerFires,
       Event.ResponseArrives Handler.HandleTokenResponse (some (tokenResponse "at1")) true]
      ).Flow.Status = EDeviceAuthStatus.Polling ∧
    (scenarioPollingSystem.run
      [Event.PollingTimerFires,
       Event.ResponseArrives Handler.HandleTokenResponse (some (tokenResponse "at1")) true]
      ).Flow.PollingTimerHandle = some ⟨5, true, 5⟩ ∧
    (scenarioPollingSystem.run
      [Event.PollingTimerFires,
       Event.ResponseArrives Handler.HandleTokenResponse (some (tokenResponse "at1")) true]
      ).InFlight = [Handler.HandlePlayerTokenResponse] ∧
    (scenarioPollingSystem.run
      [Event.PollingTimerFires,
       Event.ResponseArrives Handler.HandleTokenResponse (some (tokenResponse "at1")) true,
       Event.PollingTimerFires]).InFlight
      = [Handler.HandlePlayerTokenResponse, Handler.HandleTokenResponse] ∧
    ((scenarioPollingSystem.run
      [Event.PollingTimerFires,
       Event.ResponseArrives Handler.HandleTokenResponse (some (tokenResponse "at1")) true,
       Event.PollingTimerFires]).Flow.CurrentHttpRequest.map (fun Request => Request.URL))
      = some "https://api.playkit.ai/api/auth/device/token" := by
  decide

/-- C16: for every player-token exchange response, in every state,
`HandlePlayerTokenResponse` ends in status `Error` with exactly one `OnAuthError` and no
`OnAuthSuccess` when the transport failed (the request did not succeed or the response is not
valid; code `NETWORK_ERROR`), when the HTTP status is not 200 (code `EXCHANGE_ERROR`), and
when the status is 200 but the body cannot be parsed (code `PARSE_ERROR`). -/
theorem C16_exchange_failures (s : FlowState) (Response : FHttpResponse)
    (AnyResponse : Option FHttpResponse) (bWasSuccessful : Bool) :
    (EndsInError "NETWORK_ERROR" (HandlePlayerTokenResponse AnyResponse false s) ∧
      authSuccesses (HandlePlayerTokenResponse AnyResponse false s).2 = []) ∧
    (EndsInError "NETWORK_ERROR" (HandlePlayerTokenResponse none bWasSuccessful s) ∧
      authSuccesses (HandlePlayerTokenResponse none bWasSuccessful s).2 = []) ∧
    (Response.ResponseCode ≠ 200 →
      EndsInError "EXCHANGE_ERROR" (HandlePlayerTokenResponse (some Response) true s) ∧
      authSuccesses (HandlePlayerTokenResponse (some Response) true s).2 = []) ∧
    (Response.ResponseCode = 200 → Response.Json = none →
      EndsInError "PARSE_ERROR" (HandlePlayerTokenResponse (some Response) true s) ∧
      authSuccesses (HandlePlayerTokenResponse (some Response) true s).2 = []) := by
  have key : ∀ (c m : String), EndsInError c (CompleteWithError c m s) ∧
      authSuccesses (CompleteWithError c m s).2 = [] := fun c m =>
    ⟨(CompleteWithError_spec c m s).1, (terminal_spec _ _ s).2.2.2.2.2.1⟩
  refine ⟨?_, ?_, ?_, ?_⟩
  · simp only [HandlePlayerTokenResponse]
    exact key _ _
  · cases bWasSuccessful <;> simp only [HandlePlayerTokenResponse] <;> exact key _ _
  · intro hc
    simp only [HandlePlayerTokenResponse, hc, ne_eq, not_false_eq_true, if_true]
    exact key _ _
  · intro hc hj
    simp only [HandlePlayerTokenResponse, hc, hj, ne_eq, not_true_eq_false, if_false]
    exact key _ _

/-- Witness for C16: in the state that waits for the exchange response, an exchange response
with HTTP 503 and one with HTTP 200 and a body that is not JSON. -/
theorem C16_witness :
    (503 : Int) ≠ 200 ∧
    EndsInError "EXCHANGE_ERROR" (HandlePlayerTokenResponse
      (some { ResponseCode := 503, Content := "busy", Json := none }) true
      (HandleTokenResponse (some (tokenResponse "at1")) true scenarioPollingSystem.Flow).1) ∧
    EndsInError "PARSE_ERROR" (HandlePlayerTokenResponse
      (some { ResponseCode := 200, Content := "<html>", Json := none }) true
      (HandleTokenResponse (some (tokenResponse "at1")) true scenarioPollingSystem.Flow).1) :=
  ⟨by decide,
   ((C16_exchange_failures
      (HandleTokenResponse (some (tokenResponse "at1")) true scenarioPollingSystem.Flow).1
      { ResponseCode := 503, Content := "busy", Json := none } none true).2.2.1
      (by decide)).1,
   ((C16_exchange_failures
      (HandleTokenResponse (some (tokenResponse "at1")) true scenarioPollingSystem.Flow).1
      { ResponseCode := 200, Content := "<html>", Json := none } none true).2.2.2 rfl rfl).1⟩

set_option maxRecDepth 100000 in
/-- C17 (code bug): for every HTTP 200 exchange response with a parsed body, in every state,
the flow ends in status `Success` and broadcasts exactly one `OnAuthSuccess` (and no
`OnAuthError`) whose result has `bSuccess = true`, the `AccessToken` and `RefreshToken` the
flow holds at that moment, and `UserId`, `PlayerToken`, `ExpiresIn` equal to the response's
`userId`, `playerToken`, `expiresIn`; when the exchange response is handled in the state the
poll response left, these tokens are the `access_token` and `refresh_token` of that poll
response, and the run of scenario B from the polling flow of scenario A ends in `Success` with
result `(at1, u1, pt1, 3600)`. But the tokens need not be those of the poll response: in
`expiredThenExchangedSystem` the polling timer, still armed after the 200 poll answer, sends a
second poll, whose `400 expired_token` answer ends the flow in `Expired` and empties
`AccessToken`; the exchange response then turns the flow into `Success` with an
`OnAuthSuccess` whose `AccessToken` is empty. -/
theorem C17_exchange_success (s : FlowState) (Response PollResponse : FHttpResponse)
    (JsonObject PollJson : FJsonObject) (hc : Response.ResponseCode = 200)
    (hj : Response.Json = some JsonObject) (hpc : PollResponse.ResponseCode = 200)
    (hpj : PollResponse.Json = some PollJson)
    (hpa : PollJson.GetStringField "access_token" ≠ "") :
    ((HandlePlayerTokenResponse (some Response) true s).1.Status = EDeviceAuthStatus.Success ∧
      authSuccesses (HandlePlayerTokenResponse (some Response) true s).2 =
        [{ bSuccess := true, AccessToken := s.AccessToken, RefreshToken := s.RefreshToken,
           UserId := JsonObject.GetStringField "userId",
           PlayerToken := JsonObject.GetStringField "playerToken",
           ExpiresIn := JsonObject.GetIntegerField "expiresIn" }] ∧
      authErrors (HandlePlayerTokenResponse (some Response) true s).2 = []) ∧
    ((HandlePlayerTokenResponse (some Response) true
        (HandleTokenResponse (some PollResponse) true s).1).1.Status
        = EDeviceAuthStatus.Success ∧
      authSuccesses (HandlePlayerTokenResponse (some Response) true
        (HandleTokenResponse (some PollResponse) true s).1).2 =
        [{ bSuccess := true, AccessToken := PollJson.GetStringField "access_token",
           RefreshToken := PollJson.GetStringField "refresh_token",
           UserId := JsonObject.GetStringField "userId",
           PlayerToken := JsonObject.GetStringField "playerToken",
           ExpiresIn := JsonObject.GetIntegerField "expiresIn" }]) ∧
    ((scenarioPollingSystem.run scenarioSuccessEvents).Flow.Status = EDeviceAuthStatus.Success ∧
      authSuccesses (scenarioPollingSystem.run scenarioSuccessEvents).Trace =
        [{ bSuccess := true, AccessToken := "at1", RefreshToken := "", UserId := "u1",
           PlayerToken := "pt1", ExpiresIn := 3600 }]) ∧
    (Reachable expiredThenExchangedSystem ∧
      overtakenExchangeSystem.Flow.Status = EDeviceAuthStatus.Polling ∧
      overtakenExchangeSystem.Flow.AccessToken = "at1" ∧
      expiredThenExchangedSystem.Flow.Status = EDeviceAuthStatus.Success ∧
      authSuccesses expiredThenExchangedSystem.Trace =
        [{ bSuccess := true, AccessToken := "", RefreshToken := "", UserId := "u1",
           PlayerToken := "pt1", ExpiresIn := 3600 }] ∧
      statusChanges expiredThenExchangedSystem.Trace =
        [(EDeviceAuthStatus.Idle, EDeviceAuthStatus.Pending),
         (EDeviceAuthStatus.Pending, EDeviceAuthStatus.Polling),
         (EDeviceAuthStatus.Polling, EDeviceAuthStatus.Expired),
         (EDeviceAuthStatus.Expired, EDeviceAuthStatus.Success)]) := by
  have e : ∀ t : FlowState, HandlePlayerTokenResponse (some Response) true t =
      CompleteWithSuccess
        { bSuccess := true, AccessToken := t.AccessToken, RefreshToken := t.RefreshToken,
          UserId := JsonObject.GetStringField "userId",
          PlayerToken := JsonObject.GetStringField "playerToken",
          ExpiresIn := JsonObject.GetIntegerField "expiresIn" } t := by
    intro t
    simp [HandlePlayerTokenResponse, hc, hj]
  have ep : (HandleTokenResponse (some PollResponse) true s).1.AccessToken
        = PollJson.GetStringField "access_token" ∧
      (HandleTokenResponse (some PollResponse) true s).1.RefreshToken
        = PollJson.GetStringField "refresh_token" := by
    simp [HandleTokenResponse, hpc, hpj, hpa, ExchangeForPlayerToken]
  refine ⟨?_, ?_, scenarioSuccess_run,
    ⟨Reachable_run _ (Reachable_run _ Reachable_scenarioPollingSystem _) _,
      by decide, by decide, by decide, by decide, by decide⟩⟩
  · rw [e]
    exact CompleteWithSuccess_spec _ s
  · rw [e, ep.1, ep.2]
    exact ⟨(CompleteWithSuccess_spec _ _).1, (CompleteWithSuccess_spec _ _).2.1⟩

/-- Witness for C17: the last two responses of scenario B in the polling flow of scenario A. -/
theorem C17_witness :
    scenarioExchangeResponse.ResponseCode = 200 ∧ (tokenResponse "at1").ResponseCode = 200 ∧
    authSuccesses (HandlePlayerTokenResponse (some scenarioExchangeResponse) true
        (HandleTokenResponse (some (tokenResponse "at1")) true scenarioPollingSystem.Flow).1).2 =
      [{ bSuccess := true, AccessToken := "at1", RefreshToken := "", UserId := "u1",
         PlayerToken := "pt1", ExpiresIn := 3600 }] :=
  ⟨rfl, rfl,
   (C17_exchange_success scenarioPollingSystem.Flow scenarioExchangeResponse
      (tokenResponse "at1")
      (FJsonObject.ofFields [("userId", "u1"), ("playerToken", "pt1")] [("expiresIn", 3600)])
      (FJsonObject.ofFields [("access_token", "at1")] []) rfl rfl rfl rfl
      (by decide)).2.1.2⟩

set_option maxRecDepth 100000 in
/-- C18 (code bug): in every state, `CancelAuthFlow` on a flow whose status is `Pending` or
`Polling` cancels the request held in `CurrentHttpRequest` and drops it, empties the session
and PKCE fields, sets the status to `Cancelled` with `OnStatusChanged(old, Cancelled)` and
broadcasts neither `OnAuthError` nor `OnAuthSuccess`; it clears both timers when the world
pointer is valid and leaves the timer handles as they were when it is not; on a flow whose
status is `Idle`, `Success`, `Expired`, `Cancelled` or `Error` it leaves the whole state
unchanged and has no effect. But a request in flight that is no longer held in
`CurrentHttpRequest` is not cancelled: in `overtakenExchangeSystem` the exchange request was
replaced there by a later poll, `CancelAuthFlow` cancels the poll request only, and the
exchange response then turns the `Cancelled` flow into `Success` with `OnAuthSuccess`. -/
theorem C18_CancelAuthFlow (s : FlowState) :
    ((s.Status = EDeviceAuthStatus.Pending ∨ s.Status = EDeviceAuthStatus.Polling) →
      (CancelAuthFlow s).1.Status = EDeviceAuthStatus.Cancelled ∧
      (CancelAuthFlow s).1.CurrentHttpRequest = none ∧
      (∀ Request, s.CurrentHttpRequest = some Request →
        Effect.CancelRequest Request ∈ (CancelAuthFlow s).2) ∧
      (s.WorldPtr = true →
        (CancelAuthFlow s).1.PollingTimerHandle = none ∧
        (CancelAuthFlow s).1.ExpirationTimerHandle = none) ∧
      (s.WorldPtr = false →
        (CancelAuthFlow s).1.PollingTimerHandle = s.PollingTimerHandle ∧
        (CancelAuthFlow s).1.ExpirationTimerHandle = s.ExpirationTimerHandle) ∧
      SessionCleared (CancelAuthFlow s).1 ∧
      statusChanges (CancelAuthFlow s).2 = [(s.Status, EDeviceAuthStatus.Cancelled)] ∧
      authErrors (CancelAuthFlow s).2 = [] ∧
      authSuccesses (CancelAuthFlow s).2 = []) ∧
    ((s.Status = EDeviceAuthStatus.Idle ∨ s.Status = EDeviceAuthStatus.Success ∨
        s.Status = EDeviceAuthStatus.Expired ∨ s.Status = EDeviceAuthStatus.Cancelled ∨
        s.Status = EDeviceAuthStatus.Error) →
      CancelAuthFlow s = (s, [])) ∧
    (Reachable overtakenExchangeSystem ∧
      overtakenExchangeSystem.Flow.Status = EDeviceAuthStatus.Polling ∧
      Effect.ProcessRequest (exchangeRequest "https://api.playkit.ai" "at1")
        ∈ overtakenExchangeSystem.Trace ∧
      Handler.HandlePlayerTokenResponse ∈ overtakenExchangeSystem.InFlight ∧
      overtakenExchangeSystem.Flow.CurrentHttpRequest
        ≠ some (exchangeRequest "https://api.playkit.ai" "at1") ∧
      Effect.CancelRequest (exchangeRequest "https://api.playkit.ai" "at1")
        ∉ (overtakenExchangeSystem.run [Event.CancelAuthFlow]).Trace ∧
      (overtakenExchangeSystem.run [Event.CancelAuthFlow]).Flow.Status
        = EDeviceAuthStatus.Cancelled ∧
      (overtakenExchangeSystem.run
        [Event.CancelAuthFlow,
         Event.ResponseArrives Handler.HandlePlayerTokenResponse (some scenarioExchangeResponse)
           true]).Flow.Status = EDeviceAuthStatus.Success ∧
      authSuccesses (overtakenExchangeSystem.run
        [Event.CancelAuthFlow,
         Event.ResponseArrives Handler.HandlePlayerTokenResponse (some scenarioExchangeResponse)
           true]).Trace
        = [{ bSuccess := true, AccessToken := "", RefreshToken := "", UserId := "u1",
             PlayerToken := "pt1", ExpiresIn := 3600 }]) := by
  refine ⟨?_, ?_, ⟨Reachable_run _ Reachable_scenarioPollingSystem _,
    by decide, by decide, by decide, by decide, by decide, by decide, by decide, by decide⟩⟩
  · intro hs
    have ha : IsActive s = true := by
      rcases hs with h | h <;> simp [IsActive, h]
    have hne : s.Status ≠ EDeviceAuthStatus.Cancelled := by
      rcases hs with h | h <;> simp [h]
    have e : CancelAuthFlow s =
        ((Cleanup s).andThen (SetStatus EDeviceAuthStatus.Cancelled)).andThen fun t =>
          (t, []) := by
      simp [CancelAuthFlow, ha, Outcome.andThen]
    have hsp := terminal_spec EDeviceAuthStatus.Cancelled [] s
    have ht := Cleanup_timers s
    rw [e]
    refine ⟨hsp.1, hsp.2.2.1, ?_, ?_, ?_, hsp.2.1, ?_, hsp.2.2.2.1, hsp.2.2.2.2.2.1⟩
    · intro Request hreq
      rw [terminal_snd, Cleanup_snd, hreq]
      simp
    · intro hw
      rw [terminal_fst]
      exact ⟨ht.1.trans (by simp [hw]), ht.2.1.trans (by simp [hw])⟩
    · intro hw
      rw [terminal_fst]
      exact ⟨ht.1.trans (by simp [hw]), ht.2.1.trans (by simp [hw])⟩
    · rw [hsp.2.2.2.2.2.2.2.2.2]
      simp [hne, statusChanges]
  · intro hs
    have ha := IsActive_eq_false s hs
    simp [CancelAuthFlow, ha]

set_option maxRecDepth 100000 in
/-- Witness for C18: scenario D of the spec, `CancelAuthFlow` in the polling flow of
scenario A, whose world pointer is valid. -/
theorem C18_witness :
    (scenarioPollingSystem.Flow.Status = EDeviceAuthStatus.Pending ∨
      scenarioPollingSystem.Flow.Status = EDeviceAuthStatus.Polling) ∧
    scenarioPollingSystem.Flow.WorldPtr = true ∧
    (CancelAuthFlow scenarioPollingSystem.Flow).1.Status = EDeviceAuthStatus.Cancelled ∧
    ((CancelAuthFlow scenarioPollingSystem.Flow).1.PollingTimerHandle = none ∧
      (CancelAuthFlow scenarioPollingSystem.Flow).1.ExpirationTimerHandle = none) ∧
    SessionCleared (CancelAuthFlow scenarioPollingSystem.Flow).1 :=
  ⟨Or.inr (by decide), by decide,
   ((C18_CancelAuthFlow scenarioPollingSystem.Flow).1 (Or.inr (by decide))).1,
   ((C18_CancelAuthFlow scenarioPollingSystem.Flow).1 (Or.inr (by decide))).2.2.2.1
     (by decide),
   ((C18_CancelAuthFlow scenarioPollingSystem.Flow).1
     (Or.inr (by decide))).2.2.2.2.2.1⟩

/-- C19: if the expiry timer fires while the status is `Polling`, the status becomes
`Expired` with `OnStatusChanged(Polling, Expired)`, exactly one `OnAuthError`, with code
`"EXPIRED"`, is broadcast, the session and PKCE fields are emptied and no request is started;
a poll-timer fire processed right after the expiry callback starts no request and changes
nothing, and so does `PollForToken` in every state whose status is not `Polling`. -/
theorem C19_expiry_precedes_poll (s : FlowState) (hs : s.Status = EDeviceAuthStatus.Polling) :
    (OnExpirationTimer s).1.Status = EDeviceAuthStatus.Expired ∧
    statusChanges (OnExpirationTimer s).2
      = [(EDeviceAuthStatus.Polling, EDeviceAuthStatus.Expired)] ∧
    authErrors (OnExpirationTimer s).2
      = [("EXPIRED", "Device code expired. Please start again.")] ∧
    SessionCleared (OnExpirationTimer s).1 ∧
    requestsSent (OnExpirationTimer s).2 = [] ∧
    PollForToken (OnExpirationTimer s).1 = ((OnExpirationTimer s).1, []) ∧
    (∀ t : FlowState, t.Status ≠ EDeviceAuthStatus.Polling → PollForToken t = (t, [])) := by
  have hsp := terminal_spec EDeviceAuthStatus.Expired
    [Effect.OnAuthError "EXPIRED" "Device code expired. Please start again."] s
  have hp : ∀ t : FlowState, t.Status ≠ EDeviceAuthStatus.Polling → PollForToken t = (t, []) := by
    intro t ht
    simp [PollForToken, ht]
  refine ⟨hsp.1, ?_, hsp.2.2.2.1, hsp.2.1, hsp.2.2.2.2.2.2.2.1, ?_, hp⟩
  · have h := hsp.2.2.2.2.2.2.2.2.2
    simp only [OnExpirationTimer]
    rw [h, hs]
    decide
  · apply hp
    have h := hsp.1
    simp only [OnExpirationTimer]
    rw [h]
    decide

set_option maxRecDepth 100000 in
/-- Witness for C19: the expiry timer and then the poll timer fire in the polling flow of
scenario A; the flow is `Expired`, and the only request of the whole run is the device-code request. -/
theorem C19_witness :
    scenarioPollingSystem.Flow.Status = EDeviceAuthStatus.Polling ∧
    (OnExpirationTimer scenarioPollingSystem.Flow).1.Status = EDeviceAuthStatus.Expired ∧
    PollForToken (OnExpirationTimer scenarioPollingSystem.Flow).1
      = ((OnExpirationTimer scenarioPollingSystem.Flow).1, []) ∧
    (requestsSent (scenarioPollingSystem.run
      [Event.ExpirationTimerFires, Event.PollingTimerFires]).Trace).map
        (fun Request => Request.OnProcessRequestComplete)
      = [Handler.HandleDeviceCodeResponse] :=
  ⟨by decide,
   (C19_expiry_precedes_poll scenarioPollingSystem.Flow (by decide)).1,
   (C19_expiry_precedes_poll scenarioPollingSystem.Flow (by decide)).2.2.2.2.2.1,
   by decide⟩

set_option maxRecDepth 100000 in
/-- C20 (code bug): `cancelledSystem` is a cancelled flow in which the first of two poll
requests is still in flight. Its late answer, HTTP 200 with `access_token = "at1"`, is not
discarded: `HandleTokenResponse` stores the token and starts the exchange request while the
status is `Cancelled`, and the exchange response then turns the status into `Success` and
broadcasts `OnAuthSuccess`. In the same way the failed completion of the cancelled
device-code request turns a `Cancelled` flow into `Error` with an `OnAuthError`, and a late
poll answer does the same in an `Expired` flow. -/
theorem C20_late_response_is_applied :
    cancelledSystem.Flow.Status = EDeviceAuthStatus.Cancelled ∧
    Handler.HandleTokenResponse ∈ cancelledSystem.InFlight ∧
    (HandleTokenResponse (some (tokenResponse "at1")) true cancelledSystem.Flow).1.AccessToken
      = "at1" ∧
    requestsSent (HandleTokenResponse (some (tokenResponse "at1")) true cancelledSystem.Flow).2
      = [exchangeRequest "https://api.playkit.ai" "at1"] ∧
    (cancelledSystem.run
      [Event.ResponseArrives Handler.HandleTokenResponse (some (tokenResponse "at1")) true,
       Event.ResponseArrives Handler.HandlePlayerTokenResponse (some scenarioExchangeResponse)
         true]).Flow.Status = EDeviceAuthStatus.Success ∧
    authSuccesses (cancelledSystem.run
      [Event.ResponseArrives Handler.HandleTokenResponse (some (tokenResponse "at1")) true,
       Event.ResponseArrives Handler.HandlePlayerTokenResponse (some scenarioExchangeResponse)
         true]).Trace
      = [{ bSuccess := true, AccessToken := "at1", RefreshToken := "", UserId := "u1",
           PlayerToken := "pt1", ExpiresIn := 3600 }] ∧
    (System.run {}
      [Event.StartAuthFlow "game" "player:play" (fun i => i) (some true),
       Event.CancelAuthFlow]).Flow.Status = EDeviceAuthStatus.Cancelled ∧
    (System.run {}
      [Event.StartAuthFlow "game" "player:play" (fun i => i) (some true),
       Event.CancelAuthFlow,
       Event.ResponseArrives Handler.HandleDeviceCodeResponse none false]).Flow.Status
      = EDeviceAuthStatus.Error ∧
    authErrorCodes (System.run {}
      [Event.StartAuthFlow "game" "player:play" (fun i => i) (some true),
       Event.CancelAuthFlow,
       Event.ResponseArrives Handler.HandleDeviceCodeResponse none false]).Trace
      = ["NETWORK_ERROR"] ∧
    (scenarioPollingSystem.run
      [Event.PollingTimerFires, Event.ExpirationTimerFires]).Flow.Status
      = EDeviceAuthStatus.Expired ∧
    (scenarioPollingSystem.run
      [Event.PollingTimerFires, Event.ExpirationTimerFires,
       Event.ResponseArrives Handler.HandleTokenResponse (some (errorResponse "access_denied"))
         true]).Flow.Status = EDeviceAuthStatus.Error := by
  decide

set_option maxRecDepth 100000 in
/-- C21 (code bug): `Cleanup` is idempotent on the state: for every flow state `s` a second
`Cleanup` leaves the state the first one left; after `Cleanup` no request is held in
`CurrentHttpRequest`, and `DeviceCode`, `UserCode`, `AuthUrl`, `CodeVerifier`, `CodeChallenge`,
`AccessToken` and `RefreshToken` are empty; both timers are cleared when the world pointer is
valid, and the timer handles are left as they were when it is not (as in
`worldlessPollingSystem`). But a request in flight that is no longer held in
`CurrentHttpRequest` is not cancelled: in `overtakenExchangeSystem` `Cleanup` cancels the
second poll request only, the exchange request stays in flight, and its answer, handled in
the state `Cleanup` left, ends in `Success`. -/
theorem C21_Cleanup_idempotent (s : FlowState) :
    (Cleanup (Cleanup s).1).1 = (Cleanup s).1 ∧
    (Cleanup s).1.CurrentHttpRequest = none ∧
    (∀ Request, s.CurrentHttpRequest = some Request →
      Effect.CancelRequest Request ∈ (Cleanup s).2) ∧
    SessionCleared (Cleanup s).1 ∧
    (s.WorldPtr = true →
      (Cleanup s).1.PollingTimerHandle = none ∧ (Cleanup s).1.ExpirationTimerHandle = none) ∧
    (s.WorldPtr = false →
      (Cleanup s).1.PollingTimerHandle = s.PollingTimerHandle ∧
      (Cleanup s).1.ExpirationTimerHandle = s.ExpirationTimerHandle) ∧
    (Reachable worldlessPollingSystem ∧
      (Cleanup worldlessPollingSystem.Flow).1.PollingTimerHandle = some ⟨5, true, 5⟩ ∧
      (Cleanup worldlessPollingSystem.Flow).1.ExpirationTimerHandle
        = some ⟨300, false, 300⟩) ∧
    (Reachable overtakenExchangeSystem ∧
      Effect.ProcessRequest (exchangeRequest "https://api.playkit.ai" "at1")
        ∈ overtakenExchangeSystem.Trace ∧
      Handler.HandlePlayerTokenResponse ∈ overtakenExchangeSystem.InFlight ∧
      Effect.CancelRequest (exchangeRequest "https://api.playkit.ai" "at1")
        ∉ overtakenExchangeSystem.Trace ++ (Cleanup overtakenExchangeSystem.Flow).2 ∧
      (Cleanup overtakenExchangeSystem.Flow).2.length = 3 ∧
      (HandlePlayerTokenResponse (some scenarioExchangeResponse) true
        (Cleanup overtakenExchangeSystem.Flow).1).1.Status = EDeviceAuthStatus.Success) := by
  have ht := Cleanup_timers s
  refine ⟨Cleanup_idem s, (Cleanup_cleared s).1, ?_, (Cleanup_cleared s).2, ?_, ?_,
    ⟨Reachable_run _ Reachable_scenarioPollingSystem _, by decide, by decide⟩,
    ⟨Reachable_run _ Reachable_scenarioPollingSystem _, by decide, by decide, by decide,
      by decide, by decide⟩⟩
  · intro Request hreq
    rw [Cleanup_snd, hreq]
    simp
  · intro hw
    exact ⟨ht.1.trans (by simp [hw]), ht.2.1.trans (by simp [hw])⟩
  · intro hw
    exact ⟨ht.1.trans (by simp [hw]), ht.2.1.trans (by simp [hw])⟩

set_option maxRecDepth 100000 in
/-- Witness for C21: `Cleanup` in the polling flow of scenario A, where a session is stored,
both timers are armed and the world pointer is valid. -/
theorem C21_witness :
    scenarioPollingSystem.Flow.WorldPtr = true ∧
    scenarioPollingSystem.Flow.PollingTimerHandle ≠ none ∧
    scenarioPollingSystem.Flow.DeviceCode = "dc1" ∧
    (Cleanup (Cleanup scenarioPollingSystem.Flow).1).1 = (Cleanup scenarioPollingSystem.Flow).1 ∧
    SessionCleared (Cleanup scenarioPollingSystem.Flow).1 ∧
    ((Cleanup scenarioPollingSystem.Flow).1.PollingTimerHandle = none ∧
      (Cleanup scenarioPollingSystem.Flow).1.ExpirationTimerHandle = none) :=
  ⟨by decide, by decide, by decide,
   (C21_Cleanup_idempotent scenarioPollingSystem.Flow).1,
   (C21_Cleanup_idempotent scenarioPollingSystem.Flow).2.2.2.1,
   (C21_Cleanup_idempotent scenarioPollingSystem.Flow).2.2.2.2.1 (by decide)⟩

set_option maxRecDepth 100000 in
/-- C22 (code bug): each terminal transition (`CancelAuthFlow` on an active flow,
`CompleteWithError`, `CompleteWithSuccess`, the `expired_token` and `access_denied` branches
of `HandleTokenResponse`, the expiry-timer callback), from every flow state `s`, has the
effects of `Cleanup` first, none of which is a broadcast, then
`OnStatusChanged(old, terminal status)`, then its `OnAuthError` or `OnAuthSuccess`; the state
at these broadcasts is the one `Cleanup` left with the terminal status set: no request in
`CurrentHttpRequest`, the session and PKCE fields empty, both timers cleared when the world
pointer is valid and the timer handles as they were when it is not. But a request in flight
that is no longer held in `CurrentHttpRequest` is in flight at the broadcasts: when the expiry
timer fires in `overtakenExchangeSystem`, `OnStatusChanged(Polling, Expired)` and
`OnAuthError` are broadcast while the exchange request, never cancelled, is still in flight,
and its answer then broadcasts `OnStatusChanged(Expired, Success)` and `OnAuthSuccess` after
the terminal event. -/
theorem C22_cleanup_precedes_broadcasts (s : FlowState) :
    ((Cleanup s).1.CurrentHttpRequest = none ∧ SessionCleared (Cleanup s).1 ∧
      (∀ e ∈ (Cleanup s).2, e.isBroadcast = false) ∧
      (s.WorldPtr = true →
        (Cleanup s).1.PollingTimerHandle = none ∧
        (Cleanup s).1.ExpirationTimerHandle = none) ∧
      (s.WorldPtr = false →
        (Cleanup s).1.PollingTimerHandle = s.PollingTimerHandle ∧
        (Cleanup s).1.ExpirationTimerHandle = s.ExpirationTimerHandle)) ∧
    (∀ (n : EDeviceAuthStatus) (l : List Effect) (r : Outcome),
      CleanupThenBroadcast s n l r →
      r.1.Status = n ∧ r.1.CurrentHttpRequest = none ∧ SessionCleared r.1 ∧
      r.1.PollingTimerHandle = (Cleanup s).1.PollingTimerHandle ∧
      r.1.ExpirationTimerHandle = (Cleanup s).1.ExpirationTimerHandle) ∧
    (IsActive s = true →
      CleanupThenBroadcast s EDeviceAuthStatus.Cancelled [] (CancelAuthFlow s)) ∧
    (∀ ErrorCode ErrorMessage : String,
      CleanupThenBroadcast s EDeviceAuthStatus.Error
        [Effect.OnAuthError ErrorCode ErrorMessage]
        (CompleteWithError ErrorCode ErrorMessage s)) ∧
    (∀ Result : FDeviceAuthResult,
      CleanupThenBroadcast s EDeviceAuthStatus.Success [Effect.OnAuthSuccess Result]
        (CompleteWithSuccess Result s)) ∧
    (∀ (Response : FHttpResponse) (JsonObject : FJsonObject),
      Response.ResponseCode = 400 → Response.Json = some JsonObject →
      JsonObject.GetStringField "error" = "expired_token" →
      CleanupThenBroadcast s EDeviceAuthStatus.Expired
        [Effect.OnAuthError "EXPIRED" "Device code expired"]
        (HandleTokenResponse (some Response) true s)) ∧
    (∀ (Response : FHttpResponse) (JsonObject : FJsonObject),
      Response.ResponseCode = 400 → Response.Json = some JsonObject →
      JsonObject.GetStringField "error" = "access_denied" →
      CleanupThenBroadcast s EDeviceAuthStatus.Error
        [Effect.OnAuthError "ACCESS_DENIED" "User denied authorization"]
        (HandleTokenResponse (some Response) true s)) ∧
    CleanupThenBroadcast s EDeviceAuthStatus.Expired
      [Effect.OnAuthError "EXPIRED" "Device code expired. Please start again."]
      (OnExpirationTimer s) ∧
    (Reachable overtakenExchangeSystem ∧
      Handler.HandlePlayerTokenResponse
        ∈ (overtakenExchangeSystem.run [Event.ExpirationTimerFires]).InFlight ∧
      Effect.CancelRequest (exchangeRequest "https://api.playkit.ai" "at1")
        ∉ (overtakenExchangeSystem.run [Event.ExpirationTimerFires]).Trace ∧
      (overtakenExchangeSystem.run [Event.ExpirationTimerFires]).Trace.filter
          Effect.isBroadcast
        = overtakenExchangeSystem.Trace.filter Effect.isBroadcast ++
          [Effect.OnStatusChanged EDeviceAuthStatus.Polling EDeviceAuthStatus.Expired,
           Effect.OnAuthError "EXPIRED" "Device code expired. Please start again."] ∧
      (overtakenExchangeSystem.run
        [Event.ExpirationTimerFires,
         Event.ResponseArrives Handler.HandlePlayerTokenResponse (some scenarioExchangeResponse)
           true]).Trace.filter Effect.isBroadcast
        = overtakenExchangeSystem.Trace.filter Effect.isBroadcast ++
          [Effect.OnStatusChanged EDeviceAuthStatus.Polling EDeviceAuthStatus.Expired,
           Effect.OnAuthError "EXPIRED" "Device code expired. Please start again.",
           Effect.OnStatusChanged EDeviceAuthStatus.Expired EDeviceAuthStatus.Success,
           Effect.OnAuthSuccess
             { bSuccess := true, AccessToken := "", RefreshToken := "", UserId := "u1",
               PlayerToken := "pt1", ExpiresIn := 3600 }]) := by
  have ht := Cleanup_timers s
  have hc := Cleanup_cleared s
  refine ⟨⟨hc.1, hc.2, Cleanup_no_broadcast _, ?_, ?_⟩, ?_, ?_, ?_, ?_, ?_, ?_, ?_,
    ⟨Reachable_run _ Reachable_scenarioPollingSystem _, by decide, by decide, by decide,
      by decide⟩⟩
  · intro hw
    exact ⟨ht.1.trans (by simp [hw]), ht.2.1.trans (by simp [hw])⟩
  · intro hw
    exact ⟨ht.1.trans (by simp [hw]), ht.2.1.trans (by simp [hw])⟩
  · intro n l r h
    rw [h.1]
    exact ⟨rfl, hc.1, hc.2, rfl, rfl⟩
  · intro ha
    have e : CancelAuthFlow s =
        ((Cleanup s).andThen (SetStatus EDeviceAuthStatus.Cancelled)).andThen fun t =>
          (t, []) := by
      simp [CancelAuthFlow, ha, Outcome.andThen]
    rw [e]
    exact CleanupThenBroadcast_terminal _ _ _
  · intro c m
    exact CleanupThenBroadcast_terminal _ _ _
  · intro R
    exact CleanupThenBroadcast_terminal _ _ _
  · intro Response JsonObject hc hj he
    have h1 : FStringEq "expired_token" "authorization_pending" = false := by decide
    have h2 : FStringEq "expired_token" "slow_down" = false := by decide
    have h3 : FStringEq "expired_token" "expired_token" = true := by decide
    have e : HandleTokenResponse (some Response) true s =
        ((Cleanup s).andThen (SetStatus EDeviceAuthStatus.Expired)).andThen fun t =>
          (t, [Effect.OnAuthError "EXPIRED" "Device code expired"]) := by
      simp [HandleTokenResponse, hj, hc, he, h1, h2, h3]
    rw [e]
    exact CleanupThenBroadcast_terminal _ _ _
  · intro Response JsonObject hc hj he
    have h4 : FStringEq "access_denied" "authorization_pending" = false := by decide
    have h5 : FStringEq "access_denied" "slow_down" = false := by decide
    have h6 : FStringEq "access_denied" "expired_token" = false := by decide
    have h7 : FStringEq "access_denied" "access_denied" = true := by decide
    have e : HandleTokenResponse (some Response) true s =
        ((Cleanup s).andThen (SetStatus EDeviceAuthStatus.Error)).andThen fun t =>
          (t, [Effect.OnAuthError "ACCESS_DENIED" "User denied authorization"]) := by
      simp [HandleTokenResponse, hj, hc, he, h4, h5, h6, h7]
    rw [e]
    exact CleanupThenBroadcast_terminal _ _ _
  · exact CleanupThenBroadcast_terminal _ _ _

set_option maxRecDepth 100000 in
/-- Witness for C22: the expiry timer fires in the polling flow of scenario A, whose world
pointer is valid. The request is cancelled and both timers are cleared before
`OnStatusChanged(Polling, Expired)` and `OnAuthError` are broadcast. -/
theorem C22_witness :
    scenarioPollingSystem.Flow.WorldPtr = true ∧
    (OnExpirationTimer scenarioPollingSystem.Flow).2.map Effect.isBroadcast
      = [false, false, false, true, true] ∧
    (OnExpirationTimer scenarioPollingSystem.Flow).2.drop 1
      = [Effect.ClearTimer TimerHandle.PollingTimerHandle,
         Effect.ClearTimer TimerHandle.ExpirationTimerHandle,
         Effect.OnStatusChanged EDeviceAuthStatus.Polling EDeviceAuthStatus.Expired,
         Effect.OnAuthError "EXPIRED" "Device code expired. Please start again."] ∧
    CleanupThenBroadcast scenarioPollingSystem.Flow EDeviceAuthStatus.Expired
      [Effect.OnAuthError "EXPIRED" "Device code expired. Please start again."]
      (OnExpirationTimer scenarioPollingSystem.Flow) ∧
    ((Cleanup scenarioPollingSystem.Flow).1.PollingTimerHandle = none ∧
      (Cleanup scenarioPollingSystem.Flow).1.ExpirationTimerHandle = none) :=
  ⟨by decide, by decide, by decide,
   (C22_cleanup_precedes_broadcasts scenarioPollingSystem.Flow).2.2.2.2.2.2.2.1,
   (C22_cleanup_precedes_broadcasts scenarioPollingSystem.Flow).1.2.2.2.1 (by decide)⟩

set_option maxRecDepth 100000 in
/-- C23 (code bug): in every reachable system the PKCE pair is either absent (both fields
empty) or consistent (`CodeChallenge` is `Base64UrlEncode(ComputeSHA256(utf8(CodeVerifier)))`),
but an active flow can be without a pair. In `restartedSystem` a second flow on the same
object is completed by the late answer of a poll of the first flow, and the answer of its own
device-code request, which was never cancelled, then arrives: the status is `Polling` with
both timers armed while `CodeVerifier` and `CodeChallenge` are empty, the challenge is not the
one derived from the verifier, and the next poll sends an empty `code_verifier`. The same
happens when the answer of a cancelled device-code request arrives with status 200. -/
theorem C23_active_flow_without_verifier (sys : System) (hr : Reachable sys) :
    ((sys.Flow.CodeVerifier = "" ∧ sys.Flow.CodeChallenge = "") ∨
      sys.Flow.CodeChallenge
        = Base64UrlEncode (ComputeSHA256 (utf8Bytes sys.Flow.CodeVerifier))) ∧
    (Reachable restartedSystem ∧
      restartedSystem.Flow.Status = EDeviceAuthStatus.Polling ∧
      restartedSystem.Flow.PollingTimerHandle = some ⟨5, true, 5⟩ ∧
      restartedSystem.Flow.CodeVerifier = "" ∧
      restartedSystem.Flow.CodeChallenge = "" ∧
      restartedSystem.Flow.CodeChallenge
        ≠ Base64UrlEncode (ComputeSHA256 (utf8Bytes restartedSystem.Flow.CodeVerifier)) ∧
      ((requestsSent (PollForToken restartedSystem.Flow).2).map fun Request => Request.Body)
        = [[("client_id", "game"), ("device_code", "dc1"),
            ("grant_type", "urn:ietf:params:oauth:grant-type:device_code"),
            ("code_verifier", "")]]) ∧
    (Reachable cancelledThenAnsweredSystem ∧
      cancelledThenAnsweredSystem.Flow.Status = EDeviceAuthStatus.Polling ∧
      cancelledThenAnsweredSystem.Flow.CodeVerifier = "") := by
  refine ⟨?_, ⟨Reachable_run _ (Reachable_run _ Reachable_scenarioPollingSystem _) _,
    by decide, by decide, by decide, by decide, by decide, by decide⟩,
    ⟨Reachable_run _ Reachable.init _, by decide, by decide⟩⟩
  have h := (Reachable_SessionConsistent sys hr).1
  rw [GenerateCodeChallenge_eq] at h
  exact h

set_option maxRecDepth 100000 in
/-- Witness for C23: in the polling flow of scenario A the pair is present and consistent. -/
theorem C23_witness :
    Reachable scenarioPollingSystem ∧
    scenarioPollingSystem.Flow.CodeVerifier = "AAECAwQFBgcICQoLDA0ODxAREhMUFRYXGBkaGxwdHh8" ∧
    ((scenarioPollingSystem.Flow.CodeVerifier = "" ∧
        scenarioPollingSystem.Flow.CodeChallenge = "") ∨
      scenarioPollingSystem.Flow.CodeChallenge
        = Base64UrlEncode (ComputeSHA256 (utf8Bytes scenarioPollingSystem.Flow.CodeVerifier))) :=
  ⟨Reachable_scenarioPollingSystem, by decide,
   (C23_active_flow_without_verifier scenarioPollingSystem Reachable_scenarioPollingSystem).1⟩

set_option maxRecDepth 100000 in
/-- C24 (code bug): in every reachable system whose status is `Success`, `Expired`,
`Cancelled` or `Error`, `DeviceCode`, `UserCode` and `AuthUrl` are empty, so that `GetAuthUrl`
and `GetUserCode` return the empty string, the PKCE pair is empty, and neither timer is armed
when the world pointer is valid; but `AccessToken` need not be empty. In `lateTokenSystem` the
answer of a poll request that was never cancelled arrives in a `Cancelled` flow, and
`HandleTokenResponse` stores its `access_token`: the status is `Cancelled` and `AccessToken`
is `"at1"`. When the world pointer is not valid `Cleanup` calls no `ClearTimer`:
`CancelAuthFlow` in `worldlessPollingSystem` leaves both timer handles set. -/
theorem C24_terminal_state_keeps_late_token (sys : System) (hr : Reachable sys)
    (hs : sys.Flow.Status = EDeviceAuthStatus.Success ∨
      sys.Flow.Status = EDeviceAuthStatus.Expired ∨
      sys.Flow.Status = EDeviceAuthStatus.Cancelled ∨
      sys.Flow.Status = EDeviceAuthStatus.Error) :
    (sys.Flow.DeviceCode = "" ∧ sys.Flow.UserCode = "" ∧ sys.Flow.AuthUrl = "" ∧
      GetAuthUrl sys.Flow = "" ∧ GetUserCode sys.Flow = "" ∧
      sys.Flow.CodeVerifier = "" ∧ sys.Flow.CodeChallenge = "" ∧
      (sys.Flow.WorldPtr = true →
        sys.Flow.PollingTimerHandle = none ∧ sys.Flow.ExpirationTimerHandle = none)) ∧
    (Reachable lateTokenSystem ∧
      lateTokenSystem.Flow.Status = EDeviceAuthStatus.Cancelled ∧
      lateTokenSystem.Flow.AccessToken = "at1" ∧
      lateTokenSystem.Flow.PollingTimerHandle = none ∧
      lateTokenSystem.Flow.ExpirationTimerHandle = none) ∧
    (Reachable (worldlessPollingSystem.run [Event.CancelAuthFlow]) ∧
      (worldlessPollingSystem.run [Event.CancelAuthFlow]).Flow.Status
        = EDeviceAuthStatus.Cancelled ∧
      (worldlessPollingSystem.run [Event.CancelAuthFlow]).Flow.WorldPtr = false ∧
      (worldlessPollingSystem.run [Event.CancelAuthFlow]).Flow.PollingTimerHandle
        = some ⟨5, true, 5⟩ ∧
      (worldlessPollingSystem.run [Event.CancelAuthFlow]).Flow.ExpirationTimerHandle
        = some ⟨300, false, 300⟩) := by
  have ha : IsActive sys.Flow = false :=
    IsActive_eq_false _ (Or.inr hs)
  have h := (Reachable_SessionConsistent sys hr).2 ha
  have ht := Reachable_TimersConsistent sys hr ha
  exact ⟨⟨h.1, h.2.1, h.2.2.1, h.2.2.1, h.2.1, h.2.2.2.1, h.2.2.2.2, ht⟩,
    ⟨Reachable_run _ (Reachable_run _ Reachable_scenarioPollingSystem _) _,
      by decide, by decide, by decide, by decide⟩,
    ⟨Reachable_run _ (Reachable_run _ Reachable_scenarioPollingSystem _) _,
      by decide, by decide, by decide, by decide⟩⟩

set_option maxRecDepth 100000 in
/-- Witness for C24: `cancelledSystem`, the cancelled flow of scenario D, before any late
answer arrives. -/
theorem C24_witness :
    Reachable cancelledSystem ∧
    cancelledSystem.Flow.Status = EDeviceAuthStatus.Cancelled ∧
    GetAuthUrl cancelledSystem.Flow = "" ∧ GetUserCode cancelledSystem.Flow = "" ∧
    cancelledSystem.Flow.PollingTimerHandle = none :=
  ⟨Reachable_run _ Reachable_scenarioPollingSystem _, by decide,
   (C24_terminal_state_keeps_late_token cancelledSystem
      (Reachable_run _ Reachable_scenarioPollingSystem _)
      (Or.inr (Or.inr (Or.inl (by decide))))).1.2.2.2.1,
   (C24_terminal_state_keeps_late_token cancelledSystem
      (Reachable_run _ Reachable_scenarioPollingSystem _)
      (Or.inr (Or.inr (Or.inl (by decide))))).1.2.2.2.2.1,
   ((C24_terminal_state_keeps_late_token cancelledSystem
      (Reachable_run _ Reachable_scenarioPollingSystem _)
      (Or.inr (Or.inr (Or.inl (by decide))))).1.2.2.2.2.2.2.2 (by decide)).1⟩

/-- C25: for every input of length `n < 2 ^ 61`, the padded length is `((n + 9 + 63) / 64) * 64`
without wrap, the least multiple of 64 that is at least `n + 9`; the buffer has that length,
the index `n` of the `0x80` write is inside it, the eight length bytes go to the eight
different indices `PaddedLen - 1 - i`, the last eight of the buffer, all above `n`; every block
read `Padded[Offset + 4i + k]` is inside the buffer, the schedule has 64 words and `K256` 64
entries, so that `W[i-2]`, `W[i-7]`, `W[i-15]`, `W[i-16]` and `K256[i]` are inside; the run
of `ComputeSHA256` in which every array access is checked succeeds with the same result, and
the result has exactly 32 bytes. A padded length below `2 ^ 31` is reached for
`n + 73 ≤ 2 ^ 31`. -/
theorem C25_ComputeSHA256_no_error (Data : List Nat) (hn : Data.length < 2 ^ 61) :
    (PaddedLen Data.length = (Data.length + 9 + 63) / 64 * 64 ∧
      PaddedLen Data.length % 64 = 0 ∧ Data.length + 9 ≤ PaddedLen Data.length ∧
      (∀ m, m % 64 = 0 → Data.length + 9 ≤ m → PaddedLen Data.length ≤ m) ∧
      (Data.length + 73 ≤ 2 ^ 31 → PaddedLen Data.length < 2 ^ 31)) ∧
    ((buildPadded Data).length = PaddedLen Data.length ∧
      Data.length < (buildPadded Data).length ∧
      (∀ i, i < 8 →
        sub64 (sub64 (PaddedLen Data.length) 1) i = PaddedLen Data.length - 1 - i ∧
        PaddedLen Data.length - 8 ≤ PaddedLen Data.length - 1 - i ∧
        PaddedLen Data.length - 1 - i < (buildPadded Data).length ∧
        Data.length < PaddedLen Data.length - 1 - i) ∧
      (∀ i j, i < 8 → j < 8 →
        PaddedLen Data.length - 1 - i = PaddedLen Data.length - 1 - j → i = j)) ∧
    (∀ k i j, k < (PaddedLen Data.length + 63) / 64 → i < 16 → j < 4 →
      u64 (u64 (k * 64) + i * 4 + j) = k * 64 + i * 4 + j ∧
      k * 64 + i * 4 + j < (buildPadded Data).length) ∧
    (∀ Offset i, 16 ≤ i → i < 64 →
      (expandBlock (loadBlock (buildPadded Data) Offset (List.replicate 64 0))).length = 64 ∧
      i - 2 < 64 ∧ i - 7 < 64 ∧ i - 15 < 64 ∧ i - 16 < 64 ∧ i < K256.length) ∧
    Checked.ComputeSHA256 Data = some (ComputeSHA256 Data) ∧
    (ComputeSHA256 Data).length = 32 := by
  have hb := PaddedLen_bounds Data.length hn
  have he := PaddedLen_eq Data.length hn
  have hp := (Checked_buildPadded_eq Data hn).2
  refine ⟨⟨?_, hb.2.2.1, hb.1, ?_, ?_⟩, ⟨hp, ?_, ?_, ?_⟩, ?_, ?_,
    Checked_ComputeSHA256_eq Data hn, ComputeSHA256_length Data⟩
  · rw [he]
  · intro m hm hle
    rw [he]
    omega
  · intro h
    rw [he]
    omega
  · rw [hp]; omega
  · intro i hi
    rw [hp, sub64_eq _ 1 (by omega) (by omega), sub64_eq _ i (by omega) (by omega)]
    omega
  · intro i j hi hj hij
    omega
  · intro k i j hk hi hj
    rw [hp, u64_eq (k * 64) (by omega), u64_eq _ (by omega)]
    omega
  · intro Offset i h16 hi
    have hl : (loadBlock (buildPadded Data) Offset (List.replicate 64 0)).length = 64 := by
      unfold loadBlock
      exact (forLoop_length_set _ 16 0 _).trans (by simp)
    refine ⟨(Checked_expandBlock_eq _ hl).2, ?_, ?_, ?_, ?_, ?_⟩ <;>
      first | omega | (rw [K256_length]; exact hi)

set_option maxRecDepth 100000 in
/-- Witness for C25: the three bytes of `"abc"`. The buffer has 64 bytes; the checked run
returns the digest, while a block read at offset 64, outside the buffer, fails. -/
theorem C25_witness :
    [97, 98, 99].length < 2 ^ 61 ∧
    PaddedLen [97, 98, 99].length = 64 ∧
    Checked.ComputeSHA256 [97, 98, 99] = some (ComputeSHA256 [97, 98, 99]) ∧
    (ComputeSHA256 [97, 98, 99]).length = 32 ∧
    Checked.loadBlock (buildPadded [97, 98, 99]) 64 (List.replicate 64 0) = none ∧
    readAt K256 64 = none :=
  ⟨by decide, by decide,
   (C25_ComputeSHA256_no_error [97, 98, 99] (by decide)).2.2.2.2.1,
   (C25_ComputeSHA256_no_error [97, 98, 99] (by decide)).2.2.2.2.2,
   by decide, by decide⟩

/-- C26: the two copies of the PKCE computation agree. For every byte sequence the
`ComputeSHA256` of `PlayKitSettingsWindow.cpp` returns what the `ComputeSHA256` of
`PlayKitDeviceAuthFlow.cpp` returns, and for every outcome `Rand` of the random draw the
verifier that `StartDeviceAuthFlow` stores is the string `GenerateCodeVerifier` returns and the
challenge it sends is `GenerateCodeChallenge` of that verifier, whatever the engine's
`operator/` makes of the base URL and the path. -/
theorem C26_editor_and_runtime_pkce_agree (Data : List Nat) (Rand : Nat → Nat)
    (w : SettingsWindow.WindowState) (PathAppend : String → String → String) :
    SettingsWindow.ComputeSHA256 Data = ComputeSHA256 Data ∧
    (SettingsWindow.StartDeviceAuthFlow PathAppend Rand w).1.StoredCodeVerifier
      = GenerateCodeVerifier Rand ∧
    (SettingsWindow.StartDeviceAuthFlow PathAppend Rand w).2
      = [SettingsWindow.WindowEffect.ProcessRequest
          (PathAppend w.BaseUrl "api/device-auth/initiate") "POST"
          [("code_challenge", GenerateCodeChallenge (GenerateCodeVerifier Rand)),
           ("code_challenge_method", "S256"), ("scope", "developer:full")]] :=
  ⟨SettingsWindow_ComputeSHA256_eq Data, rfl, rfl⟩

/-- C28: `SetStatus(n)` broadcasts `OnStatusChanged(previous status, n)` and assigns the status
when `n` differs from the current status, and changes nothing and broadcasts nothing when it
is equal. Hence in every reachable system every `OnStatusChanged(old, new)` broadcast so far
has `old ≠ new`, and `CancelAuthFlow` on an active flow, in every state, broadcasts exactly
one `OnStatusChanged`, from the old status to `Cancelled`, and neither `OnAuthError` nor
`OnAuthSuccess`. -/
theorem C28_SetStatus_broadcasts_real_changes (sys : System) (hr : Reachable sys)
    (n : EDeviceAuthStatus) (s : FlowState) :
    (s.Status ≠ n →
      SetStatus n s = ({ s with Status := n }, [Effect.OnStatusChanged s.Status n])) ∧
    (s.Status = n → SetStatus n s = (s, [])) ∧
    (∀ OldStatus NewStatus, Effect.OnStatusChanged OldStatus NewStatus ∈ sys.Trace →
      OldStatus ≠ NewStatus) ∧
    (IsActive s = true →
      (CancelAuthFlow s).1.Status = EDeviceAuthStatus.Cancelled ∧
      statusChanges (CancelAuthFlow s).2 = [(s.Status, EDeviceAuthStatus.Cancelled)] ∧
      authErrors (CancelAuthFlow s).2 = [] ∧
      authSuccesses (CancelAuthFlow s).2 = []) := by
  refine ⟨?_, ?_, ?_, ?_⟩
  · intro h; simp [SetStatus, h]
  · intro h; simp [SetStatus, h]
  · intro a b hmem
    have := Reachable_StatusChangesDiffer sys hr (a, b) (by
      simp only [statusChanges, List.mem_filterMap]
      exact ⟨_, hmem, rfl⟩)
    exact this
  · intro ha
    have hne : s.Status ≠ EDeviceAuthStatus.Cancelled := by
      intro h; simp [IsActive, h] at ha
    have e : CancelAuthFlow s =
        ((Cleanup s).andThen (SetStatus EDeviceAuthStatus.Cancelled)).andThen fun t =>
          (t, []) := by
      simp [CancelAuthFlow, ha, Outcome.andThen]
    have hsp := terminal_spec EDeviceAuthStatus.Cancelled [] s
    rw [e]
    refine ⟨hsp.1, ?_, hsp.2.2.2.1, hsp.2.2.2.2.2.1⟩
    rw [hsp.2.2.2.2.2.2.2.2.2]
    simp [hne, statusChanges]

set_option maxRecDepth 100000 in
/-- Witness for C28: the polling flow of scenario A, whose status broadcasts so far were
`(Idle, Pending)` and `(Pending, Polling)`, and `CancelAuthFlow` in it; `SetStatus(Polling)`
in a `Polling` state and in a `Pending` state. -/
theorem C28_witness :
    Reachable scenarioPollingSystem ∧
    statusChanges scenarioPollingSystem.Trace
      = [(EDeviceAuthStatus.Idle, EDeviceAuthStatus.Pending),
         (EDeviceAuthStatus.Pending, EDeviceAuthStatus.Polling)] ∧
    SetStatus EDeviceAuthStatus.Polling scenarioPollingState = (scenarioPollingState, []) ∧
    (SetStatus EDeviceAuthStatus.Polling pendingState).2
      = [Effect.OnStatusChanged EDeviceAuthStatus.Pending EDeviceAuthStatus.Polling] ∧
    ((CancelAuthFlow scenarioPollingState).1.Status = EDeviceAuthStatus.Cancelled ∧
      statusChanges (CancelAuthFlow scenarioPollingState).2
        = [(scenarioPollingState.Status, EDeviceAuthStatus.Cancelled)] ∧
      authErrors (CancelAuthFlow scenarioPollingState).2 = [] ∧
      authSuccesses (CancelAuthFlow scenarioPollingState).2 = []) :=
  ⟨Reachable_scenarioPollingSystem, by decide,
   (C28_SetStatus_broadcasts_real_changes scenarioPollingSystem Reachable_scenarioPollingSystem
      EDeviceAuthStatus.Polling scenarioPollingState).2.1 (by decide),
   by decide,
   (C28_SetStatus_broadcasts_real_changes scenarioPollingSystem Reachable_scenarioPollingSystem
      EDeviceAuthStatus.Polling scenarioPollingState).2.2.2 (by decide)⟩

/-- C29: when a device-code response with status 200, a parseable body and non-empty
`device_code` and `verification_uri` arrives in a `Pending` flow whose world pointer is not
valid, no `SetTimer` call is made and both timer handles stay as they were, the flow ends in
status `Error` with exactly one `OnAuthError`, with code `"WORLD_ERROR"`, and the status
broadcasts are `(Pending, Polling)` then `(Polling, Error)`; of all broadcasts
`OnAuthUrlReady` comes first, before both status broadcasts and the error. -/
theorem C29_no_world_at_StartPolling (s : FlowState) (Response : FHttpResponse)
    (JsonObject : FJsonObject) (hs : s.Status = EDeviceAuthStatus.Pending)
    (hw : s.WorldPtr = false) (hc : Response.ResponseCode = 200)
    (hj : Response.Json = some JsonObject)
    (hd : JsonObject.GetStringField "device_code" ≠ "")
    (hu : JsonObject.GetStringField "verification_uri" ≠ "") :
    (HandleDeviceCodeResponse (some Response) true s).1.Status = EDeviceAuthStatus.Error ∧
    (HandleDeviceCodeResponse (some Response) true s).1.PollingTimerHandle
      = s.PollingTimerHandle ∧
    (HandleDeviceCodeResponse (some Response) true s).1.ExpirationTimerHandle
      = s.ExpirationTimerHandle ∧
    timersSet (HandleDeviceCodeResponse (some Response) true s).2 = [] ∧
    authErrors (HandleDeviceCodeResponse (some Response) true s).2
      = [("WORLD_ERROR", "World not available for timers")] ∧
    statusChanges (HandleDeviceCodeResponse (some Response) true s).2
      = [(EDeviceAuthStatus.Pending, EDeviceAuthStatus.Polling),
         (EDeviceAuthStatus.Polling, EDeviceAuthStatus.Error)] ∧
    (HandleDeviceCodeResponse (some Response) true s).2.filter Effect.isBroadcast
      = [Effect.OnAuthUrlReady (JsonObject.GetStringField "verification_uri")
           (JsonObject.GetStringField "user_code"),
         Effect.OnStatusChanged EDeviceAuthStatus.Pending EDeviceAuthStatus.Polling,
         Effect.OnStatusChanged EDeviceAuthStatus.Polling EDeviceAuthStatus.Error,
         Effect.OnAuthError "WORLD_ERROR" "World not available for timers"] := by
  cases hreq : s.CurrentHttpRequest <;>
    simp [HandleDeviceCodeResponse, hc, hj, hd, hu, StartPolling, Outcome.andThen, SetStatus,
      hs, hw, CompleteWithError, Cleanup, hreq, timersSet, authErrors, statusChanges,
      Effect.isBroadcast]

set_option maxRecDepth 100000 in
/-- Witness for C29: `StartAuthFlow` on a fresh flow object when the engine has no game
viewport, then the device-code response of scenario A. The status broadcasts of the whole run
are `(Idle, Pending)`, `(Pending, Polling)`, `(Polling, Error)`, and neither timer is armed at
the end. -/
theorem C29_witness :
    noWorldPendingState.Status = EDeviceAuthStatus.Pending ∧
    noWorldPendingState.WorldPtr = false ∧
    statusChanges (System.run {}
      [Event.StartAuthFlow "game" "player:play" (fun i => i) none,
       Event.ResponseArrives Handler.HandleDeviceCodeResponse (some scenarioDeviceCodeResponse)
         true]).Trace
      = [(EDeviceAuthStatus.Idle, EDeviceAuthStatus.Pending),
         (EDeviceAuthStatus.Pending, EDeviceAuthStatus.Polling),
         (EDeviceAuthStatus.Polling, EDeviceAuthStatus.Error)] ∧
    (HandleDeviceCodeResponse (some scenarioDeviceCodeResponse) true
      noWorldPendingState).1.PollingTimerHandle = none ∧
    (HandleDeviceCodeResponse (some scenarioDeviceCodeResponse) true
      noWorldPendingState).1.Status = EDeviceAuthStatus.Error ∧
    authErrors (HandleDeviceCodeResponse (some scenarioDeviceCodeResponse) true
      noWorldPendingState).2 = [("WORLD_ERROR", "World not available for timers")] :=
  ⟨by decide, by decide, by decide, by decide,
   (C29_no_world_at_StartPolling noWorldPendingState scenarioDeviceCodeResponse
      (FJsonObject.ofFields
        [("device_code", "dc1"), ("user_code", "ABCD-1234"),
         ("verification_uri", "https://x/verify")]
        [("interval", 5), ("expires_in", 300)])
      (by decide) (by decide) rfl rfl (by decide) (by decide)).1,
   (C29_no_world_at_StartPolling noWorldPendingState scenarioDeviceCodeResponse
      (FJsonObject.ofFields
        [("device_code", "dc1"), ("user_code", "ABCD-1234"),
         ("verification_uri", "https://x/verify")]
        [("interval", 5), ("expires_in", 300)])
      (by decide) (by decide) rfl rfl (by decide) (by decide)).2.2.2.2.1⟩

/-- C30: for every game name, channel display string and game id such that the id contains no
`(`, `OnGameSelected` applied to the option string `"<name> [<channel>] (<id>)"` that
`HandleGamesResponse` builds stores exactly `<id>` in `Settings->GameId`, saves the settings
and loads the models, whatever parentheses the name or the channel contain: the last `(` is
the one in front of the id, the last `)` is the last character, and the id is the text
between them. (A `)` inside the id does no harm.) -/
theorem C30_game_id_round_trip (GameName ChannelDisplay GameId : String)
    (w : SettingsWindow.WindowState) (hid : '(' ∉ GameId.data) :
    SettingsWindow.OnGameSelected
      (some (SettingsWindow.GameOption GameName ChannelDisplay GameId)) w
      = ({ w with GameId := GameId },
         [SettingsWindow.WindowEffect.SaveSettings, SettingsWindow.WindowEffect.LoadModels]) ∧
    SettingsWindow.FString.Find '(' (SettingsWindow.GameOption GameName ChannelDisplay GameId)
      = (GameName.length + 2 + ChannelDisplay.length + 2 : Nat) ∧
    SettingsWindow.FString.Find ')' (SettingsWindow.GameOption GameName ChannelDisplay GameId)
      = ((SettingsWindow.GameOption GameName ChannelDisplay GameId).length - 1 : Nat) ∧
    SettingsWindow.FString.Mid (SettingsWindow.GameOption GameName ChannelDisplay GameId)
      (SettingsWindow.FString.Find '('
        (SettingsWindow.GameOption GameName ChannelDisplay GameId) + 1)
      (SettingsWindow.FString.Find ')'
          (SettingsWindow.GameOption GameName ChannelDisplay GameId)
        - SettingsWindow.FString.Find '('
          (SettingsWindow.GameOption GameName ChannelDisplay GameId) - 1)
      = GameId := by
  have ho := Find_open GameName ChannelDisplay GameId hid
  have hc := Find_close GameName ChannelDisplay GameId
  have hm := Mid_GameOption GameName ChannelDisplay GameId
  have hmid : SettingsWindow.FString.Mid
      (SettingsWindow.GameOption GameName ChannelDisplay GameId)
      (SettingsWindow.FString.Find '('
        (SettingsWindow.GameOption GameName ChannelDisplay GameId) + 1)
      (SettingsWindow.FString.Find ')'
          (SettingsWindow.GameOption GameName ChannelDisplay GameId)
        - SettingsWindow.FString.Find '('
          (SettingsWindow.GameOption GameName ChannelDisplay GameId) - 1)
      = GameId := by
    rw [ho, hc]
    have : ((GameName.data ++ [' ', '['] ++ ChannelDisplay.data ++ [']', ' ']).length : Int)
        + 1 + GameId.data.length
        - ((GameName.data ++ [' ', '['] ++ ChannelDisplay.data ++ [']', ' ']).length : Int) - 1
        = GameId.data.length := by omega
    rw [this]
    exact hm
  refine ⟨?_, ?_, ?_, hmid⟩
  · unfold SettingsWindow.OnGameSelected
    have h1 : SettingsWindow.FString.Find '('
        (SettingsWindow.GameOption GameName ChannelDisplay GameId)
        ≠ SettingsWindow.INDEX_NONE := by
      rw [ho]; unfold SettingsWindow.INDEX_NONE; omega
    have h2 : SettingsWindow.FString.Find ')'
        (SettingsWindow.GameOption GameName ChannelDisplay GameId)
        ≠ SettingsWindow.INDEX_NONE := by
      rw [hc]; unfold SettingsWindow.INDEX_NONE; omega
    simp only [h1, h2, ne_eq, not_false_eq_true, and_self, if_true, hmid]
  · rw [ho]
    have hl : ∀ s : String, s.length = s.data.length := fun _ => rfl
    simp only [hl, List.length_append, List.length_cons, List.length_nil]
  · rw [hc]
    have hl : ∀ s : String, s.length = s.data.length := fun _ => rfl
    simp only [hl, GameOption_data, List.length_append, List.length_cons, List.length_nil]
    push_cast
    omega

set_option maxRecDepth 100000 in
/-- Witness for C30: a game whose name and channel hold parentheses of their own, and what a
`(` inside the id does. -/
theorem C30_witness :
    '(' ∉ "g-123".data ∧
    SettingsWindow.GameOption "Pet (beta)" "Steam (demo)" "g-123"
      = "Pet (beta) [Steam (demo)] (g-123)" ∧
    (SettingsWindow.OnGameSelected (some "Pet (beta) [Steam (demo)] (g-123)") {}).1.GameId
      = "g-123" ∧
    (SettingsWindow.OnGameSelected
      (some (SettingsWindow.GameOption "Pet" "Standalone" "a(b")) {}).1.GameId = "b" ∧
    SettingsWindow.OnGameSelected
      (some (SettingsWindow.GameOption "Pet (beta)" "Steam (demo)" "g-123")) {}
      = ({ GameId := "g-123" },
         [SettingsWindow.WindowEffect.SaveSettings, SettingsWindow.WindowEffect.LoadModels]) :=
  ⟨by decide, by decide, by decide, by decide,
   (C30_game_id_round_trip "Pet (beta)" "Steam (demo)" "g-123" {} (by decide)).1⟩

end PlayKit
